import Mathlib

/-!
Verification of the symmetry-contour extraction pipeline of
`source/blender/draw/engines/overlay/overlay_symmetry_contour.{hh,cc}`.

The C++ code is shallowly embedded: `float` arithmetic is modelled by exact
real arithmetic, 64-bit unsigned machine integers by natural numbers reduced
modulo `2 ^ 64`, and `blender::Vector` / `blender::Map` / `blender::Set`
containers by lists and association lists.  Stateful methods of the
`SymmetryContour` class become explicit state-passing functions.
-/

namespace SymmetryContour

/-! ## Definitions -/

/-- Model of `float3`: a point or vector in local space. -/
structure V3 where
  x : ℝ
  y : ℝ
  z : ℝ

/-- Model of `float2`: a screen-space position. -/
structure V2 where
  x : ℝ
  y : ℝ

noncomputable instance : DecidableEq V3 := Classical.decEq V3

def V3.add (a b : V3) : V3 := ⟨a.x + b.x, a.y + b.y, a.z + b.z⟩

def V3.sub (a b : V3) : V3 := ⟨a.x - b.x, a.y - b.y, a.z - b.z⟩

def V3.smul (c : ℝ) (v : V3) : V3 := ⟨c * v.x, c * v.y, c * v.z⟩

def V3.dot (a b : V3) : ℝ := a.x * b.x + a.y * b.y + a.z * b.z

def V3.cross (a b : V3) : V3 :=
  ⟨a.y * b.z - a.z * b.y, a.z * b.x - a.x * b.z, a.x * b.y - a.y * b.x⟩

def V3.length_squared (v : V3) : ℝ := v.x * v.x + v.y * v.y + v.z * v.z

/-- Model of `math::length` on `float3`. -/
noncomputable def V3.length (v : V3) : ℝ := Real.sqrt v.length_squared

/-- Model of `math::distance` on `float3`. -/
noncomputable def dist3 (a b : V3) : ℝ := (a.sub b).length

def V2.sub (a b : V2) : V2 := ⟨a.x - b.x, a.y - b.y⟩

/-- Model of `math::length` on `float2`. -/
noncomputable def V2.length (v : V2) : ℝ := Real.sqrt (v.x * v.x + v.y * v.y)

/-- Model of `math::interpolate(a, b, t)` (linear mix). -/
def interpolate (a b : V3) (t : ℝ) : V3 :=
  ⟨a.x * (1 - t) + b.x * t, a.y * (1 - t) + b.y * t, a.z * (1 - t) + b.z * t⟩

/-- Model of `float4`. -/
structure V4 where
  x : ℝ
  y : ℝ
  z : ℝ
  w : ℝ

/-- Model of `float4x4`, row by row. -/
structure M4 where
  r0 : V4
  r1 : V4
  r2 : V4
  r3 : V4

def V4.dot (a b : V4) : ℝ := a.x * b.x + a.y * b.y + a.z * b.z + a.w * b.w

/-- Model of `persmat * float4(p, 1.0f)`. -/
def M4.apply_point (m : M4) (p : V3) : V4 :=
  let hp : V4 := ⟨p.x, p.y, p.z, 1⟩
  ⟨m.r0.dot hp, m.r1.dot hp, m.r2.dot hp, m.r3.dot hp⟩

/-- Model of `SymmetryPlane` (header lines 62-67). -/
structure SymmetryPlane where
  normal : V3
  point : V3
  distance : ℝ
  axis : ℤ

/-- The `1e-6f` classification epsilon of `intersect_triangle_plane`. -/
noncomputable def epsilon : ℝ := 1 / 1000000

/-- Signed distance of a vertex to the plane (lines 414-416). -/
noncomputable def signed_dist (v : V3) (plane : SymmetryPlane) : ℝ :=
  (v.sub plane.point).dot plane.normal

/-- A three-element array, modelling `float3 vertices[3]` and
`float distances[3]` (lines 433-434). -/
def tri {α : Type} (a b c : α) : Fin 3 → α :=
  fun i => if i = 0 then a else if i = 1 then b else c

/-- One iteration of the edge walk of `intersect_triangle_plane` (lines
438-451): does nothing once two intersection points were collected; an edge
with strictly opposite signs contributes the interpolated crossing; otherwise
an on-plane start vertex contributes itself. -/
noncomputable def edge_walk_step (verts : Fin 3 → V3) (dists : Fin 3 → ℝ)
    (i : Fin 3) (acc : List V3) : List V3 :=
  if 2 ≤ acc.length then acc
  else
    let nxt : Fin 3 := i + 1
    if (dists i > epsilon ∧ dists nxt < -epsilon) ∨
        (dists i < -epsilon ∧ dists nxt > epsilon) then
      acc ++ [interpolate (verts i) (verts nxt) (dists i / (dists i - dists nxt))]
    else if |dists i| ≤ epsilon then
      acc ++ [verts i]
    else
      acc

/-- The full edge walk over the three edges, in source order `i = 0, 1, 2`. -/
noncomputable def edge_walk (verts : Fin 3 → V3) (dists : Fin 3 → ℝ) : List V3 :=
  edge_walk_step verts dists 2 (edge_walk_step verts dists 1 (edge_walk_step verts dists 0 []))

/-- Number of vertices classified strictly positive (`d > epsilon`), lines
421-425. -/
noncomputable def positive_count (d0 d1 d2 : ℝ) : ℕ :=
  (if d0 > epsilon then 1 else 0) + (if d1 > epsilon then 1 else 0) +
    (if d2 > epsilon then 1 else 0)

/-- Model of `intersect_triangle_plane` (lines 408-460).  Returns `none` when
the function returns `false`, and `some (start, end)` when it returns `true`
with the two intersection points written to its output parameters. -/
noncomputable def intersect_triangle_plane (v0 v1 v2 : V3) (plane : SymmetryPlane) :
    Option (V3 × V3) :=
  let d0 := signed_dist v0 plane
  let d1 := signed_dist v1 plane
  let d2 := signed_dist v2 plane
  if positive_count d0 d1 d2 = 0 ∨ positive_count d0 d1 d2 = 3 then none
  else
    match edge_walk (tri v0 v1 v2) (tri d0 d1 d2) with
    | [a, b] => some (a, b)
    | _ => none

/-- The 64-bit wrap-around modulus. -/
def W64 : ℕ := 2 ^ 64

/-- Model of the C cast `(uint64_t)(i)` of a signed integer. -/
def u64_of_int (i : ℤ) : ℕ := (i % (2 ^ 64 : ℤ)).toNat

/-- Model of `QuantizedPointKey` (header lines 30-39). -/
structure QuantizedPointKey where
  qx : ℤ
  qy : ℤ
  axis : ℤ
deriving DecidableEq

/-- Model of `QuantizedPointKeyHash::operator()` (header lines 41-50): a
64-bit mix with wrap-around multiplication, addition and shifts. -/
def QuantizedPointKeyHash (key : QuantizedPointKey) : ℕ :=
  let h0 := (u64_of_int key.qx * 0x9e3779b97f4a7c15) % W64
  let h1 := Nat.xor h0
    ((u64_of_int key.qy * 0xc2b2ae3d27d4eb4f + h0 * 64 % W64 + h0 / 4) % W64)
  Nat.xor h1 ((u64_of_int (key.axis + 1) * 0x165667b19e3779f9 + h1 * 64 % W64 + h1 / 4) % W64)

/-- Model of `ContourSegment` (header lines 52-59). -/
structure ContourSegment where
  a : V3
  b : V3
  key_a : QuantizedPointKey
  key_b : QuantizedPointKey
  length : ℝ
  used : Bool

/-- The combine step shared by `segment_hash` (line 169) and `append_segment`
(line 202): `h0 XOR (h1 + 0x9e3779b97f4a7c15 + (h0 << 6) + (h0 >> 2))` in
64-bit arithmetic, applied after sorting so that `h0 ≤ h1`. -/
def hash_combine (h0 h1 : ℕ) : ℕ :=
  Nat.xor h0 ((h1 + 0x9e3779b97f4a7c15 + h0 * 64 % W64 + h0 / 4) % W64)

/-- Model of `SymmetryContour::segment_hash` (lines 160-170). -/
def segment_hash (seg : ContourSegment) : ℕ :=
  let h0 := QuantizedPointKeyHash seg.key_a
  let h1 := QuantizedPointKeyHash seg.key_b
  if h1 < h0 then hash_combine h1 h0 else hash_combine h0 h1

/-- Model of `PlaneData` (header lines 15-28).  The default field values of
the header are materialized by `build_plane_data`. -/
structure PlaneData where
  normal : V3
  point : V3
  tangent : V3
  bitangent : V3
  axis : ℤ
  quant_step : ℝ
  min_seg_len : ℝ
  min_loop_len : ℝ
  plane_tolerance : ℝ
  smooth_factor : ℝ
  smooth_iters : ℕ
  smooth_max_disp : ℝ

/-- Model of `ContourLoop` (header lines 78-83). -/
structure ContourLoop where
  points : List V3
  is_closed : Bool
  length : ℝ

/-- The displacement cap of the smoother (lines 310-313): when the raw
displacement is longer than `smooth_max_disp` it is rescaled to that length. -/
noncomputable def cap_displacement (plane : PlaneData) (delta : V3) : V3 :=
  if delta.length > plane.smooth_max_disp ∧ delta.length > 0 then
    V3.smul (plane.smooth_max_disp / delta.length) delta
  else
    delta

/-- One smoothing iteration (lines 303-316): every interior point moves
toward the average of its two neighbours by `smooth_factor`, capped by
`smooth_max_disp`; the data is read from the old array (Jacobi style). -/
noncomputable def smooth_iteration (plane : PlaneData) (pts : List V3) : List V3 :=
  (List.range pts.length).map (fun i =>
    let cur := pts.getD i ⟨0, 0, 0⟩
    if 1 ≤ i ∧ i + 1 < pts.length then
      let prev := pts.getD (i - 1) ⟨0, 0, 0⟩
      let next := pts.getD (i + 1) ⟨0, 0, 0⟩
      let target := V3.smul (1 / 2) (prev.add next)
      let delta := V3.smul plane.smooth_factor (target.sub cur)
      cur.add (cap_displacement plane delta)
    else
      cur)

/-- Model of `SymmetryContour::smooth_contour_limited` (lines 295-318). -/
noncomputable def smooth_contour_limited (contour : ContourLoop) (plane : PlaneData) :
    ContourLoop :=
  if contour.points.length < 3 then contour
  else { contour with points := (smooth_iteration plane)^[plane.smooth_iters] contour.points }

/-- Model of `project_point_to_screen` (lines 60-77).  Returns `none` when
the source returns false: `|w| < 1e-8` or `w < 0`.  The `isfinite` guard of
the source is vacuous in the exact real model, where every quotient of reals
is a real. -/
noncomputable def project_point_to_screen (world_pos : V3) (persmat : M4)
    (region_size : ℤ × ℤ) : Option V2 :=
  let clip := persmat.apply_point world_pos
  if |clip.w| < 1 / 100000000 ∨ clip.w < 0 then none
  else
    let ndc : V3 := ⟨clip.x / clip.w, clip.y / clip.w, clip.z / clip.w⟩
    some ⟨(ndc.x * (1 / 2) + 1 / 2) * (region_size.1 : ℝ),
      (ndc.y * (1 / 2) + 1 / 2) * (region_size.2 : ℝ)⟩

/-- Loop state of `decimate_contour_screen`: `prev_screen` is `some` exactly
when `prev_valid` is true in the source (the screen position is only ever
read under that flag), `accum` is the accumulated screen distance, and
`decimated` the output being built. -/
structure DecimState where
  prev_screen : Option V2
  accum : ℝ
  decimated : List V3

/-- One iteration of the decimation loop (lines 97-117): a point whose
projection and predecessor projection are both invalid is skipped outright;
otherwise the screen distance is accumulated when both are valid, and the
point is kept when the accumulation reaches `pixel_step` or when a valid
projection is followed by an invalid one. -/
noncomputable def decimate_step (persmat : M4) (region_size : ℤ × ℤ)
    (pixel_step : ℝ) (st : DecimState) (p : V3) : DecimState :=
  match st.prev_screen, project_point_to_screen p persmat region_size with
  | none, none => st
  | some prev, some curr =>
      let seg_len := (curr.sub prev).length
      let accum := st.accum + seg_len
      if accum ≥ pixel_step then ⟨some curr, 0, st.decimated ++ [p]⟩
      else ⟨some curr, accum, st.decimated⟩
  | some _, none => ⟨none, 0, st.decimated ++ [p]⟩
  | none, some curr =>
      if st.accum ≥ pixel_step then ⟨some curr, 0, st.decimated ++ [p]⟩
      else ⟨some curr, st.accum, st.decimated⟩

/-- Lines 119-121 of `decimate_contour_screen`: append the last input point
when the built list does not already end with it. -/
noncomputable def decimate_append_last (contour : ContourLoop) (decimated : List V3) :
    List V3 :=
  if decimated ≠ [] ∧ decimated.getLast? ≠ contour.points.getLast? then
    decimated ++ [(contour.points.getLast?).getD ⟨0, 0, 0⟩]
  else decimated

/-- Lines 123-125 of `decimate_contour_screen`: the points are replaced only
when at least two survive decimation. -/
noncomputable def decimate_finalize (contour : ContourLoop) (st : DecimState) :
    ContourLoop :=
  if 2 ≤ (decimate_append_last contour st.decimated).length then
    { contour with points := decimate_append_last contour st.decimated }
  else contour

/-- Model of `decimate_contour_screen` (lines 80-126). -/
noncomputable def decimate_contour_screen (contour : ContourLoop) (persmat : M4)
    (region_size : ℤ × ℤ) (pixel_step : ℝ) : ContourLoop :=
  if contour.points.length < 2 ∨ pixel_step ≤ 0 then contour
  else
    match contour.points with
    | [] => contour
    | p0 :: rest =>
      decimate_finalize contour
        (rest.foldl (decimate_step persmat region_size pixel_step)
          ⟨project_point_to_screen p0 persmat region_size, 0, [p0]⟩)

/-- The zero projection matrix of the C2 counterexample: every point maps to
clip-space `w = 0`, an invalid projection. -/
noncomputable def zero_mat : M4 := ⟨⟨0, 0, 0, 0⟩, ⟨0, 0, 0, 0⟩, ⟨0, 0, 0, 0⟩, ⟨0, 0, 0, 0⟩⟩

/-- Model of `math::normalize`. -/
noncomputable def normalize3 (v : V3) : V3 := V3.smul (1 / v.length) v

/-- Model of `SymmetryContour::build_plane_data` (lines 128-146).  The fields
the function does not touch keep the header default values (header lines
21-27).  The object matrix parameter is unused in the source. -/
noncomputable def build_plane_data (axis : ℤ) (offset : ℝ) (_obmat : M4) : PlaneData :=
  let normal : V3 :=
    ⟨if axis = 0 then 1 else 0, if axis = 1 then 1 else 0, if axis = 2 then 1 else 0⟩
  let point := V3.smul offset normal
  let tangent0 : V3 :=
    if axis = 0 then ⟨0, 1, 0⟩ else if axis = 1 then ⟨0, 0, 1⟩ else ⟨1, 0, 0⟩
  let bitangent0 := V3.cross normal tangent0
  let bitangent1 :=
    if bitangent0.length_squared < 1 / 100000000 then (⟨0, 0, 1⟩ : V3) else bitangent0
  { normal := normal
    point := point
    tangent := normalize3 tangent0
    bitangent := normalize3 bitangent1
    axis := axis
    quant_step := 1 / 10000
    min_seg_len := 1 / 10000
    min_loop_len := 1 / 1000
    plane_tolerance := 1 / 100000
    smooth_factor := 1 / 2
    smooth_iters := 3
    smooth_max_disp := 0 }

/-- The per-axis plane of `update_contours` (lines 765-770): tolerances scale
with the bounding-box diagonal, and the smoothing cap is a quarter of the
quantization step. -/
noncomputable def pipeline_plane (axis : ℤ) (diag : ℝ) (obmat : M4) : PlaneData :=
  let plane0 := build_plane_data axis 0 obmat
  { plane0 with
    quant_step := 1 / 10000 * diag
    min_seg_len := 1 / 10000 * diag
    min_loop_len := 1 / 1000 * diag
    plane_tolerance := 1 / 100000 * diag
    smooth_max_disp := 1 / 4 * (1 / 10000 * diag) }

/-- Model of `SymmetryContour::quantize_point` (lines 172-181). -/
noncomputable def quantize_point (p : V3) (plane : PlaneData) : QuantizedPointKey :=
  let u := p.dot plane.tangent
  let v := p.dot plane.bitangent
  let inv_step := 1 / plane.quant_step
  ⟨round (u * inv_step), round (v * inv_step), plane.axis⟩

/-- Model of `SymmetryContour::append_segment` (lines 183-214): drop segments
shorter than `min_seg_len`, deduplicate by the symmetric 64-bit hash, append
otherwise.  The pair result carries the updated segment list and hash set
(the `blender::Set` modelled as a list of added hashes). -/
noncomputable def append_segment (segments : List ContourSegment) (hashes : List ℕ)
    (p0 p1 : V3) (plane : PlaneData) : List ContourSegment × List ℕ :=
  let len := dist3 p0 p1
  if len < plane.min_seg_len then (segments, hashes)
  else
    let k0 := quantize_point p0 plane
    let k1 := quantize_point p1 plane
    let h0 := QuantizedPointKeyHash k0
    let h1 := QuantizedPointKeyHash k1
    let seg_hash := if h1 < h0 then hash_combine h1 h0 else hash_combine h0 h1
    if seg_hash ∈ hashes then (segments, hashes)
    else (segments ++ [⟨p0, p1, k0, k1, len, false⟩], hashes ++ [seg_hash])

/-- Lookup in the adjacency map (`blender::Map` modelled as an association
list keyed by endpoint-key hash). -/
def adj_lookup (m : List (ℕ × List ℕ)) (k : ℕ) : Option (List ℕ) :=
  (m.find? (fun e => e.1 == k)).map Prod.snd

/-- The `lookup_or_add_default(h).append(i)` operation of lines 335-336. -/
def adj_append (m : List (ℕ × List ℕ)) (k : ℕ) (v : ℕ) : List (ℕ × List ℕ) :=
  if (m.find? (fun e => e.1 == k)).isSome then
    m.map (fun e => if e.1 == k then (e.1, e.2 ++ [v]) else e)
  else
    m ++ [(k, [v])]

/-- The adjacency map over quantized endpoints (lines 328-337): segment `i`
is listed under the hash of each of its endpoint keys, in insertion order. -/
def build_adjacency (segments : List ContourSegment) : List (ℕ × List ℕ) :=
  (List.range segments.length).foldl (fun adj i =>
    match segments[i]? with
    | none => adj
    | some seg =>
        adj_append (adj_append adj (QuantizedPointKeyHash seg.key_a) i)
          (QuantizedPointKeyHash seg.key_b) i) []

/-- The chaining loop of lines 360-387: follow unused segments adjacent to
the current endpoint key, appending the far endpoint each time.  The loop
terminates because each step marks one segment used; a fuel of
`segments.length` therefore suffices. -/
def chain_loop (segments : List ContourSegment) (adjacency : List (ℕ × List ℕ)) :
    ℕ → List Bool → List V3 → QuantizedPointKey →
    List Bool × List V3 × QuantizedPointKey
  | 0, used, pts, current_key => (used, pts, current_key)
  | fuel + 1, used, pts, current_key =>
    match adj_lookup adjacency (QuantizedPointKeyHash current_key) with
    | none => (used, pts, current_key)
    | some next_list =>
      match next_list.find? (fun cand => !(used.getD cand true)) with
      | none => (used, pts, current_key)
      | some next_idx =>
        match segments[next_idx]? with
        | none => (used, pts, current_key)
        | some next_seg =>
          let used2 := used.set next_idx true
          if next_seg.key_a = current_key then
            chain_loop segments adjacency fuel used2 (pts ++ [next_seg.b]) next_seg.key_b
          else
            chain_loop segments adjacency fuel used2 (pts ++ [next_seg.a]) next_seg.key_a

/-- The polyline length of lines 389-392: sum of the distances between
consecutive points. -/
noncomputable def polyline_length : List V3 → ℝ
  | a :: b :: rest => dist3 a b + polyline_length (b :: rest)
  | _ => 0

/-- The body of the outer loop of `build_contours_from_segments` (lines
341-404) for one start segment: chain from it, compute the length, mark the
loop closed when it returned to its start hash with more than two points,
discard it when shorter than `min_loop_len`, and otherwise smooth and emit. -/
noncomputable def assemble_step (segments : List ContourSegment)
    (adjacency : List (ℕ × List ℕ)) (plane : PlaneData)
    (acc : List Bool × List ContourLoop) (start_idx : ℕ) :
    List Bool × List ContourLoop :=
  let used := acc.1
  let contours := acc.2
  if used.getD start_idx true then acc
  else
    match segments[start_idx]? with
    | none => acc
    | some seg =>
      let used1 := used.set start_idx true
      let res := chain_loop segments adjacency segments.length used1 [seg.a, seg.b] seg.key_b
      let pts := res.2.1
      let current_key := res.2.2
      let len := polyline_length pts
      let is_closed :=
        QuantizedPointKeyHash current_key == QuantizedPointKeyHash seg.key_a &&
          decide (2 < pts.length)
      if len < plane.min_loop_len then (res.1, contours)
      else (res.1, contours ++ [smooth_contour_limited ⟨pts, is_closed, len⟩ plane])

/-- Model of `SymmetryContour::build_contours_from_segments` (lines 320-405). -/
noncomputable def build_contours_from_segments (segments : List ContourSegment)
    (plane : PlaneData) : List ContourLoop :=
  if segments.isEmpty then []
  else
    let adjacency := build_adjacency segments
    ((List.range segments.length).foldl (assemble_step segments adjacency plane)
      (List.replicate segments.length false, [])).2

/-- The per-axis post-processing of `update_contours` (lines 994-1005):
assemble the contours of the merged segment set, then decimate each polyline
in screen space with the fixed `pixel_step` of 1.5 when a view is available
(`state.rv3d && state.region`). -/
noncomputable def axis_postprocess (segments : List ContourSegment) (plane : PlaneData)
    (view : Option (M4 × (ℤ × ℤ))) : List ContourLoop :=
  let contours := build_contours_from_segments segments plane
  match view with
  | some (viewproj, region_size) =>
      contours.map (fun c => decimate_contour_screen c viewproj region_size (3 / 2))
  | none => contours

/-- What every polyline emitted by the assembler looks like: the smoothing of
a chained polyline with at least two points whose pre-smoothing length passed
the `min_loop_len` filter. -/
def assembled_from_filtered (plane : PlaneData) (l : ContourLoop) : Prop :=
  ∃ pre : ContourLoop, l = smooth_contour_limited pre plane ∧
    2 ≤ pre.points.length ∧
    pre.length = polyline_length pre.points ∧
    ¬(pre.length < plane.min_loop_len)

noncomputable def c5_plane_lit : PlaneData :=
  ⟨⟨1, 0, 0⟩, ⟨0, 0, 0⟩, ⟨0, 1, 0⟩, ⟨0, 0, 1⟩, 0, 5, 5, 50, 1 / 2, 1 / 2, 3, 5 / 4⟩

noncomputable def c5_plane : PlaneData :=
  pipeline_plane 0 50000 ⟨⟨1, 0, 0, 0⟩, ⟨0, 1, 0, 0⟩, ⟨0, 0, 1, 0⟩, ⟨0, 0, 0, 1⟩⟩

noncomputable def c5_seg1 : ContourSegment :=
  ⟨⟨0, 0, 0⟩, ⟨0, 624 / 25, 182 / 25⟩, ⟨0, 0, 0⟩, ⟨5, 1, 0⟩, 26, false⟩

noncomputable def c5_seg2 : ContourSegment :=
  ⟨⟨0, 624 / 25, 182 / 25⟩, ⟨0, 624 / 25, 832 / 25⟩, ⟨5, 1, 0⟩, ⟨5, 7, 0⟩, 26, false⟩

/-- Model of `blender::Bounds<float3>`. -/
structure Bounds3 where
  min : V3
  max : V3

/-- Model of `SymmetryContour::aabb_intersects_plane` (lines 148-158). -/
noncomputable def aabb_intersects_plane (bounds : Bounds3) (plane : PlaneData) : Bool :=
  let center := V3.smul (1 / 2) (bounds.min.add bounds.max)
  let half := V3.smul (1 / 2) (bounds.max.sub bounds.min)
  let dist := (center.sub plane.point).dot plane.normal
  let radius := |plane.normal.x| * half.x + |plane.normal.y| * half.y +
    |plane.normal.z| * half.z
  decide (|dist| ≤ radius + plane.plane_tolerance)

/-- Model of the mesh topology the pipeline reads: vertex positions
(`vert_positions`) and, per face, the list of its corner vertex indices
(`OffsetIndices faces` plus `corner_verts`). -/
structure MeshData where
  positions : List V3
  faces : List (List ℕ)

/-- The `SymmetryPlane` built from a `PlaneData` at lines 241-245 and 971. -/
noncomputable def plane_cpu (plane : PlaneData) : SymmetryPlane :=
  ⟨plane.normal, plane.point, 0, plane.axis⟩

/-- Fan triangulation of one face against the plane (lines 230-252): for
`i = 1 .. size-2` intersect triangle `(face[0], face[i], face[i+1])` and
append the resulting segment. -/
noncomputable def process_face (positions : List V3) (face : List ℕ)
    (plane : PlaneData) (acc : List ContourSegment × List ℕ) :
    List ContourSegment × List ℕ :=
  if face.length < 3 then acc
  else
    let v0 := positions.getD (face.getD 0 0) ⟨0, 0, 0⟩
    (List.range face.length).foldl (fun acc2 i =>
      if 1 ≤ i ∧ i + 1 < face.length then
        let v1 := positions.getD (face.getD i 0) ⟨0, 0, 0⟩
        let v2 := positions.getD (face.getD (i + 1) 0) ⟨0, 0, 0⟩
        match intersect_triangle_plane v0 v1 v2 (plane_cpu plane) with
        | some (s, e) => append_segment acc2.1 acc2.2 s e plane
        | none => acc2
      else acc2) acc

/-- Model of a PBVH leaf node: its bounds and the indices of its faces. -/
structure PbvhNode where
  bounds : Bounds3
  faces : List ℕ

/-- Model of the PBVH (mesh type): the node array, the leaf-node index mask
(`all_leaf_nodes`), the root bounds (`bounds_get`) and the per-frame dirty
mask (`pbvh_positions_dirty_mask`); the last two are external collaborators
modelled as data. -/
structure Pbvh where
  nodes : List PbvhNode
  leaf_indices : List ℕ
  bounds : Bounds3
  dirty_nodes : List ℕ

/-- Model of `SymmetryContour::process_pbvh_mesh` (lines 216-254), which
fills a fresh segment list and hash set for one node. -/
noncomputable def process_pbvh_mesh (positions : List V3) (mesh : Option MeshData)
    (node : PbvhNode) (plane : PlaneData) : List ContourSegment × List ℕ :=
  match mesh with
  | none => ([], [])
  | some m =>
      node.faces.foldl (fun acc face_i =>
        match m.faces[face_i]? with
        | none => acc
        | some face => process_face positions face plane acc) ([], [])

/-- Model of `IntersectionSegment` (header lines 70-75). -/
structure IntersectionSegment where
  start : V3
  end_ : V3
  valid : Bool
  triangle_id : ℕ

/-- Model of `SymmetryContour::compute_intersections_cpu` (lines 462-503):
the full-mesh fallback without caching. -/
noncomputable def compute_intersections_cpu (mesh : Option MeshData)
    (pl : SymmetryPlane) : List IntersectionSegment :=
  match mesh with
  | none => []
  | some m =>
    if m.faces.length = 0 then []
    else
      (List.range m.faces.length).foldl (fun segs face_i =>
        match m.faces[face_i]? with
        | none => segs
        | some face =>
          if face.length < 3 then segs
          else
            (List.range face.length).foldl (fun segs2 i =>
              if 1 ≤ i ∧ i + 1 < face.length then
                let v0 := m.positions.getD (face.getD 0 0) ⟨0, 0, 0⟩
                let v1 := m.positions.getD (face.getD i 0) ⟨0, 0, 0⟩
                let v2 := m.positions.getD (face.getD (i + 1) 0) ⟨0, 0, 0⟩
                match intersect_triangle_plane v0 v1 v2 pl with
                | some (s, e) => segs2 ++ [⟨s, e, true, face_i⟩]
                | none => segs2
              else segs2) segs) []

/-- The per-axis node segment cache `Map<int, Vector<ContourSegment>>`
(header line 99), modelled as an association list keyed by node index. -/
abbrev SegCache : Type := List (ℕ × List ContourSegment)

/-- Model of `Map::lookup_ptr`. -/
def cache_lookup_entry (c : SegCache) (n : ℕ) : Option (List ContourSegment) :=
  (c.find? (fun e => e.1 == n)).map Prod.snd

/-- Model of `Map::add_overwrite`. -/
def cache_add_overwrite (c : SegCache) (n : ℕ) (v : List ContourSegment) : SegCache :=
  if (c.find? (fun e => e.1 == n)).isSome then
    c.map (fun e => if e.1 == n then (n, v) else e)
  else c ++ [(n, v)]

/-- The `cache_lookup` bit-vector snapshot (lines 776, 792-799): `none` when
it was never resized (the axis cache was empty at the start of the axis), a
list of node indices with the bit set otherwise. -/
def lookup_missing (lookup : Option (List ℕ)) (n : ℕ) : Bool :=
  match lookup with
  | none => true
  | some l => decide (n ∉ l)

/-- The snapshot update of lines 850-853, guarded by
`!cache_lookup.is_empty()`. -/
def lookup_add (lookup : Option (List ℕ)) (n : ℕ) : Option (List ℕ) :=
  match lookup with
  | none => none
  | some l => some (l ++ [n])

/-- The recompute decision of lines 824-834. -/
def recompute_decision (object_changed has_dirty : Bool) (dirty : List ℕ)
    (lookup : Option (List ℕ)) (n : ℕ) : Bool :=
  if object_changed || has_dirty then
    if has_dirty then
      let r := decide (n ∈ dirty)
      if !r && !object_changed then lookup_missing lookup n else r
    else true
  else lookup_missing lookup n

/-- The merge into the per-plane segment set (lines 856-864 and 935-942):
append each node segment whose symmetric hash is new. -/
def merge_segments (segments : List ContourSegment) (hashes : List ℕ)
    (node_segments : List ContourSegment) : List ContourSegment × List ℕ :=
  node_segments.foldl (fun acc seg =>
    let h := segment_hash seg
    if h ∈ acc.2 then acc else (acc.1 ++ [seg], acc.2 ++ [h])) (segments, hashes)

/-- The loop state of one axis of `update_contours`: the merged segments and
their hash set, the per-axis node cache, the snapshot bit-vector, the atomic
budget countdown and the atomic counters (lines 772-781), run sequentially
(the parallel-for iterations are independent and the shared structures are
mutex-guarded in the source). -/
structure AxisAcc where
  segments : List ContourSegment
  segment_hashes : List ℕ
  cache : SegCache
  lookup : Option (List ℕ)
  budget_left : ℤ
  recomputed : ℕ
  reused : ℕ
  skipped : ℕ
  frustum_culled : ℕ
  pending : Bool

/-- The per-node body of the axis loop (lines 805-880): plane and frustum
culling, the recompute decision, the budget gate, recomputation with cache
write-back and merge, or reuse of the cached list.  The external frustum
test (`isect_aabb_planes_v3` on the world-transformed bounds) is modelled by
the `culled` predicate, present exactly when a view is available. -/
noncomputable def axis_node_step (positions : List V3) (mesh : Option MeshData)
    (pbvh : Pbvh) (plane : PlaneData) (object_changed has_dirty : Bool)
    (culled : Option (Bounds3 → Bool)) (acc : AxisAcc) (n : ℕ) : AxisAcc :=
  match pbvh.nodes[n]? with
  | none => acc
  | some node =>
    if !aabb_intersects_plane node.bounds plane then
      { acc with skipped := acc.skipped + 1 }
    else if (match culled with | some f => f node.bounds | none => false) then
      { acc with frustum_culled := acc.frustum_culled + 1 }
    else if recompute_decision object_changed has_dirty pbvh.dirty_nodes acc.lookup n then
      if acc.budget_left ≤ 0 then
        { acc with budget_left := acc.budget_left - 1, pending := true }
      else
        let node_segments := (process_pbvh_mesh positions mesh node plane).1
        let merged := merge_segments acc.segments acc.segment_hashes node_segments
        { acc with
          budget_left := acc.budget_left - 1
          cache := cache_add_overwrite acc.cache n node_segments
          lookup := lookup_add acc.lookup n
          segments := merged.1
          segment_hashes := merged.2
          recomputed := acc.recomputed + 1 }
    else
      match cache_lookup_entry acc.cache n with
      | some cached =>
        let merged := merge_segments acc.segments acc.segment_hashes cached
        { acc with
          segments := merged.1
          segment_hashes := merged.2
          reused := acc.reused + 1 }
      | none => acc

/-- The per-axis counters logged by the source (lines 778-780, 978-984). -/
structure AxisMetrics where
  recomputed : ℕ
  reused : ℕ
  skipped : ℕ
  frustum_culled : ℕ
  pending : Bool
  budget_left : ℤ

/-- The metrics of an axis that was never processed. -/
def zero_metrics : AxisMetrics := ⟨0, 0, 0, 0, false, 64⟩

/-- One axis of `update_contours` up to contour assembly (lines 772-977):
walk the leaves, then run the legacy full-mesh fallback when no segment was
produced.  Returns the merged segments, the updated axis cache and the
metrics. -/
noncomputable def process_axis (positions : List V3) (mesh : Option MeshData)
    (pbvh : Option Pbvh) (plane : PlaneData) (object_changed has_dirty : Bool)
    (culled : Option (Bounds3 → Bool)) (axis_cache : SegCache) :
    List ContourSegment × SegCache × AxisMetrics :=
  let lookup0 : Option (List ℕ) :=
    if axis_cache.isEmpty then none else some (axis_cache.map Prod.fst)
  let acc0 : AxisAcc := ⟨[], [], axis_cache, lookup0, 64, 0, 0, 0, 0, false⟩
  let acc :=
    match pbvh with
    | some p => p.leaf_indices.foldl
        (axis_node_step positions mesh p plane object_changed has_dirty culled) acc0
    | none => acc0
  let segments :=
    if acc.segments.isEmpty ∧ mesh.isSome then
      ((compute_intersections_cpu mesh (plane_cpu plane)).foldl
        (fun pr seg => append_segment pr.1 pr.2 seg.start seg.end_ plane)
        (acc.segments, acc.segment_hashes)).1
    else acc.segments
  (segments, acc.cache,
    ⟨acc.recomputed, acc.reused, acc.skipped, acc.frustum_culled, acc.pending,
      acc.budget_left⟩)

/-- Matrix product, for `viewproj = persmat * ob_to_world` (line 999). -/
def M4.mul (a b : M4) : M4 :=
  let c0 : V4 := ⟨b.r0.x, b.r1.x, b.r2.x, b.r3.x⟩
  let c1 : V4 := ⟨b.r0.y, b.r1.y, b.r2.y, b.r3.y⟩
  let c2 : V4 := ⟨b.r0.z, b.r1.z, b.r2.z, b.r3.z⟩
  let c3 : V4 := ⟨b.r0.w, b.r1.w, b.r2.w, b.r3.w⟩
  ⟨⟨a.r0.dot c0, a.r0.dot c1, a.r0.dot c2, a.r0.dot c3⟩,
   ⟨a.r1.dot c0, a.r1.dot c1, a.r1.dot c2, a.r1.dot c3⟩,
   ⟨a.r2.dot c0, a.r2.dot c1, a.r2.dot c2, a.r2.dot c3⟩,
   ⟨a.r3.dot c0, a.r3.dot c1, a.r3.dot c2, a.r3.dot c3⟩⟩

/-- Model of the sculpt object as `update_contours` reads it: the pointer
identity (`ob != prev_object_` compares pointers), the mesh data
(`ob->data`), whether a brush stroke is active (`ss && ss->cache`), the
PBVH, the object-to-world matrix, and the evaluated (deformed) vertex
positions — the source selects those from the depsgraph at lines 696-709;
the selection itself is an external collaborator and its result is modelled
as an input. -/
structure Obj where
  id : ℕ
  data : Option MeshData
  stroke_active : Bool
  pbvh : Option Pbvh
  obmat : M4
  eval_positions : List V3

/-- Model of the view (`RegionView3D`): the perspective matrix and the
frustum test built from it by `planes_from_projmat` and
`isect_aabb_planes_v3`, modelled as a predicate on local-space node bounds
(the source transforms the bounds by the object matrix before the test). -/
structure Rv3dView where
  persmat : M4
  culled : Bounds3 → Bool

/-- The inputs of one `update_contours` call. -/
structure UpdateInput where
  ob : Option Obj
  symmetry_flags : ℕ
  rv3d : Option Rv3dView
  region : Option (ℤ × ℤ)

/-- A colored line segment in the line buffer (`LinePrimitiveBuf`). -/
structure LineSeg where
  a : V3
  b : V3
  color : V4

/-- The three per-axis caches `cached_segments_by_axis_[3]` (header line 99). -/
structure AxisCaches where
  x : SegCache
  y : SegCache
  z : SegCache

def AxisCaches.get (c : AxisCaches) (axis : ℕ) : SegCache :=
  if axis = 0 then c.x else if axis = 1 then c.y else c.z

def AxisCaches.set (c : AxisCaches) (axis : ℕ) (v : SegCache) : AxisCaches :=
  if axis = 0 then { c with x := v }
  else if axis = 1 then { c with y := v }
  else { c with z := v }

/-- The empty caches, as after the clears of lines 736-746. -/
def AxisCaches.empty : AxisCaches := ⟨[], [], []⟩

/-- The mutable state of the `SymmetryContour` class that `update_contours`
reads and writes (header lines 91-112). -/
structure ContourState where
  cached_contours : List ContourLoop
  caches : AxisCaches
  contours_dirty : Bool
  prev_enable : Bool
  prev_object : Option ℕ
  prev_symmetry_flags : ℕ
  contour_lines : List LineSeg
  enable_contours : Bool
  line_color : V3
  line_alpha : ℝ

/-- The line emission shared by the cached path (lines 672-686) and the
per-axis path (lines 1020-1034): `N-1` segments per polyline plus the
closing segment for closed loops of at least three points. -/
noncomputable def contour_lines_of (contours : List ContourLoop) (color : V3)
    (alpha : ℝ) : List LineSeg :=
  contours.foldl (fun lines contour =>
    if contour.points.length < 2 then lines
    else
      lines ++
        (List.range (contour.points.length - 1)).map (fun i =>
          (⟨contour.points.getD i ⟨0, 0, 0⟩, contour.points.getD (i + 1) ⟨0, 0, 0⟩,
            ⟨color.x, color.y, color.z, alpha⟩⟩ : LineSeg)) ++
        (if contour.is_closed && decide (3 ≤ contour.points.length) then
          [⟨contour.points.getLast?.getD ⟨0, 0, 0⟩, contour.points.head?.getD ⟨0, 0, 0⟩,
            ⟨color.x, color.y, color.z, alpha⟩⟩]
        else [])) []

/-- The `FLT_MAX` initialization of the bounding-box scan (lines 713-714). -/
noncomputable def flt_max : ℝ := 340282346638528859811704183484516925440

/-- The bounding-box fallback scan over the evaluated positions
(lines 720-725). -/
noncomputable def compute_bounds_fold (positions : List V3) : Bounds3 :=
  positions.foldl (fun b p =>
    ⟨⟨min b.min.x p.x, min b.min.y p.y, min b.min.z p.z⟩,
     ⟨max b.max.x p.x, max b.max.y p.y, max b.max.z p.z⟩⟩)
    ⟨⟨flt_max, flt_max, flt_max⟩, ⟨-flt_max, -flt_max, -flt_max⟩⟩

/-- The tolerance scale (lines 713-726): the PBVH bounds when available,
otherwise the scanned bounds, clamped below by `1e-3`. -/
noncomputable def compute_diag (pbvh : Option Pbvh) (eval_positions : List V3) : ℝ :=
  let b :=
    match pbvh with
    | some p => p.bounds
    | none => compute_bounds_fold eval_positions
  max ((b.max.sub b.min).length) (1 / 1000)

/-- The per-frame accumulator of the axis loop of `update_contours`. -/
structure FrameAcc where
  caches : AxisCaches
  cached_contours : List ContourLoop
  contour_lines : List LineSeg
  pending_any : Bool

/-- One full axis of `update_contours` (lines 759-1041): skip disabled axes,
build the scaled plane, extract and merge the segments, assemble and
post-process the contours, emit the lines and extend the cached list. -/
noncomputable def run_axis (positions : List V3) (mesh : Option MeshData)
    (pbvh : Option Pbvh) (obmat : M4) (object_changed has_dirty : Bool)
    (culled : Option (Bounds3 → Bool)) (view : Option (M4 × (ℤ × ℤ)))
    (diag : ℝ) (flags : ℕ) (color : V3) (alpha : ℝ) (axis : ℕ)
    (acc : FrameAcc) : FrameAcc × AxisMetrics :=
  if Nat.land flags (2 ^ axis) = 0 then (acc, zero_metrics)
  else
    let plane := pipeline_plane (axis : ℤ) diag obmat
    let res := process_axis positions mesh pbvh plane object_changed has_dirty culled
      (acc.caches.get axis)
    let axis_contours := axis_postprocess res.1 plane view
    ({ caches := acc.caches.set axis res.2.1
       cached_contours := acc.cached_contours ++ axis_contours
       contour_lines := acc.contour_lines ++ contour_lines_of axis_contours color alpha
       pending_any := acc.pending_any || res.2.2.pending }, res.2.2)

/-- Model of `SymmetryContour::update_contours` (lines 631-1048).  Returns
the updated state and, as an observation of the logged per-axis atomic
counters, the metrics of the three axes. -/
noncomputable def update_contours (s : ContourState) (input : UpdateInput) :
    ContourState × (AxisMetrics × AxisMetrics × AxisMetrics) :=
  let ob := input.ob
  let object_changed := decide (ob.map Obj.id ≠ s.prev_object) ||
    decide (input.symmetry_flags ≠ s.prev_symmetry_flags)
  let stroke_active := match ob with | some o => o.stroke_active | none => false
  match ob with
  | none => (s, (zero_metrics, zero_metrics, zero_metrics))
  | some o =>
    match o.data with
    | none => (s, (zero_metrics, zero_metrics, zero_metrics))
    | some mesh =>
      if !s.enable_contours then (s, (zero_metrics, zero_metrics, zero_metrics))
      else
        let pbvh := o.pbvh
        let has_dirty := match pbvh with | some p => !p.dirty_nodes.isEmpty | none => false
        let force_live := stroke_active
        let need_regenerate := s.contours_dirty ||
          decide (s.enable_contours ≠ s.prev_enable) || object_changed || has_dirty ||
          stroke_active
        if !need_regenerate && !s.cached_contours.isEmpty then
          ({ s with contour_lines := s.contour_lines ++
              contour_lines_of s.cached_contours s.line_color s.line_alpha },
            (zero_metrics, zero_metrics, zero_metrics))
        else
          let eval_positions := o.eval_positions
          let diag := compute_diag pbvh eval_positions
          let culled : Option (Bounds3 → Bool) :=
            match input.rv3d with | some v => some v.culled | none => none
          let caches1 := if object_changed then AxisCaches.empty else s.caches
          let caches2 := if stroke_active || force_live then AxisCaches.empty else caches1
          let view : Option (M4 × (ℤ × ℤ)) :=
            match input.rv3d, input.region with
            | some v, some r => some (v.persmat.mul o.obmat, r)
            | _, _ => none
          let acc0 : FrameAcc := ⟨caches2, [], [], false⟩
          let r0 := run_axis eval_positions (some mesh) pbvh o.obmat object_changed
            has_dirty culled view diag input.symmetry_flags s.line_color s.line_alpha 0 acc0
          let r1 := run_axis eval_positions (some mesh) pbvh o.obmat object_changed
            has_dirty culled view diag input.symmetry_flags s.line_color s.line_alpha 1 r0.1
          let r2 := run_axis eval_positions (some mesh) pbvh o.obmat object_changed
            has_dirty culled view diag input.symmetry_flags s.line_color s.line_alpha 2 r1.1
          ({ s with
             cached_contours := r2.1.cached_contours
             caches := r2.1.caches
             contour_lines := r2.1.contour_lines
             contours_dirty := r2.1.pending_any
             prev_enable := s.enable_contours
             prev_object := some o.id
             prev_symmetry_flags := input.symmetry_flags },
           (r0.2, r1.2, r2.2))

/-- The concrete plane of the C10 witness. -/
noncomputable def c10_plane : PlaneData :=
  ⟨⟨1, 0, 0⟩, ⟨0, 0, 0⟩, ⟨0, 1, 0⟩, ⟨0, 0, 1⟩, 0, 1, 1, 1, 1, 1 / 2, 3, 1⟩

/-- The concrete node of the C10 witness. -/
noncomputable def c10_node : PbvhNode := ⟨⟨⟨0, 0, 0⟩, ⟨0, 0, 0⟩⟩, []⟩

/-- The concrete PBVH of the C10 witness. -/
noncomputable def c10_pbvh : Pbvh := ⟨[c10_node], [0], ⟨⟨0, 0, 0⟩, ⟨0, 0, 0⟩⟩, []⟩

/-- The concrete accumulator of the C10 witness: exhausted budget. -/
def c10_acc : AxisAcc := ⟨[], [], [], none, 0, 0, 0, 0, 0, false⟩

/-- A leaf node survives plane and frustum culling for one axis. -/
noncomputable def survives (pbvh : Pbvh) (plane : PlaneData)
    (culled : Option (Bounds3 → Bool)) (n : ℕ) : Bool :=
  match pbvh.nodes[n]? with
  | none => false
  | some node =>
    aabb_intersects_plane node.bounds plane &&
      !(match culled with | some f => f node.bounds | none => false)

/-- A leaf node is eligible for recomputation on an axis whose cache was
cleared (empty snapshot): it survives culling and the recompute decision
taken with an empty lookup snapshot is positive. -/
noncomputable def stroke_eligible (pbvh : Pbvh) (plane : PlaneData)
    (culled : Option (Bounds3 → Bool)) (oc hd : Bool) (n : ℕ) : Bool :=
  survives pbvh plane culled n &&
    recompute_decision oc hd pbvh.dirty_nodes none n

/-- The number of leaves eligible for recomputation on a cleared axis. -/
noncomputable def eligible_count (pbvh : Pbvh) (plane : PlaneData)
    (culled : Option (Bounds3 → Bool)) (oc hd : Bool) : ℕ :=
  (pbvh.leaf_indices.filter (stroke_eligible pbvh plane culled oc hd)).length

/-- The concrete PBVH of the C9 witness. -/
noncomputable def c9w_pbvh : Pbvh := ⟨[], [], ⟨⟨0, 0, 0⟩, ⟨0, 0, 0⟩⟩, []⟩

/-- The concrete mesh of the C9 witness. -/
noncomputable def c9w_mesh : MeshData := ⟨[], []⟩

/-- The concrete object matrix of the C9 witness. -/
noncomputable def c9w_mat : M4 :=
  ⟨⟨1, 0, 0, 0⟩, ⟨0, 1, 0, 0⟩, ⟨0, 0, 1, 0⟩, ⟨0, 0, 0, 1⟩⟩

/-- The concrete object of the C9 witness: an active stroke. -/
noncomputable def c9w_obj : Obj :=
  ⟨1, some c9w_mesh, true, some c9w_pbvh, c9w_mat, []⟩

/-- The concrete state of the C9 witness: contours enabled. -/
noncomputable def c9w_state : ContourState :=
  ⟨[], ⟨[], [], []⟩, false, false, none, 0, [], true, ⟨0, 0, 0⟩, 0⟩

/-- The concrete input of the C9 witness. -/
noncomputable def c9w_input : UpdateInput := ⟨some c9w_obj, 0, none, none⟩

/-- The first node of the C9 counterexample: a leaf whose bounds lie on the
X symmetry plane, so it survives the plane test. -/
noncomputable def c9c_node : PbvhNode := ⟨⟨⟨0, 0, 0⟩, ⟨0, 4, 4⟩⟩, [0]⟩

/-- The second node of the C9 counterexample: a leaf whose bounds lie at
`x = 7`, far from the symmetry plane, so the plane test culls it. -/
noncomputable def c9c_node2 : PbvhNode := ⟨⟨⟨7, 0, 0⟩, ⟨7, 4, 4⟩⟩, [1]⟩

/-- The concrete PBVH of the C9 counterexample: two leaves; the dirty set is
the in-range leaf 1 — the plane-culled one — so the surviving leaf 0 is not
dirty. -/
noncomputable def c9c_pbvh : Pbvh :=
  ⟨[c9c_node, c9c_node2], [0, 1], ⟨⟨0, 0, 0⟩, ⟨7, 4, 4⟩⟩, [1]⟩

/-- The concrete mesh of the C9 counterexample: one triangle in each leaf. -/
noncomputable def c9c_mesh : MeshData :=
  ⟨[⟨0, 0, 0⟩, ⟨0, 4, 0⟩, ⟨0, 0, 4⟩, ⟨7, 0, 0⟩, ⟨7, 4, 0⟩, ⟨7, 0, 4⟩],
   [[0, 1, 2], [3, 4, 5]]⟩

/-- The concrete object of the C9 counterexample: an active stroke on a
changed object with a nonempty dirty set. -/
noncomputable def c9c_obj : Obj :=
  ⟨1, some c9c_mesh, true, some c9c_pbvh, c9w_mat,
   [⟨0, 0, 0⟩, ⟨0, 4, 0⟩, ⟨0, 0, 4⟩, ⟨7, 0, 0⟩, ⟨7, 4, 0⟩, ⟨7, 0, 4⟩]⟩

/-- The concrete input of the C9 counterexample: the X axis enabled. -/
noncomputable def c9c_input : UpdateInput := ⟨some c9c_obj, 1, none, none⟩

/-- The segment list a node recomputation produces (pure in the node). -/
noncomputable def fresh_segments (positions : List V3) (mesh : Option MeshData)
    (p : Pbvh) (plane : PlaneData) (n : ℕ) : List ContourSegment :=
  match p.nodes[n]? with
  | some node => (process_pbvh_mesh positions mesh node plane).1
  | none => []

/-- The segment list a node contributes when a prior cache `d` is honoured:
the cached list when present, a fresh recomputation otherwise. -/
noncomputable def cached_or_fresh (positions : List V3) (mesh : Option MeshData)
    (p : Pbvh) (plane : PlaneData) (d : SegCache) (n : ℕ) : List ContourSegment :=
  match cache_lookup_entry d n with
  | some v => v
  | none => fresh_segments positions mesh p plane n

/-- The pure per-plane merge: every surviving leaf merges its contribution
in leaf order. -/
noncomputable def replay_merge (p : Pbvh) (plane : PlaneData)
    (culled : Option (Bounds3 → Bool)) (vf : ℕ → List ContourSegment)
    (l : List ℕ) (pr : List ContourSegment × List ℕ) :
    List ContourSegment × List ℕ :=
  l.foldl (fun pr n =>
    if survives p plane culled n then merge_segments pr.1 pr.2 (vf n) else pr) pr

/-- The concrete mesh of the C4 witness. -/
noncomputable def c4w_mesh : MeshData := ⟨[], []⟩

/-- The concrete object matrix of the C4 witness. -/
noncomputable def c4w_mat : M4 :=
  ⟨⟨1, 0, 0, 0⟩, ⟨0, 1, 0, 0⟩, ⟨0, 0, 1, 0⟩, ⟨0, 0, 0, 1⟩⟩

/-- The concrete object of the C4 witness: no stroke, no PBVH. -/
noncomputable def c4w_obj : Obj := ⟨1, some c4w_mesh, false, none, c4w_mat, []⟩

/-- The concrete state of the C4 witness. -/
noncomputable def c4w_state : ContourState :=
  ⟨[], ⟨[], [], []⟩, false, false, none, 0, [], false, ⟨0, 0, 0⟩, 0⟩

/-- The concrete input of the C4 witness. -/
noncomputable def c4w_input : UpdateInput := ⟨some c4w_obj, 0, none, none⟩

/-! ## Lemmas and theorems -/

lemma epsilon_pos : 0 < epsilon := by norm_num [epsilon]

lemma on_plane_not_pos {d : ℝ} (h : |d| ≤ epsilon) : ¬(d > epsilon) := by
  rcases abs_le.mp h with ⟨_, h2⟩
  linarith

lemma on_plane_not_neg {d : ℝ} (h : |d| ≤ epsilon) : ¬(d < -epsilon) := by
  rcases abs_le.mp h with ⟨h1, _⟩
  linarith

lemma pos_not_on_plane {d : ℝ} (h : d > epsilon) : ¬(|d| ≤ epsilon) := by
  intro hab
  exact on_plane_not_pos hab h

lemma neg_not_on_plane {d : ℝ} (h : d < -epsilon) : ¬(|d| ≤ epsilon) := by
  intro hab
  exact on_plane_not_neg hab h

lemma edge_walk_step_saturated {verts : Fin 3 → V3} {dists : Fin 3 → ℝ} {i : Fin 3}
    {acc : List V3} (h : 2 ≤ acc.length) :
    edge_walk_step verts dists i acc = acc := by
  simp [edge_walk_step, h]

lemma edge_walk_step_cross {verts : Fin 3 → V3} {dists : Fin 3 → ℝ} {i : Fin 3}
    {acc : List V3} (h : acc.length < 2)
    (hc : (dists i > epsilon ∧ dists (i + 1) < -epsilon) ∨
      (dists i < -epsilon ∧ dists (i + 1) > epsilon)) :
    edge_walk_step verts dists i acc =
      acc ++ [interpolate (verts i) (verts (i + 1)) (dists i / (dists i - dists (i + 1)))] := by
  rw [edge_walk_step, if_neg (by omega), if_pos hc]

lemma edge_walk_step_on {verts : Fin 3 → V3} {dists : Fin 3 → ℝ} {i : Fin 3}
    {acc : List V3} (h : acc.length < 2)
    (hnc : ¬((dists i > epsilon ∧ dists (i + 1) < -epsilon) ∨
      (dists i < -epsilon ∧ dists (i + 1) > epsilon)))
    (hon : |dists i| ≤ epsilon) :
    edge_walk_step verts dists i acc = acc ++ [verts i] := by
  rw [edge_walk_step, if_neg (by omega), if_neg hnc, if_pos hon]

lemma edge_walk_step_skip {verts : Fin 3 → V3} {dists : Fin 3 → ℝ} {i : Fin 3}
    {acc : List V3} (h : acc.length < 2)
    (hnc : ¬((dists i > epsilon ∧ dists (i + 1) < -epsilon) ∨
      (dists i < -epsilon ∧ dists (i + 1) > epsilon)))
    (hoff : ¬(|dists i| ≤ epsilon)) :
    edge_walk_step verts dists i acc = acc := by
  rw [edge_walk_step, if_neg (by omega), if_neg hnc, if_neg hoff]

lemma edge_walk_step_length {verts : Fin 3 → V3} {dists : Fin 3 → ℝ} {i : Fin 3}
    {acc : List V3} (h : acc.length ≤ 2) :
    (edge_walk_step verts dists i acc).length ≤ 2 := by
  by_cases h2 : 2 ≤ acc.length
  · rw [edge_walk_step_saturated h2]; exact h
  · have hlt : acc.length < 2 := by omega
    by_cases hc : (dists i > epsilon ∧ dists (i + 1) < -epsilon) ∨
        (dists i < -epsilon ∧ dists (i + 1) > epsilon)
    · rw [edge_walk_step_cross hlt hc]; simp; omega
    · by_cases hon : |dists i| ≤ epsilon
      · rw [edge_walk_step_on hlt hc hon]; simp; omega
      · rw [edge_walk_step_skip hlt hc hon]; exact h

lemma edge_walk_length_le (verts : Fin 3 → V3) (dists : Fin 3 → ℝ) :
    (edge_walk verts dists).length ≤ 2 := by
  apply edge_walk_step_length
  apply edge_walk_step_length
  apply edge_walk_step_length
  simp

lemma pos_not_neg {d : ℝ} (h : d > epsilon) : ¬(d < -epsilon) := by
  have := epsilon_pos
  linarith

lemma neg_not_pos {d : ℝ} (h : d < -epsilon) : ¬(d > epsilon) := by
  have := epsilon_pos
  linarith

lemma edge_walk_on_on_pos {verts : Fin 3 → V3} {dists : Fin 3 → ℝ}
    (h0 : |dists 0| ≤ epsilon) (h1 : |dists 1| ≤ epsilon) (_h2 : dists 2 > epsilon) :
    edge_walk verts dists = [verts 0, verts 1] := by
  have e01 : (0 + 1 : Fin 3) = 1 := rfl
  have hnc0 : ¬((dists 0 > epsilon ∧ dists (0 + 1) < -epsilon) ∨
      (dists 0 < -epsilon ∧ dists (0 + 1) > epsilon)) := by
    rw [e01]
    rintro (⟨hp, _⟩ | ⟨hn, _⟩)
    · exact on_plane_not_pos h0 hp
    · exact on_plane_not_neg h0 hn
  have e12 : (1 + 1 : Fin 3) = 2 := rfl
  have hnc1 : ¬((dists 1 > epsilon ∧ dists (1 + 1) < -epsilon) ∨
      (dists 1 < -epsilon ∧ dists (1 + 1) > epsilon)) := by
    rw [e12]
    rintro (⟨hp, _⟩ | ⟨hn, _⟩)
    · exact on_plane_not_pos h1 hp
    · exact on_plane_not_neg h1 hn
  unfold edge_walk
  rw [edge_walk_step_on (by simp) hnc0 h0, List.nil_append,
      edge_walk_step_on (by simp) hnc1 h1,
      edge_walk_step_saturated (by simp)]
  simp

lemma edge_walk_on_pos_on {verts : Fin 3 → V3} {dists : Fin 3 → ℝ}
    (h0 : |dists 0| ≤ epsilon) (h1 : dists 1 > epsilon) (h2 : |dists 2| ≤ epsilon) :
    edge_walk verts dists = [verts 0, verts 2] := by
  have e01 : (0 + 1 : Fin 3) = 1 := rfl
  have hnc0 : ¬((dists 0 > epsilon ∧ dists (0 + 1) < -epsilon) ∨
      (dists 0 < -epsilon ∧ dists (0 + 1) > epsilon)) := by
    rw [e01]
    rintro (⟨hp, _⟩ | ⟨hn, _⟩)
    · exact on_plane_not_pos h0 hp
    · exact on_plane_not_neg h0 hn
  have e12 : (1 + 1 : Fin 3) = 2 := rfl
  have hnc1 : ¬((dists 1 > epsilon ∧ dists (1 + 1) < -epsilon) ∨
      (dists 1 < -epsilon ∧ dists (1 + 1) > epsilon)) := by
    rw [e12]
    rintro (⟨_, hq⟩ | ⟨hn, _⟩)
    · exact on_plane_not_neg h2 hq
    · exact pos_not_neg h1 hn
  have e20 : (2 + 1 : Fin 3) = 0 := rfl
  have hnc2 : ¬((dists 2 > epsilon ∧ dists (2 + 1) < -epsilon) ∨
      (dists 2 < -epsilon ∧ dists (2 + 1) > epsilon)) := by
    rw [e20]
    rintro (⟨hp, _⟩ | ⟨hn, _⟩)
    · exact on_plane_not_pos h2 hp
    · exact on_plane_not_neg h2 hn
  unfold edge_walk
  rw [edge_walk_step_on (by simp) hnc0 h0, List.nil_append,
      edge_walk_step_skip (by simp) hnc1 (pos_not_on_plane h1),
      edge_walk_step_on (by simp) hnc2 h2]
  simp

lemma edge_walk_pos_on_on {verts : Fin 3 → V3} {dists : Fin 3 → ℝ}
    (h0 : dists 0 > epsilon) (h1 : |dists 1| ≤ epsilon) (h2 : |dists 2| ≤ epsilon) :
    edge_walk verts dists = [verts 1, verts 2] := by
  have e01 : (0 + 1 : Fin 3) = 1 := rfl
  have hnc0 : ¬((dists 0 > epsilon ∧ dists (0 + 1) < -epsilon) ∨
      (dists 0 < -epsilon ∧ dists (0 + 1) > epsilon)) := by
    rw [e01]
    rintro (⟨_, hq⟩ | ⟨hn, _⟩)
    · exact on_plane_not_neg h1 hq
    · exact pos_not_neg h0 hn
  have e12 : (1 + 1 : Fin 3) = 2 := rfl
  have hnc1 : ¬((dists 1 > epsilon ∧ dists (1 + 1) < -epsilon) ∨
      (dists 1 < -epsilon ∧ dists (1 + 1) > epsilon)) := by
    rw [e12]
    rintro (⟨hp, _⟩ | ⟨hn, _⟩)
    · exact on_plane_not_pos h1 hp
    · exact on_plane_not_neg h1 hn
  have e20 : (2 + 1 : Fin 3) = 0 := rfl
  have hnc2 : ¬((dists 2 > epsilon ∧ dists (2 + 1) < -epsilon) ∨
      (dists 2 < -epsilon ∧ dists (2 + 1) > epsilon)) := by
    rw [e20]
    rintro (⟨hp, _⟩ | ⟨hn, _⟩)
    · exact on_plane_not_pos h2 hp
    · exact on_plane_not_neg h2 hn
  unfold edge_walk
  rw [edge_walk_step_skip (by simp) hnc0 (pos_not_on_plane h0),
      edge_walk_step_on (by simp) hnc1 h1, List.nil_append,
      edge_walk_step_on (by simp) hnc2 h2]
  simp

lemma intersect_triangle_plane_eq_walk (v0 v1 v2 : V3) (plane : SymmetryPlane)
    (h : ¬(positive_count (signed_dist v0 plane) (signed_dist v1 plane)
        (signed_dist v2 plane) = 0 ∨
      positive_count (signed_dist v0 plane) (signed_dist v1 plane)
        (signed_dist v2 plane) = 3)) :
    intersect_triangle_plane v0 v1 v2 plane =
      (match edge_walk (tri v0 v1 v2)
          (tri (signed_dist v0 plane) (signed_dist v1 plane) (signed_dist v2 plane)) with
       | [a, b] => some (a, b)
       | _ => none) := by
  simp only [intersect_triangle_plane]
  rw [if_neg h]

lemma intersect_triangle_plane_eq_none (v0 v1 v2 : V3) (plane : SymmetryPlane)
    (h : positive_count (signed_dist v0 plane) (signed_dist v1 plane)
        (signed_dist v2 plane) = 0 ∨
      positive_count (signed_dist v0 plane) (signed_dist v1 plane)
        (signed_dist v2 plane) = 3) :
    intersect_triangle_plane v0 v1 v2 plane = none := by
  simp only [intersect_triangle_plane]
  rw [if_pos h]

/-- C1 (amended): for every triangle and plane, `intersect_triangle_plane`
emits at most one segment.  It emits nothing whenever no vertex is strictly
positive or all three are (even when two vertices lie on the plane); when
exactly one or two vertices are strictly positive it emits one segment exactly
when the edge walk produces two intersection points (edge crossings with
strictly opposite signs, plus on-plane start vertices).  In particular a
triangle with two on-plane vertices and one strictly positive vertex produces
one segment, whereas a triangle with two on-plane vertices and one strictly
negative vertex produces nothing: the positive-side and negative-side cases
are not symmetric. -/
theorem C1_triangle_plane_segment_emission (v0 v1 v2 : V3) (plane : SymmetryPlane) :
    ((positive_count (signed_dist v0 plane) (signed_dist v1 plane)
          (signed_dist v2 plane) = 0 ∨
        positive_count (signed_dist v0 plane) (signed_dist v1 plane)
          (signed_dist v2 plane) = 3) →
      intersect_triangle_plane v0 v1 v2 plane = none) ∧
    ((positive_count (signed_dist v0 plane) (signed_dist v1 plane)
          (signed_dist v2 plane) = 1 ∨
        positive_count (signed_dist v0 plane) (signed_dist v1 plane)
          (signed_dist v2 plane) = 2) →
      ((intersect_triangle_plane v0 v1 v2 plane).isSome ↔
        (edge_walk (tri v0 v1 v2) (tri (signed_dist v0 plane) (signed_dist v1 plane)
          (signed_dist v2 plane))).length = 2)) ∧
    (|signed_dist v0 plane| ≤ epsilon ∧ |signed_dist v1 plane| ≤ epsilon ∧
        signed_dist v2 plane > epsilon →
      (intersect_triangle_plane v0 v1 v2 plane).isSome = true) ∧
    (|signed_dist v0 plane| ≤ epsilon ∧ signed_dist v1 plane > epsilon ∧
        |signed_dist v2 plane| ≤ epsilon →
      (intersect_triangle_plane v0 v1 v2 plane).isSome = true) ∧
    (signed_dist v0 plane > epsilon ∧ |signed_dist v1 plane| ≤ epsilon ∧
        |signed_dist v2 plane| ≤ epsilon →
      (intersect_triangle_plane v0 v1 v2 plane).isSome = true) ∧
    (|signed_dist v0 plane| ≤ epsilon ∧ |signed_dist v1 plane| ≤ epsilon ∧
        signed_dist v2 plane < -epsilon →
      intersect_triangle_plane v0 v1 v2 plane = none) := by
  refine ⟨fun h => intersect_triangle_plane_eq_none v0 v1 v2 plane h, ?_, ?_, ?_, ?_, ?_⟩
  · intro h
    rw [intersect_triangle_plane_eq_walk v0 v1 v2 plane (by omega)]
    have hlen := edge_walk_length_le (tri v0 v1 v2)
      (tri (signed_dist v0 plane) (signed_dist v1 plane) (signed_dist v2 plane))
    rcases hw : edge_walk (tri v0 v1 v2)
        (tri (signed_dist v0 plane) (signed_dist v1 plane) (signed_dist v2 plane)) with
      _ | ⟨a, _ | ⟨b, _ | ⟨c, rest⟩⟩⟩
    · simp
    · simp
    · simp
    · rw [hw] at hlen
      simp at hlen
  · rintro ⟨h0, h1, h2⟩
    have hpc : positive_count (signed_dist v0 plane) (signed_dist v1 plane)
        (signed_dist v2 plane) = 1 := by
      unfold positive_count
      rw [if_neg (on_plane_not_pos h0), if_neg (on_plane_not_pos h1), if_pos h2]
    rw [intersect_triangle_plane_eq_walk v0 v1 v2 plane (by omega)]
    rw [edge_walk_on_on_pos h0 h1 h2]
    rfl
  · rintro ⟨h0, h1, h2⟩
    have hpc : positive_count (signed_dist v0 plane) (signed_dist v1 plane)
        (signed_dist v2 plane) = 1 := by
      unfold positive_count
      rw [if_neg (on_plane_not_pos h0), if_pos h1, if_neg (on_plane_not_pos h2)]
    rw [intersect_triangle_plane_eq_walk v0 v1 v2 plane (by omega)]
    rw [edge_walk_on_pos_on h0 h1 h2]
    rfl
  · rintro ⟨h0, h1, h2⟩
    have hpc : positive_count (signed_dist v0 plane) (signed_dist v1 plane)
        (signed_dist v2 plane) = 1 := by
      unfold positive_count
      rw [if_pos h0, if_neg (on_plane_not_pos h1), if_neg (on_plane_not_pos h2)]
    rw [intersect_triangle_plane_eq_walk v0 v1 v2 plane (by omega)]
    rw [edge_walk_pos_on_on h0 h1 h2]
    rfl
  · rintro ⟨h0, h1, h2⟩
    apply intersect_triangle_plane_eq_none
    left
    unfold positive_count
    rw [if_neg (on_plane_not_pos h0), if_neg (on_plane_not_pos h1),
      if_neg (neg_not_pos h2)]

/-- C1 counterexample: the triangle with vertices `(0,0,0)`, `(0,1,0)`,
`(-1,0,0)` against the X symmetry plane through the origin has two on-plane
vertices and one strictly negative vertex — by the claim it should produce one
segment, yet `intersect_triangle_plane` returns nothing, because it exits
early when no vertex is strictly positive. -/
theorem C1_counterexample :
    (|signed_dist ⟨0, 0, 0⟩ ⟨⟨1, 0, 0⟩, ⟨0, 0, 0⟩, 0, 0⟩| ≤ epsilon ∧
      |signed_dist ⟨0, 1, 0⟩ ⟨⟨1, 0, 0⟩, ⟨0, 0, 0⟩, 0, 0⟩| ≤ epsilon ∧
      signed_dist ⟨-1, 0, 0⟩ ⟨⟨1, 0, 0⟩, ⟨0, 0, 0⟩, 0, 0⟩ < -epsilon) ∧
    intersect_triangle_plane ⟨0, 0, 0⟩ ⟨0, 1, 0⟩ ⟨-1, 0, 0⟩
      ⟨⟨1, 0, 0⟩, ⟨0, 0, 0⟩, 0, 0⟩ = none := by
  constructor
  · refine ⟨?_, ?_, ?_⟩ <;> norm_num [signed_dist, V3.sub, V3.dot, epsilon]
  · apply intersect_triangle_plane_eq_none
    left
    norm_num [positive_count, signed_dist, V3.sub, V3.dot, epsilon]

/-- C7: the segment identity hash is symmetric in the two endpoint keys, and
it equals the combination `h0 XOR (h1 + 0x9e3779b97f4a7c15 + (h0 << 6) +
(h0 >> 2))` (in wrap-around 64-bit arithmetic) of the sorted pair
`h0 = min, h1 = max` of the two endpoint key hashes. -/
theorem C7_segment_hash_symmetric (a b : V3) (la lb : ℝ) (ua ub : Bool)
    (k0 k1 : QuantizedPointKey) :
    segment_hash ⟨a, b, k0, k1, la, ua⟩ = segment_hash ⟨b, a, k1, k0, lb, ub⟩ ∧
    segment_hash ⟨a, b, k0, k1, la, ua⟩ =
      Nat.xor (min (QuantizedPointKeyHash k0) (QuantizedPointKeyHash k1))
        ((max (QuantizedPointKeyHash k0) (QuantizedPointKeyHash k1) +
          0x9e3779b97f4a7c15 +
          min (QuantizedPointKeyHash k0) (QuantizedPointKeyHash k1) * 64 % W64 +
          min (QuantizedPointKeyHash k0) (QuantizedPointKeyHash k1) / 4) % W64) := by
  constructor
  · simp only [segment_hash]
    rcases lt_trichotomy (QuantizedPointKeyHash k0) (QuantizedPointKeyHash k1) with h | h | h
    · rw [if_neg (by omega), if_pos h]
    · rw [h]
    · rw [if_pos h, if_neg (by omega)]
  · simp only [segment_hash]
    rcases lt_or_ge (QuantizedPointKeyHash k1) (QuantizedPointKeyHash k0) with h | h
    · rw [if_pos h, min_eq_right h.le, max_eq_left h.le]
      rfl
    · rw [if_neg (by omega), min_eq_left h, max_eq_right h]
      rfl

lemma V3.length_nonneg (v : V3) : 0 ≤ v.length := Real.sqrt_nonneg _

lemma V3.add_sub_cancel_left (v w : V3) : (v.add w).sub v = w := by
  cases w
  simp only [V3.add, V3.sub, V3.mk.injEq]
  refine ⟨by ring, by ring, by ring⟩

lemma dist3_add_cancel (v w : V3) : dist3 (v.add w) v = w.length := by
  rw [dist3, V3.add_sub_cancel_left]

lemma V3.length_smul (c : ℝ) (v : V3) : (V3.smul c v).length = |c| * v.length := by
  simp only [V3.smul, V3.length, V3.length_squared]
  rw [show c * v.x * (c * v.x) + c * v.y * (c * v.y) + c * v.z * (c * v.z) =
      c ^ 2 * (v.x * v.x + v.y * v.y + v.z * v.z) by ring]
  rw [Real.sqrt_mul (sq_nonneg c), Real.sqrt_sq_eq_abs]

lemma cap_displacement_length_le (plane : PlaneData) (delta : V3)
    (hmax : 0 ≤ plane.smooth_max_disp) :
    (cap_displacement plane delta).length ≤ plane.smooth_max_disp := by
  unfold cap_displacement
  split
  · rename_i h
    have hlen : delta.length > 0 := h.2
    rw [V3.length_smul, abs_of_nonneg (div_nonneg hmax hlen.le),
      div_mul_cancel₀ _ hlen.ne']
  · rename_i h
    push_neg at h
    rcases le_or_lt delta.length plane.smooth_max_disp with h2 | h2
    · exact h2
    · have := h h2
      have hnn := V3.length_nonneg delta
      linarith

lemma smooth_iteration_length (plane : PlaneData) (pts : List V3) :
    (smooth_iteration plane pts).length = pts.length := by
  simp [smooth_iteration]

lemma smooth_iteration_getD_lt (plane : PlaneData) (pts : List V3) (i : ℕ)
    (h : i < pts.length) :
    (smooth_iteration plane pts).getD i ⟨0, 0, 0⟩ =
      (if 1 ≤ i ∧ i + 1 < pts.length then
        (pts.getD i ⟨0, 0, 0⟩).add (cap_displacement plane (V3.smul plane.smooth_factor
          ((V3.smul (1 / 2) ((pts.getD (i - 1) ⟨0, 0, 0⟩).add
            (pts.getD (i + 1) ⟨0, 0, 0⟩))).sub (pts.getD i ⟨0, 0, 0⟩))))
      else pts.getD i ⟨0, 0, 0⟩) := by
  have hlen : i < (smooth_iteration plane pts).length := by
    rw [smooth_iteration_length]; exact h
  rw [List.getD_eq_getElem _ _ hlen]
  simp only [smooth_iteration, List.getElem_map, List.getElem_range]

lemma smooth_iteration_endpoints (plane : PlaneData) (pts : List V3) (i : ℕ)
    (h : i = 0 ∨ i + 1 = pts.length) :
    (smooth_iteration plane pts).getD i ⟨0, 0, 0⟩ = pts.getD i ⟨0, 0, 0⟩ := by
  rcases Nat.lt_or_ge i pts.length with hi | hi
  · rw [smooth_iteration_getD_lt plane pts i hi, if_neg (by omega)]
  · rw [List.getD_eq_default _ _ (by rw [smooth_iteration_length]; exact hi),
      List.getD_eq_default _ _ hi]

lemma smooth_iteration_head? (plane : PlaneData) (pts : List V3) :
    (smooth_iteration plane pts).head? = pts.head? := by
  cases hp : pts with
  | nil => simp [smooth_iteration]
  | cons p rest =>
    have h0 : 0 < pts.length := by rw [hp]; simp
    have h0m : 0 < (smooth_iteration plane pts).length := by
      rw [smooth_iteration_length]; exact h0
    rw [← hp]
    rw [List.head?_eq_getElem?, List.head?_eq_getElem?]
    rw [List.getElem?_eq_getElem h0m, List.getElem?_eq_getElem h0]
    have := smooth_iteration_endpoints plane pts 0 (Or.inl rfl)
    rw [List.getD_eq_getElem _ _ h0m, List.getD_eq_getElem _ _ h0] at this
    rw [this]

lemma smooth_iteration_getLast? (plane : PlaneData) (pts : List V3) :
    (smooth_iteration plane pts).getLast? = pts.getLast? := by
  cases hp : pts with
  | nil => simp [smooth_iteration]
  | cons p rest =>
    have h0 : 0 < pts.length := by rw [hp]; simp
    have h0m : 0 < (smooth_iteration plane pts).length := by
      rw [smooth_iteration_length]; exact h0
    rw [← hp]
    rw [List.getLast?_eq_getElem?, List.getLast?_eq_getElem?]
    rw [smooth_iteration_length]
    rw [List.getElem?_eq_getElem
        (by rw [smooth_iteration_length]; omega :
          pts.length - 1 < (smooth_iteration plane pts).length),
      List.getElem?_eq_getElem (by omega : pts.length - 1 < pts.length)]
    have := smooth_iteration_endpoints plane pts (pts.length - 1) (Or.inr (by omega))
    rw [List.getD_eq_getElem _ _ (by rw [smooth_iteration_length]; omega),
      List.getD_eq_getElem _ _ (by omega)] at this
    rw [this]

lemma smooth_iterate_length (plane : PlaneData) (pts : List V3) (n : ℕ) :
    ((smooth_iteration plane)^[n] pts).length = pts.length := by
  induction n generalizing pts with
  | zero => rfl
  | succ k ih =>
    rw [Function.iterate_succ_apply, ih, smooth_iteration_length]

lemma smooth_iterate_head? (plane : PlaneData) (pts : List V3) (n : ℕ) :
    ((smooth_iteration plane)^[n] pts).head? = pts.head? := by
  induction n generalizing pts with
  | zero => rfl
  | succ k ih =>
    rw [Function.iterate_succ_apply, ih, smooth_iteration_head?]

lemma smooth_iterate_getLast? (plane : PlaneData) (pts : List V3) (n : ℕ) :
    ((smooth_iteration plane)^[n] pts).getLast? = pts.getLast? := by
  induction n generalizing pts with
  | zero => rfl
  | succ k ih =>
    rw [Function.iterate_succ_apply, ih, smooth_iteration_getLast?]

/-- C6: in every single smoothing iteration, every interior point is moved by
the displacement toward the neighbour average `(prev + next) / 2` scaled by
`smooth_factor` and capped at `smooth_max_disp`; provided the cap is
nonnegative (as it always is in the pipeline, where it equals
`0.25 * quant_step`), no point moves by more than `smooth_max_disp` in one
iteration; and the first and last points are never moved, both in a single
iteration and across the whole of `smooth_contour_limited`. -/
theorem C6_smoother_bounded_endpoints_fixed (plane : PlaneData) (pts : List V3)
    (i : ℕ) (c : ContourLoop) (hmax : 0 ≤ plane.smooth_max_disp) :
    (smooth_iteration plane pts).length = pts.length ∧
    dist3 ((smooth_iteration plane pts).getD i ⟨0, 0, 0⟩) (pts.getD i ⟨0, 0, 0⟩) ≤
      plane.smooth_max_disp ∧
    (1 ≤ i ∧ i + 1 < pts.length →
      (smooth_iteration plane pts).getD i ⟨0, 0, 0⟩ =
        (pts.getD i ⟨0, 0, 0⟩).add (cap_displacement plane (V3.smul plane.smooth_factor
          ((V3.smul (1 / 2) ((pts.getD (i - 1) ⟨0, 0, 0⟩).add
            (pts.getD (i + 1) ⟨0, 0, 0⟩))).sub (pts.getD i ⟨0, 0, 0⟩))))) ∧
    ((i = 0 ∨ i + 1 = pts.length) →
      (smooth_iteration plane pts).getD i ⟨0, 0, 0⟩ = pts.getD i ⟨0, 0, 0⟩) ∧
    (smooth_contour_limited c plane).points.length = c.points.length ∧
    (smooth_contour_limited c plane).points.head? = c.points.head? ∧
    (smooth_contour_limited c plane).points.getLast? = c.points.getLast? := by
  refine ⟨smooth_iteration_length plane pts, ?_, ?_,
    smooth_iteration_endpoints plane pts i, ?_, ?_, ?_⟩
  · rcases Nat.lt_or_ge i pts.length with hi | hi
    · rw [smooth_iteration_getD_lt plane pts i hi]
      split
      · rw [dist3_add_cancel]
        exact cap_displacement_length_le plane _ hmax
      · rw [dist3, V3.sub, V3.length, V3.length_squared]
        simp only [sub_self, mul_zero, add_zero]
        rw [Real.sqrt_zero]
        exact hmax
    · rw [List.getD_eq_default _ _ (by rw [smooth_iteration_length]; exact hi),
        List.getD_eq_default _ _ hi]
      rw [dist3, V3.sub, V3.length, V3.length_squared]
      simp only [sub_self, mul_zero, add_zero]
      rw [Real.sqrt_zero]
      exact hmax
  · intro hint
    rw [smooth_iteration_getD_lt plane pts i (by omega), if_pos hint]
  · unfold smooth_contour_limited
    split
    · rfl
    · exact smooth_iterate_length plane c.points plane.smooth_iters
  · unfold smooth_contour_limited
    split
    · rfl
    · exact smooth_iterate_head? plane c.points plane.smooth_iters
  · unfold smooth_contour_limited
    split
    · rfl
    · exact smooth_iterate_getLast? plane c.points plane.smooth_iters

/-- Witness for C6: a concrete plane with cap 1 and a concrete three-point
polyline; the middle point moves by at most the cap. -/
theorem C6_witness :
    dist3 ((smooth_iteration
        ⟨⟨1, 0, 0⟩, ⟨0, 0, 0⟩, ⟨0, 1, 0⟩, ⟨0, 0, 1⟩, 0, 1, 1, 1, 1, 1 / 2, 3, 1⟩
        [⟨0, 0, 0⟩, ⟨3, 4, 0⟩, ⟨6, 0, 0⟩]).getD 1 ⟨0, 0, 0⟩)
      ([(⟨0, 0, 0⟩ : V3), ⟨3, 4, 0⟩, ⟨6, 0, 0⟩].getD 1 ⟨0, 0, 0⟩) ≤
      (⟨⟨1, 0, 0⟩, ⟨0, 0, 0⟩, ⟨0, 1, 0⟩, ⟨0, 0, 1⟩, 0, 1, 1, 1, 1, 1 / 2, 3, 1⟩ :
        PlaneData).smooth_max_disp :=
  (C6_smoother_bounded_endpoints_fixed _ _ 1
    ⟨[⟨0, 0, 0⟩, ⟨3, 4, 0⟩, ⟨6, 0, 0⟩], false, 10⟩ (by norm_num)).2.1

lemma project_eq_none_iff (p : V3) (m : M4) (sz : ℤ × ℤ) :
    project_point_to_screen p m sz = none ↔
      (m.apply_point p).w < 1 / 100000000 := by
  unfold project_point_to_screen
  by_cases h : |(m.apply_point p).w| < 1 / 100000000 ∨ (m.apply_point p).w < 0
  · rw [if_pos h]
    refine iff_of_true rfl ?_
    rcases h with h | h
    · rcases abs_lt.mp h with ⟨_, h2⟩
      exact h2
    · linarith
  · rw [if_neg h]
    push_neg at h
    refine iff_of_false (by simp) ?_
    have hw : 1 / 100000000 ≤ (m.apply_point p).w := by
      rw [abs_of_nonneg h.2] at h
      exact h.1
    linarith

lemma project_eq_none_of_w_nonpos (p : V3) (m : M4) (sz : ℤ × ℤ)
    (h : (m.apply_point p).w ≤ 0) :
    project_point_to_screen p m sz = none := by
  rw [project_eq_none_iff]
  linarith

lemma decimate_step_both_invalid {m : M4} {sz : ℤ × ℤ} {s : ℝ} {st : DecimState} {p : V3}
    (hprev : st.prev_screen = none) (hp : project_point_to_screen p m sz = none) :
    decimate_step m sz s st p = st := by
  unfold decimate_step
  rw [hprev, hp]

lemma decimate_step_stop_valid {m : M4} {sz : ℤ × ℤ} {s : ℝ} {st : DecimState} {p : V3}
    {q : V2} (hprev : st.prev_screen = some q)
    (hp : project_point_to_screen p m sz = none) :
    decimate_step m sz s st p = ⟨none, 0, st.decimated ++ [p]⟩ := by
  unfold decimate_step
  rw [hprev, hp]

lemma decimate_step_become_valid {m : M4} {sz : ℤ × ℤ} {s : ℝ} {st : DecimState} {p : V3}
    {c : V2} (hprev : st.prev_screen = none)
    (hp : project_point_to_screen p m sz = some c) :
    decimate_step m sz s st p =
      if st.accum ≥ s then ⟨some c, 0, st.decimated ++ [p]⟩
      else ⟨some c, st.accum, st.decimated⟩ := by
  unfold decimate_step
  rw [hprev, hp]

lemma decimate_step_both_valid {m : M4} {sz : ℤ × ℤ} {s : ℝ} {st : DecimState} {p : V3}
    {q c : V2} (hprev : st.prev_screen = some q)
    (hp : project_point_to_screen p m sz = some c) :
    decimate_step m sz s st p =
      if st.accum + (c.sub q).length ≥ s then ⟨some c, 0, st.decimated ++ [p]⟩
      else ⟨some c, st.accum + (c.sub q).length, st.decimated⟩ := by
  unfold decimate_step
  rw [hprev, hp]

lemma decimate_step_decimated (m : M4) (sz : ℤ × ℤ) (s : ℝ) (st : DecimState) (p : V3) :
    (decimate_step m sz s st p).decimated = st.decimated ∨
    (decimate_step m sz s st p).decimated = st.decimated ++ [p] := by
  rcases hprev : st.prev_screen with _ | q <;>
    rcases hp : project_point_to_screen p m sz with _ | c
  · rw [decimate_step_both_invalid hprev hp]
    exact Or.inl rfl
  · rw [decimate_step_become_valid hprev hp]
    split
    · exact Or.inr rfl
    · exact Or.inl rfl
  · rw [decimate_step_stop_valid hprev hp]
    exact Or.inr rfl
  · rw [decimate_step_both_valid hprev hp]
    split
    · exact Or.inr rfl
    · exact Or.inl rfl

lemma decimate_foldl_head (m : M4) (sz : ℤ × ℤ) (s : ℝ) (l : List V3)
    (st : DecimState) (h : st.decimated ≠ []) :
    (l.foldl (decimate_step m sz s) st).decimated ≠ [] ∧
    (l.foldl (decimate_step m sz s) st).decimated.head? = st.decimated.head? := by
  induction l generalizing st with
  | nil => exact ⟨h, rfl⟩
  | cons p rest ih =>
    rw [List.foldl_cons]
    rcases decimate_step_decimated m sz s st p with heq | heq
    · have h2 : (decimate_step m sz s st p).decimated ≠ [] := by rw [heq]; exact h
      have hres := ih (decimate_step m sz s st p) h2
      exact ⟨hres.1, by rw [hres.2, heq]⟩
    · have h2 : (decimate_step m sz s st p).decimated ≠ [] := by rw [heq]; simp
      have hres := ih (decimate_step m sz s st p) h2
      refine ⟨hres.1, ?_⟩
      rw [hres.2, heq]
      cases hd : st.decimated with
      | nil => exact absurd hd h
      | cons a t => simp

lemma decimate_append_last_head? (c : ContourLoop) (dec : List V3) (hne : dec ≠ []) :
    (decimate_append_last c dec).head? = dec.head? ∧ decimate_append_last c dec ≠ [] := by
  unfold decimate_append_last
  split
  · constructor
    · cases dec with
      | nil => exact absurd rfl hne
      | cons a t => simp
    · simp
  · exact ⟨rfl, hne⟩

lemma decimate_finalize_head? (c : ContourLoop) (st : DecimState)
    (hne : st.decimated ≠ []) (hh : st.decimated.head? = c.points.head?) :
    (decimate_finalize c st).points.head? = c.points.head? := by
  unfold decimate_finalize
  split
  · rw [(decimate_append_last_head? c st.decimated hne).1, hh]
  · rfl

lemma decimate_contour_screen_head? (c : ContourLoop) (m : M4) (sz : ℤ × ℤ) (s : ℝ) :
    (decimate_contour_screen c m sz s).points.head? = c.points.head? := by
  unfold decimate_contour_screen
  split
  · rfl
  · split
    · rfl
    · rename_i p0 rest heq
      have hinit := decimate_foldl_head m sz s rest
        ⟨project_point_to_screen p0 m sz, 0, [p0]⟩ (by simp)
      refine decimate_finalize_head? c _ hinit.1 ?_
      rw [hinit.2, heq]
      simp

lemma decimate_finalize_getLast? (c : ContourLoop) (st : DecimState)
    (hc : c.points ≠ []) :
    (decimate_finalize c st).points.getLast? = c.points.getLast? := by
  have hsome : ∃ l, c.points.getLast? = some l := by
    cases hr : c.points.getLast? with
    | none => rw [List.getLast?_eq_none_iff] at hr; exact absurd hr hc
    | some l => exact ⟨l, rfl⟩
  rcases hsome with ⟨l, hlast⟩
  unfold decimate_finalize decimate_append_last
  by_cases hcond : st.decimated ≠ [] ∧ st.decimated.getLast? ≠ c.points.getLast?
  · rw [if_pos hcond]
    split
    · simp [List.getLast?_concat, hlast]
    · rfl
  · rw [if_neg hcond]
    push_neg at hcond
    split
    · rename_i hlen
      by_cases hd : st.decimated = []
      · rw [hd] at hlen
        simp at hlen
      · exact hcond hd
    · rfl

lemma decimate_contour_screen_getLast? (c : ContourLoop) (m : M4) (sz : ℤ × ℤ) (s : ℝ) :
    (decimate_contour_screen c m sz s).points.getLast? = c.points.getLast? := by
  unfold decimate_contour_screen
  split
  · rfl
  · split
    · rfl
    · rename_i p0 rest heq
      exact decimate_finalize_getLast? c _ (by rw [heq]; simp)

lemma decimate_finalize_two_le (c : ContourLoop) (st : DecimState)
    (h : 2 ≤ c.points.length) :
    2 ≤ (decimate_finalize c st).points.length := by
  unfold decimate_finalize
  split
  · rename_i hlen
    exact hlen
  · exact h

lemma decimate_contour_screen_two_le2 (c : ContourLoop) (m : M4) (sz : ℤ × ℤ) (s : ℝ)
    (h : 2 ≤ c.points.length) :
    2 ≤ (decimate_contour_screen c m sz s).points.length := by
  unfold decimate_contour_screen
  split
  · exact h
  · split
    · exact h
    · exact decimate_finalize_two_le c _ h

/-- C2 (amended): a projection is invalid exactly when the clip-space `w` is
below `1e-8`; in particular every point with `w ≤ 0` projects invalid.  An
invalid point is kept when the previous point projected valid, but an invalid
point whose predecessor also projected invalid is dropped, not kept; a point
is kept when the accumulated screen distance reaches `pixel_step`, but a
projection becoming valid again does not by itself force a keep.  The first
and last input points are always kept. -/
theorem C2_decimation_behaviour (c : ContourLoop) (m : M4) (sz : ℤ × ℤ) (s : ℝ)
    (p : V3) (st : DecimState) :
    (((m.apply_point p).w ≤ 0 → project_point_to_screen p m sz = none) ∧
      (project_point_to_screen p m sz = none ↔
        (m.apply_point p).w < 1 / 100000000)) ∧
    (st.prev_screen = none → project_point_to_screen p m sz = none →
      decimate_step m sz s st p = st) ∧
    (∀ q, st.prev_screen = some q → project_point_to_screen p m sz = none →
      decimate_step m sz s st p = ⟨none, 0, st.decimated ++ [p]⟩) ∧
    (∀ q2, st.prev_screen = none → project_point_to_screen p m sz = some q2 →
      ((decimate_step m sz s st p).decimated = st.decimated ++ [p] ↔ st.accum ≥ s)) ∧
    (∀ q q2, st.prev_screen = some q → project_point_to_screen p m sz = some q2 →
      ((decimate_step m sz s st p).decimated = st.decimated ++ [p] ↔
        st.accum + (q2.sub q).length ≥ s)) ∧
    (decimate_contour_screen c m sz s).points.head? = c.points.head? ∧
    (decimate_contour_screen c m sz s).points.getLast? = c.points.getLast? := by
  refine ⟨⟨project_eq_none_of_w_nonpos p m sz, project_eq_none_iff p m sz⟩,
    fun h1 h2 => decimate_step_both_invalid h1 h2,
    fun q h1 h2 => decimate_step_stop_valid h1 h2,
    fun q2 h1 h2 => ?_, fun q q2 h1 h2 => ?_,
    decimate_contour_screen_head? c m sz s,
    decimate_contour_screen_getLast? c m sz s⟩
  · rw [decimate_step_become_valid h1 h2]
    constructor
    · intro heq
      by_contra hacc
      rw [if_neg hacc] at heq
      simp at heq
    · intro hacc
      rw [if_pos hacc]
  · rw [decimate_step_both_valid h1 h2]
    constructor
    · intro heq
      by_contra hacc
      rw [if_neg hacc] at heq
      simp at heq
    · intro hacc
      rw [if_pos hacc]

lemma zero_mat_w (p : V3) : (zero_mat.apply_point p).w = 0 := by
  simp [zero_mat, M4.apply_point, V4.dot]

lemma zero_mat_project (p : V3) :
    project_point_to_screen p zero_mat (100, 100) = none := by
  apply project_eq_none_of_w_nonpos
  rw [zero_mat_w]

/-- C2 counterexample: with the zero projection matrix every point has
`w = 0 ≤ 0`, an invalid projection.  On the four-point polyline the two
middle points follow an invalid predecessor and are dropped — the claim says
every point whose projection is invalid is kept. -/
theorem C2_counterexample :
    project_point_to_screen ⟨1, 0, 0⟩ zero_mat (100, 100) = none ∧
    (zero_mat.apply_point ⟨1, 0, 0⟩).w ≤ 0 ∧
    (decimate_contour_screen
      ⟨[⟨0, 0, 0⟩, ⟨1, 0, 0⟩, ⟨2, 0, 0⟩, ⟨3, 0, 0⟩], false, 3⟩
      zero_mat (100, 100) (3 / 2)).points = [⟨0, 0, 0⟩, ⟨3, 0, 0⟩] := by
  refine ⟨zero_mat_project _, le_of_eq (zero_mat_w _), ?_⟩
  have s1 : decimate_step zero_mat (100, 100) (3 / 2)
      ⟨none, 0, [⟨0, 0, 0⟩]⟩ ⟨1, 0, 0⟩ = ⟨none, 0, [⟨0, 0, 0⟩]⟩ :=
    decimate_step_both_invalid rfl (zero_mat_project _)
  have s2 : decimate_step zero_mat (100, 100) (3 / 2)
      ⟨none, 0, [⟨0, 0, 0⟩]⟩ ⟨2, 0, 0⟩ = ⟨none, 0, [⟨0, 0, 0⟩]⟩ :=
    decimate_step_both_invalid rfl (zero_mat_project _)
  have s3 : decimate_step zero_mat (100, 100) (3 / 2)
      ⟨none, 0, [⟨0, 0, 0⟩]⟩ ⟨3, 0, 0⟩ = ⟨none, 0, [⟨0, 0, 0⟩]⟩ :=
    decimate_step_both_invalid rfl (zero_mat_project _)
  have hcond5 : (({ prev_screen := none, accum := 0, decimated := [⟨0, 0, 0⟩] } :
        DecimState).decimated ≠ [] ∧
      ({ prev_screen := none, accum := 0, decimated := [⟨0, 0, 0⟩] } :
        DecimState).decimated.getLast? ≠
        (⟨[⟨0, 0, 0⟩, ⟨1, 0, 0⟩, ⟨2, 0, 0⟩, ⟨3, 0, 0⟩], false, 3⟩ :
          ContourLoop).points.getLast?) := by
    refine ⟨by simp, ?_⟩
    simp [V3.mk.injEq]
  unfold decimate_contour_screen
  rw [if_neg (by norm_num)]
  simp only [List.foldl_cons, List.foldl_nil]
  rw [zero_mat_project ⟨0, 0, 0⟩, s1, s2, s3]
  unfold decimate_finalize decimate_append_last
  rw [if_pos hcond5]
  simp [V3.mk.injEq]

lemma smooth_contour_limited_points_length (c : ContourLoop) (plane : PlaneData) :
    (smooth_contour_limited c plane).points.length = c.points.length := by
  unfold smooth_contour_limited
  split
  · rfl
  · exact smooth_iterate_length plane c.points plane.smooth_iters

lemma chain_loop_pts_le (segments : List ContourSegment)
    (adjacency : List (ℕ × List ℕ)) :
    ∀ (fuel : ℕ) (used : List Bool) (pts : List V3) (ck : QuantizedPointKey),
      pts.length ≤ (chain_loop segments adjacency fuel used pts ck).2.1.length := by
  intro fuel
  induction fuel with
  | zero => intro used pts ck; exact le_refl _
  | succ k ih =>
    intro used pts ck
    unfold chain_loop
    split
    · exact le_refl _
    · split
      · exact le_refl _
      · split
        · exact le_refl _
        · split
          · exact le_trans (by simp) (ih _ _ _)
          · exact le_trans (by simp) (ih _ _ _)

lemma assemble_step_eq (segments : List ContourSegment)
    (adjacency : List (ℕ × List ℕ)) (plane : PlaneData)
    (acc : List Bool × List ContourLoop) (start_idx : ℕ) :
    assemble_step segments adjacency plane acc start_idx =
      if acc.1.getD start_idx true = true then acc
      else
        match segments[start_idx]? with
        | none => acc
        | some seg =>
          let res := chain_loop segments adjacency segments.length
            (acc.1.set start_idx true) [seg.a, seg.b] seg.key_b
          let len := polyline_length res.2.1
          if len < plane.min_loop_len then (res.1, acc.2)
          else (res.1, acc.2 ++ [smooth_contour_limited
            ⟨res.2.1, QuantizedPointKeyHash res.2.2 == QuantizedPointKeyHash seg.key_a &&
              decide (2 < res.2.1.length), len⟩ plane]) := rfl

lemma assemble_step_mem (segments : List ContourSegment)
    (adjacency : List (ℕ × List ℕ)) (plane : PlaneData)
    (acc : List Bool × List ContourLoop) (start_idx : ℕ)
    (hacc : ∀ l ∈ acc.2, assembled_from_filtered plane l) :
    ∀ l ∈ (assemble_step segments adjacency plane acc start_idx).2,
      assembled_from_filtered plane l := by
  rw [assemble_step_eq]
  split
  · exact hacc
  · split
    · exact hacc
    · rename_i seg heq
      simp only []
      split
      · exact hacc
      · rename_i hlen
        intro l hl
        rcases List.mem_append.mp hl with hold | hnew
        · exact hacc l hold
        · rcases List.mem_singleton.mp hnew with rfl
          refine ⟨⟨(chain_loop segments adjacency segments.length
              (acc.1.set start_idx true) [seg.a, seg.b] seg.key_b).2.1, _, _⟩,
            rfl, ?_, rfl, hlen⟩
          calc (2 : ℕ) = [seg.a, seg.b].length := by simp
            _ ≤ _ := chain_loop_pts_le segments adjacency _ _ _ _

lemma build_contours_mem (segments : List ContourSegment) (plane : PlaneData) :
    ∀ l ∈ build_contours_from_segments segments plane,
      assembled_from_filtered plane l := by
  unfold build_contours_from_segments
  split
  · simp
  · have h : ∀ (idxs : List ℕ) (acc : List Bool × List ContourLoop),
      (∀ l ∈ acc.2, assembled_from_filtered plane l) →
      ∀ l ∈ (idxs.foldl (assemble_step segments (build_adjacency segments) plane) acc).2,
        assembled_from_filtered plane l := by
      intro idxs
      induction idxs with
      | nil => intro acc hacc; exact hacc
      | cons i rest ih =>
        intro acc hacc
        rw [List.foldl_cons]
        exact ih _ (assemble_step_mem segments (build_adjacency segments) plane acc i hacc)
    exact h _ _ (by simp)

lemma decimate_contour_screen_two_le (c : ContourLoop) (m : M4) (sz : ℤ × ℤ) (s : ℝ)
    (h : 2 ≤ c.points.length) :
    2 ≤ (decimate_contour_screen c m sz s).points.length :=
  decimate_contour_screen_two_le2 c m sz s h

/-- C5 (amended): every polyline emitted by the per-axis pipeline has at
least two points, and every polyline emitted by the assembler is the
smoothing of a chained polyline whose pre-smoothing length (the sum of
pairwise distances of consecutive points) is at least `min_loop_len` —
shorter ones are discarded.  The length bound holds for the assembled
polyline before smoothing and decimation; those later stages can reduce the
geometric length below `min_loop_len` (see the counterexample). -/
theorem C5_emitted_polylines (segments : List ContourSegment) (plane : PlaneData)
    (view : Option (M4 × (ℤ × ℤ))) :
    (∀ l ∈ axis_postprocess segments plane view, 2 ≤ l.points.length) ∧
    (∀ l ∈ build_contours_from_segments segments plane,
      assembled_from_filtered plane l) := by
  refine ⟨?_, build_contours_mem segments plane⟩
  intro l hl
  have hbase : ∀ l2 ∈ build_contours_from_segments segments plane,
      2 ≤ l2.points.length := by
    intro l2 hl2
    rcases build_contours_mem segments plane l2 hl2 with ⟨pre, rfl, hpre, _, _⟩
    rw [smooth_contour_limited_points_length]
    exact hpre
  unfold axis_postprocess at hl
  rcases view with _ | ⟨viewproj, region_size⟩
  · exact hbase l hl
  · simp only [List.mem_map] at hl
    rcases hl with ⟨c, hc, rfl⟩
    exact decimate_contour_screen_two_le c viewproj region_size (3 / 2) (hbase c hc)

lemma sqrt_eval {a b : ℝ} (hb : 0 ≤ b) (heq : a = b ^ 2) : Real.sqrt a = b := by
  rw [heq, Real.sqrt_sq hb]

lemma c5_plane_eq : c5_plane = c5_plane_lit := by
  unfold c5_plane c5_plane_lit pipeline_plane build_plane_data normalize3
  norm_num [V3.smul, V3.cross, V3.length, V3.length_squared, PlaneData.mk.injEq,
    V3.mk.injEq, Real.sqrt_one]

lemma c5_quant_b : quantize_point ⟨0, 624 / 25, 182 / 25⟩ c5_plane = ⟨5, 1, 0⟩ := by
  rw [c5_plane_eq]
  unfold quantize_point c5_plane_lit
  norm_num [V3.dot, QuantizedPointKey.mk.injEq, round_eq, Int.floor_eq_iff]

lemma c5_H00 : QuantizedPointKeyHash ⟨0, 0, 0⟩ = 1609587929392839161 := by decide

lemma c5_H51 : QuantizedPointKeyHash ⟨5, 1, 0⟩ = 8403220912367841769 := by decide

lemma c5_H57 : QuantizedPointKeyHash ⟨5, 7, 0⟩ = 6120770902829805145 := by decide

lemma c5_adj : build_adjacency [c5_seg1, c5_seg2] =
    [(1609587929392839161, [0]), (8403220912367841769, [0, 1]),
     (6120770902829805145, [1])] := by
  unfold build_adjacency
  rw [show List.range ([c5_seg1, c5_seg2].length) = [0, 1] from rfl]
  simp only [List.foldl_cons, List.foldl_nil]
  rw [show ([c5_seg1, c5_seg2][0]? : Option ContourSegment) = some c5_seg1 from rfl,
    show ([c5_seg1, c5_seg2][1]? : Option ContourSegment) = some c5_seg2 from rfl]
  simp only [c5_seg1, c5_seg2]
  rw [c5_H00, c5_H51, c5_H57]
  simp [adj_append, adj_lookup]

lemma c5_chain : chain_loop [c5_seg1, c5_seg2]
    [(1609587929392839161, [0]), (8403220912367841769, [0, 1]),
     (6120770902829805145, [1])] 2 [true, false]
    [⟨0, 0, 0⟩, ⟨0, 624 / 25, 182 / 25⟩] ⟨5, 1, 0⟩ =
    ([true, true], [⟨0, 0, 0⟩, ⟨0, 624 / 25, 182 / 25⟩, ⟨0, 624 / 25, 832 / 25⟩],
      ⟨5, 7, 0⟩) := by
  unfold chain_loop
  rw [c5_H51]
  simp only [adj_lookup]
  norm_num
  simp only [c5_seg2]
  norm_num
  unfold chain_loop
  rw [c5_H57]
  simp [adj_lookup]

lemma c5_d1 : dist3 ⟨0, 0, 0⟩ ⟨0, 624 / 25, 182 / 25⟩ = 26 := by
  unfold dist3 V3.length
  exact sqrt_eval (by norm_num) (by norm_num [V3.sub, V3.length_squared])

lemma c5_d2 : dist3 ⟨0, 624 / 25, 182 / 25⟩ ⟨0, 624 / 25, 832 / 25⟩ = 26 := by
  unfold dist3 V3.length
  exact sqrt_eval (by norm_num) (by norm_num [V3.sub, V3.length_squared])

lemma c5_len : polyline_length [⟨0, 0, 0⟩, ⟨0, 624 / 25, 182 / 25⟩, ⟨0, 624 / 25, 832 / 25⟩] =
    52 := by
  unfold polyline_length polyline_length polyline_length
  rw [c5_d1, c5_d2]
  norm_num

lemma c5_cap1 : cap_displacement c5_plane_lit ⟨0, -(156 / 25), 117 / 25⟩ = ⟨0, -1, 3 / 4⟩ := by
  have hlen : V3.length ⟨0, -(156 / 25), 117 / 25⟩ = 39 / 5 := by
    unfold V3.length
    exact sqrt_eval (by norm_num) (by norm_num [V3.length_squared])
  unfold cap_displacement
  rw [hlen, if_pos (by norm_num [c5_plane_lit])]
  norm_num [V3.smul, c5_plane_lit, V3.mk.injEq]

lemma c5_cap2 : cap_displacement c5_plane_lit ⟨0, -(287 / 50), 861 / 200⟩ = ⟨0, -1, 3 / 4⟩ := by
  have hlen : V3.length ⟨0, -(287 / 50), 861 / 200⟩ = 287 / 40 := by
    unfold V3.length
    exact sqrt_eval (by norm_num) (by norm_num [V3.length_squared])
  unfold cap_displacement
  rw [hlen, if_pos (by norm_num [c5_plane_lit])]
  norm_num [V3.smul, c5_plane_lit, V3.mk.injEq]

lemma c5_cap3 : cap_displacement c5_plane_lit ⟨0, -(131 / 25), 393 / 100⟩ = ⟨0, -1, 3 / 4⟩ := by
  have hlen : V3.length ⟨0, -(131 / 25), 393 / 100⟩ = 131 / 20 := by
    unfold V3.length
    exact sqrt_eval (by norm_num) (by norm_num [V3.length_squared])
  unfold cap_displacement
  rw [hlen, if_pos (by norm_num [c5_plane_lit])]
  norm_num [V3.smul, c5_plane_lit, V3.mk.injEq]

lemma c5_iter1 : smooth_iteration c5_plane_lit
    [⟨0, 0, 0⟩, ⟨0, 624 / 25, 182 / 25⟩, ⟨0, 624 / 25, 832 / 25⟩] =
    [⟨0, 0, 0⟩, ⟨0, 599 / 25, 803 / 100⟩, ⟨0, 624 / 25, 832 / 25⟩] := by
  have hf : c5_plane_lit.smooth_factor = 1 / 2 := rfl
  unfold smooth_iteration
  rw [show List.range ([(⟨0, 0, 0⟩ : V3), ⟨0, 624 / 25, 182 / 25⟩,
    ⟨0, 624 / 25, 832 / 25⟩].length) = [0, 1, 2] from rfl]
  simp only [List.map, List.getD, List.length_cons, List.length_nil]
  norm_num [V3.add, V3.sub, V3.smul, hf]
  rw [c5_cap1]
  norm_num

lemma c5_iter2 : smooth_iteration c5_plane_lit
    [⟨0, 0, 0⟩, ⟨0, 599 / 25, 803 / 100⟩, ⟨0, 624 / 25, 832 / 25⟩] =
    [⟨0, 0, 0⟩, ⟨0, 574 / 25, 439 / 50⟩, ⟨0, 624 / 25, 832 / 25⟩] := by
  have hf : c5_plane_lit.smooth_factor = 1 / 2 := rfl
  unfold smooth_iteration
  rw [show List.range ([(⟨0, 0, 0⟩ : V3), ⟨0, 599 / 25, 803 / 100⟩,
    ⟨0, 624 / 25, 832 / 25⟩].length) = [0, 1, 2] from rfl]
  simp only [List.map, List.getD, List.length_cons, List.length_nil]
  norm_num [V3.add, V3.sub, V3.smul, hf]
  rw [c5_cap2]
  norm_num

lemma c5_iter3 : smooth_iteration c5_plane_lit
    [⟨0, 0, 0⟩, ⟨0, 574 / 25, 439 / 50⟩, ⟨0, 624 / 25, 832 / 25⟩] =
    [⟨0, 0, 0⟩, ⟨0, 549 / 25, 953 / 100⟩, ⟨0, 624 / 25, 832 / 25⟩] := by
  have hf : c5_plane_lit.smooth_factor = 1 / 2 := rfl
  unfold smooth_iteration
  rw [show List.range ([(⟨0, 0, 0⟩ : V3), ⟨0, 574 / 25, 439 / 50⟩,
    ⟨0, 624 / 25, 832 / 25⟩].length) = [0, 1, 2] from rfl]
  simp only [List.map, List.getD, List.length_cons, List.length_nil]
  norm_num [V3.add, V3.sub, V3.smul, hf]
  rw [c5_cap3]
  norm_num

lemma c5_smooth : smooth_contour_limited
    ⟨[⟨0, 0, 0⟩, ⟨0, 624 / 25, 182 / 25⟩, ⟨0, 624 / 25, 832 / 25⟩], false, 52⟩ c5_plane_lit =
    ⟨[⟨0, 0, 0⟩, ⟨0, 549 / 25, 953 / 100⟩, ⟨0, 624 / 25, 832 / 25⟩], false, 52⟩ := by
  unfold smooth_contour_limited
  rw [if_neg (by norm_num)]
  show ContourLoop.mk (smooth_iteration c5_plane_lit (smooth_iteration c5_plane_lit
      (smooth_iteration c5_plane_lit
        [⟨0, 0, 0⟩, ⟨0, 624 / 25, 182 / 25⟩, ⟨0, 624 / 25, 832 / 25⟩]))) false 52 = _
  rw [c5_iter1, c5_iter2, c5_iter3]

lemma c5_step0 : assemble_step [c5_seg1, c5_seg2]
    [(1609587929392839161, [0]), (8403220912367841769, [0, 1]),
     (6120770902829805145, [1])] c5_plane_lit ([false, false], []) 0 =
    ([true, true],
     [⟨[⟨0, 0, 0⟩, ⟨0, 549 / 25, 953 / 100⟩, ⟨0, 624 / 25, 832 / 25⟩], false, 52⟩]) := by
  rw [assemble_step_eq]
  rw [if_neg (by simp)]
  rw [show ([c5_seg1, c5_seg2][0]? : Option ContourSegment) = some c5_seg1 from rfl]
  simp only []
  rw [show ([false, false].set 0 true) = [true, false] from rfl]
  rw [show ([c5_seg1, c5_seg2] : List ContourSegment).length = 2 from rfl]
  rw [show c5_seg1.a = ⟨0, 0, 0⟩ from rfl,
    show c5_seg1.b = ⟨0, 624 / 25, 182 / 25⟩ from rfl,
    show c5_seg1.key_a = ⟨0, 0, 0⟩ from rfl, show c5_seg1.key_b = ⟨5, 1, 0⟩ from rfl]
  rw [c5_chain]
  simp only []
  rw [c5_len]
  rw [if_neg (by norm_num [c5_plane_lit])]
  rw [c5_H57, c5_H00]
  norm_num
  rw [show ((6120770902829805145 : ℕ) == 1609587929392839161) = false from by decide]
  rw [c5_smooth]

lemma c5_build : build_contours_from_segments [c5_seg1, c5_seg2] c5_plane_lit =
    [⟨[⟨0, 0, 0⟩, ⟨0, 549 / 25, 953 / 100⟩, ⟨0, 624 / 25, 832 / 25⟩], false, 52⟩] := by
  unfold build_contours_from_segments
  rw [if_neg (by simp)]
  rw [show List.range ([c5_seg1, c5_seg2].length) = [0, 1] from rfl]
  rw [c5_adj]
  rw [show (List.replicate ([c5_seg1, c5_seg2] : List ContourSegment).length false) =
    [false, false] from rfl]
  simp only [List.foldl_cons, List.foldl_nil]
  rw [c5_step0]
  rw [assemble_step_eq]
  rw [if_pos (by simp)]

lemma c5_postprocess : axis_postprocess [c5_seg1, c5_seg2] c5_plane_lit none =
    [⟨[⟨0, 0, 0⟩, ⟨0, 549 / 25, 953 / 100⟩, ⟨0, 624 / 25, 832 / 25⟩], false, 52⟩] := by
  unfold axis_postprocess
  simp only []
  exact c5_build

lemma c5_quant_a : quantize_point ⟨0, 0, 0⟩ c5_plane = ⟨0, 0, 0⟩ := by
  rw [c5_plane_eq]
  unfold quantize_point c5_plane_lit
  norm_num [V3.dot, QuantizedPointKey.mk.injEq, round_eq, Int.floor_eq_iff]

lemma c5_quant_c : quantize_point ⟨0, 624 / 25, 832 / 25⟩ c5_plane = ⟨5, 7, 0⟩ := by
  rw [c5_plane_eq]
  unfold quantize_point c5_plane_lit
  norm_num [V3.dot, QuantizedPointKey.mk.injEq, round_eq, Int.floor_eq_iff]

/-- C5 counterexample: a V-shaped pair of segments (each of length 26,
diagonal 50000, so `min_loop_len = 50`) whose assembled length is 52,
strictly above `min_loop_len` by a margin of 2, so the polyline clearly
passes the assembler's length filter; after the three bounded smoothing
iterations the geometric length of the emitted polyline is
`2 * sqrt(9169/16) ≈ 47.88 < 50`, strictly below `min_loop_len` — the claim
that every cached polyline keeps total length at least `min_loop_len` after
smoothing and decimation is false, with strict margins on both sides of the
filter. -/
theorem C5_counterexample :
    c5_plane = pipeline_plane 0 50000 ⟨⟨1, 0, 0, 0⟩, ⟨0, 1, 0, 0⟩, ⟨0, 0, 1, 0⟩, ⟨0, 0, 0, 1⟩⟩ ∧
    quantize_point ⟨0, 0, 0⟩ c5_plane = c5_seg1.key_a ∧
    quantize_point ⟨0, 624 / 25, 182 / 25⟩ c5_plane = c5_seg1.key_b ∧
    quantize_point ⟨0, 624 / 25, 832 / 25⟩ c5_plane = c5_seg2.key_b ∧
    polyline_length [c5_seg1.a, c5_seg1.b, c5_seg2.b] = 52 ∧
    c5_plane.min_loop_len + 2 ≤ polyline_length [c5_seg1.a, c5_seg1.b, c5_seg2.b] ∧
    axis_postprocess [c5_seg1, c5_seg2] c5_plane none =
      [⟨[⟨0, 0, 0⟩, ⟨0, 549 / 25, 953 / 100⟩, ⟨0, 624 / 25, 832 / 25⟩], false, 52⟩] ∧
    polyline_length [⟨0, 0, 0⟩, ⟨0, 549 / 25, 953 / 100⟩, ⟨0, 624 / 25, 832 / 25⟩] <
      c5_plane.min_loop_len := by
  have hd1 : dist3 ⟨0, 0, 0⟩ ⟨0, 549 / 25, 953 / 100⟩ = Real.sqrt (9169 / 16) := by
    unfold dist3 V3.length
    norm_num [V3.sub, V3.length_squared]
  have hd2 : dist3 ⟨0, 549 / 25, 953 / 100⟩ ⟨0, 624 / 25, 832 / 25⟩ =
      Real.sqrt (9169 / 16) := by
    unfold dist3 V3.length
    norm_num [V3.sub, V3.length_squared]
  have hs : Real.sqrt (9169 / 16) < 25 := by
    calc Real.sqrt (9169 / 16) < Real.sqrt 625 :=
      Real.sqrt_lt_sqrt (by norm_num) (by norm_num)
    _ = 25 := sqrt_eval (by norm_num) (by norm_num)
  have hlen52 : polyline_length [c5_seg1.a, c5_seg1.b, c5_seg2.b] = 52 := by
    rw [show c5_seg1.a = ⟨0, 0, 0⟩ from rfl,
      show c5_seg1.b = ⟨0, 624 / 25, 182 / 25⟩ from rfl,
      show c5_seg2.b = ⟨0, 624 / 25, 832 / 25⟩ from rfl]
    exact c5_len
  refine ⟨rfl, c5_quant_a, c5_quant_b, c5_quant_c, hlen52, ?_, ?_, ?_⟩
  · rw [hlen52, c5_plane_eq, show c5_plane_lit.min_loop_len = 50 from rfl]
    norm_num
  · rw [c5_plane_eq]
    exact c5_postprocess
  · rw [c5_plane_eq]
    unfold polyline_length polyline_length polyline_length
    rw [hd1, hd2]
    rw [show c5_plane_lit.min_loop_len = 50 from rfl]
    linarith

/-- C8: a call with a null object or an object without mesh data is a no-op:
the whole state — cached polylines, per-axis segment caches, previous-state
tracking and line buffer — is returned unchanged. -/
theorem C8_invalid_input_noop (s : ContourState) (i : UpdateInput)
    (h : i.ob = none ∨ ∃ o, i.ob = some o ∧ o.data = none) :
    (update_contours s i).1 = s := by
  unfold update_contours
  rcases h with h | ⟨o, ho, hd⟩
  · rw [h]
  · rw [ho]
    simp only []
    rw [hd]

/-- Witness for C8: the call on a null object returns the state unchanged. -/
theorem C8_witness :
    (update_contours
      ⟨[], ⟨[], [], []⟩, false, false, none, 0, [], false, ⟨0, 0, 0⟩, 0⟩
      ⟨none, 0, none, none⟩).1 =
    ⟨[], ⟨[], [], []⟩, false, false, none, 0, [], false, ⟨0, 0, 0⟩, 0⟩ :=
  C8_invalid_input_noop _ _ (Or.inl rfl)

lemma axis_node_step_budget (positions : List V3) (mesh : Option MeshData)
    (pbvh : Pbvh) (plane : PlaneData) (oc hd : Bool)
    (culled : Option (Bounds3 → Bool)) (acc : AxisAcc) (n : ℕ)
    (h1 : acc.recomputed ≤ 64)
    (h2 : 0 < acc.budget_left → (acc.recomputed : ℤ) + acc.budget_left = 64) :
    (axis_node_step positions mesh pbvh plane oc hd culled acc n).recomputed ≤ 64 ∧
    (0 < (axis_node_step positions mesh pbvh plane oc hd culled acc n).budget_left →
      ((axis_node_step positions mesh pbvh plane oc hd culled acc n).recomputed : ℤ) +
        (axis_node_step positions mesh pbvh plane oc hd culled acc n).budget_left = 64) := by
  unfold axis_node_step
  split
  · exact ⟨h1, h2⟩
  · split
    · exact ⟨h1, h2⟩
    · split
      · exact ⟨h1, h2⟩
      · split
        · split
          · rename_i hbud
            refine ⟨h1, ?_⟩
            intro hpos
            simp only [] at hpos
            omega
          · rename_i hbud
            push_neg at hbud
            have heq := h2 hbud
            constructor
            · simp only []
              omega
            · intro _
              simp only []
              push_cast
              push_cast at heq
              omega
        · split
          · exact ⟨h1, h2⟩
          · exact ⟨h1, h2⟩

lemma axis_fold_budget (positions : List V3) (mesh : Option MeshData)
    (pbvh : Pbvh) (plane : PlaneData) (oc hd : Bool)
    (culled : Option (Bounds3 → Bool)) :
    ∀ (l : List ℕ) (acc : AxisAcc), acc.recomputed ≤ 64 →
      (0 < acc.budget_left → (acc.recomputed : ℤ) + acc.budget_left = 64) →
      (l.foldl (axis_node_step positions mesh pbvh plane oc hd culled) acc).recomputed ≤ 64 := by
  intro l
  induction l with
  | nil => intro acc h1 _; exact h1
  | cons n rest ih =>
    intro acc h1 h2
    rw [List.foldl_cons]
    have := axis_node_step_budget positions mesh pbvh plane oc hd culled acc n h1 h2
    exact ih _ this.1 this.2

lemma process_axis_recomputed_le (positions : List V3) (mesh : Option MeshData)
    (pbvh : Option Pbvh) (plane : PlaneData) (oc hd : Bool)
    (culled : Option (Bounds3 → Bool)) (axis_cache : SegCache) :
    (process_axis positions mesh pbvh plane oc hd culled axis_cache).2.2.recomputed ≤ 64 := by
  unfold process_axis
  rcases pbvh with _ | p
  · simp
  · simp only []
    exact axis_fold_budget positions mesh p plane oc hd culled p.leaf_indices _
      (by simp) (by intro _; simp)

lemma run_axis_recomputed_le (positions : List V3) (mesh : Option MeshData)
    (pbvh : Option Pbvh) (obmat : M4) (oc hd : Bool)
    (culled : Option (Bounds3 → Bool)) (view : Option (M4 × (ℤ × ℤ)))
    (diag : ℝ) (flags : ℕ) (color : V3) (alpha : ℝ) (axis : ℕ) (acc : FrameAcc) :
    (run_axis positions mesh pbvh obmat oc hd culled view diag flags color alpha
      axis acc).2.recomputed ≤ 64 := by
  unfold run_axis
  split
  · simp [zero_metrics]
  · exact process_axis_recomputed_le positions mesh pbvh _ oc hd culled _

lemma run_axis_pending_any (positions : List V3) (mesh : Option MeshData)
    (pbvh : Option Pbvh) (obmat : M4) (oc hd : Bool)
    (culled : Option (Bounds3 → Bool)) (view : Option (M4 × (ℤ × ℤ)))
    (diag : ℝ) (flags : ℕ) (color : V3) (alpha : ℝ) (axis : ℕ) (acc : FrameAcc) :
    (run_axis positions mesh pbvh obmat oc hd culled view diag flags color alpha
        axis acc).1.pending_any =
      (acc.pending_any ||
        (run_axis positions mesh pbvh obmat oc hd culled view diag flags color alpha
          axis acc).2.pending) := by
  unfold run_axis
  split
  · simp [zero_metrics]
  · rfl

/-- C3: in every call, the number of leaf nodes recomputed and written back
into an axis cache is at most the per-axis budget of 64, and whenever some
node was skipped because the budget was exhausted (the pending flag of an
axis), the dirty flag of the resulting state is set, so the work is retried
next frame. -/
theorem C3_recompute_budget (s : ContourState) (i : UpdateInput) :
    (update_contours s i).2.1.recomputed ≤ 64 ∧
    (update_contours s i).2.2.1.recomputed ≤ 64 ∧
    (update_contours s i).2.2.2.recomputed ≤ 64 ∧
    (((update_contours s i).2.1.pending = true ∨
        (update_contours s i).2.2.1.pending = true ∨
        (update_contours s i).2.2.2.pending = true) →
      (update_contours s i).1.contours_dirty = true) := by
  unfold update_contours
  rcases hob : i.ob with _ | o
  · simp [zero_metrics]
  · simp only []
    rcases hdata : o.data with _ | mesh
    · simp [zero_metrics]
    · simp only []
      split
      · simp [zero_metrics]
      · split
        · simp [zero_metrics]
        · refine ⟨run_axis_recomputed_le _ _ _ _ _ _ _ _ _ _ _ _ _ _,
            run_axis_recomputed_le _ _ _ _ _ _ _ _ _ _ _ _ _ _,
            run_axis_recomputed_le _ _ _ _ _ _ _ _ _ _ _ _ _ _, ?_⟩
          intro hp
          simp only [] at hp ⊢
          rw [run_axis_pending_any, run_axis_pending_any, run_axis_pending_any]
          rcases hp with hp | hp | hp <;> simp at hp ⊢ <;> simp [hp]

/-- C10: a leaf that survives plane and frustum culling and is selected for
recomputation, but is skipped because the per-axis budget is exhausted,
contributes nothing to the frame: the merged segment list, the hash set and
the axis cache are left unchanged — in particular its stale cached segment
list, if one exists, is not merged — no counter is incremented, and the
pending flag is set so the node is retried in a later frame. -/
theorem C10_budget_skip_contributes_nothing (positions : List V3)
    (mesh : Option MeshData) (pbvh : Pbvh) (plane : PlaneData) (oc hd : Bool)
    (culled : Option (Bounds3 → Bool)) (acc : AxisAcc) (n : ℕ) (node : PbvhNode)
    (hnode : pbvh.nodes[n]? = some node)
    (hplane : aabb_intersects_plane node.bounds plane = true)
    (hcull : (match culled with | some f => f node.bounds | none => false) = false)
    (hdec : recompute_decision oc hd pbvh.dirty_nodes acc.lookup n = true)
    (hbudget : acc.budget_left ≤ 0) :
    axis_node_step positions mesh pbvh plane oc hd culled acc n =
      { acc with budget_left := acc.budget_left - 1, pending := true } := by
  unfold axis_node_step
  rw [hnode]
  simp only [hplane, hcull, hdec, Bool.not_true, Bool.false_eq_true, if_false,
    if_true]
  rw [if_pos hbudget]

/-- Witness for C10: a concrete budget-exhausted step leaves the segment
list, hash set, cache and counters untouched, decrements the budget and sets
the pending flag. -/
theorem C10_witness :
    axis_node_step [] none c10_pbvh c10_plane false false none c10_acc 0 =
      { c10_acc with budget_left := c10_acc.budget_left - 1, pending := true } :=
  C10_budget_skip_contributes_nothing [] none c10_pbvh c10_plane false false none
    c10_acc 0 c10_node rfl
    (by
      rw [show c10_node.bounds = ⟨⟨0, 0, 0⟩, ⟨0, 0, 0⟩⟩ from rfl]
      unfold aabb_intersects_plane
      rw [decide_eq_true_eq]
      norm_num [V3.smul, V3.add, V3.sub, V3.dot, c10_plane])
    rfl rfl (le_refl 0)

lemma cache_entry_isSome_iff (c : SegCache) (k : ℕ) :
    (cache_lookup_entry c k).isSome = true ↔ ∃ e ∈ c, e.1 = k := by
  unfold cache_lookup_entry
  simp [List.find?_isSome]

lemma cache_lookup_entry_add_overwrite (c : SegCache) (n k : ℕ)
    (v : List ContourSegment)
    (h : (cache_lookup_entry (cache_add_overwrite c n v) k).isSome = true) :
    k = n ∨ (cache_lookup_entry c k).isSome = true := by
  rw [cache_entry_isSome_iff] at h
  obtain ⟨e, he, hek⟩ := h
  unfold cache_add_overwrite at he
  rw [cache_entry_isSome_iff]
  by_cases hs : (c.find? (fun e => e.1 == n)).isSome
  · rw [if_pos hs] at he
    obtain ⟨e0, he0, hmap⟩ := List.mem_map.mp he
    by_cases h0 : e0.1 = n
    · rw [if_pos (by simpa using h0)] at hmap
      left
      rw [← hek, ← hmap]
    · rw [if_neg (by simpa using h0)] at hmap
      right
      exact ⟨e0, he0, by rw [hmap, hek]⟩
  · rw [if_neg hs] at he
    rcases List.mem_append.mp he with he | he
    · right
      exact ⟨e, he, hek⟩
    · left
      rw [← hek, List.mem_singleton.mp he]

lemma AxisCaches.get_set_ne (c : AxisCaches) (a k : ℕ) (v : SegCache)
    (ha : a < 3) (hk : k < 3) (h : k ≠ a) : (c.set a v).get k = c.get k := by
  unfold AxisCaches.get AxisCaches.set
  by_cases h0 : a = 0 <;> by_cases h1 : a = 1 <;>
    by_cases k0 : k = 0 <;> by_cases k1 : k = 1 <;> simp_all
  omega

/-- One step of the axis loop on a cleared axis: the snapshot stays `none`,
cache entries only exist for eligible nodes, nothing is ever reused, the
budget bookkeeping is maintained and the recompute counter advances exactly
on eligible nodes while below the budget. -/
lemma axis_node_step_stroke (positions : List V3) (mesh : Option MeshData)
    (p : Pbvh) (plane : PlaneData) (oc hd : Bool)
    (culled : Option (Bounds3 → Bool)) (acc : AxisAcc) (n : ℕ) (r : AxisAcc)
    (hr : r = axis_node_step positions mesh p plane oc hd culled acc n)
    (h1 : acc.lookup = none)
    (h2 : ∀ k, (cache_lookup_entry acc.cache k).isSome = true →
      recompute_decision oc hd p.dirty_nodes none k = true)
    (h4 : acc.recomputed ≤ 64)
    (h5 : 0 < acc.budget_left → (acc.recomputed : ℤ) + acc.budget_left = 64)
    (h6 : acc.budget_left ≤ 0 → acc.recomputed = 64) :
    r.lookup = none ∧
    (∀ k, (cache_lookup_entry r.cache k).isSome = true →
      recompute_decision oc hd p.dirty_nodes none k = true) ∧
    r.reused = acc.reused ∧
    r.recomputed ≤ 64 ∧
    (0 < r.budget_left → (r.recomputed : ℤ) + r.budget_left = 64) ∧
    (r.budget_left ≤ 0 → r.recomputed = 64) ∧
    r.recomputed = (if stroke_eligible p plane culled oc hd n = true ∧
      acc.recomputed < 64 then acc.recomputed + 1 else acc.recomputed) ∧
    (stroke_eligible p plane culled oc hd n = false →
      r.budget_left = acc.budget_left ∧ r.pending = acc.pending) := by
  subst hr
  unfold axis_node_step
  split
  · rename_i hn
    have helig : stroke_eligible p plane culled oc hd n = false := by
      unfold stroke_eligible survives
      rw [hn]
      simp
    refine ⟨h1, h2, rfl, h4, h5, h6, ?_, fun _ => ⟨rfl, rfl⟩⟩
    rw [if_neg]
    intro hc
    rw [helig] at hc
    exact absurd hc.1 (by simp)
  · rename_i node hn
    split
    · rename_i haabb
      have helig : stroke_eligible p plane culled oc hd n = false := by
        unfold stroke_eligible survives
        rw [hn]
        simp at haabb
        simp [haabb]
      refine ⟨h1, h2, rfl, h4, h5, h6, ?_, fun _ => ⟨rfl, rfl⟩⟩
      rw [if_neg]
      intro hc
      rw [helig] at hc
      exact absurd hc.1 (by simp)
    · rename_i haabb
      split
      · rename_i hcull
        have helig : stroke_eligible p plane culled oc hd n = false := by
          unfold stroke_eligible survives
          rw [hn]
          simp [hcull]
        refine ⟨h1, h2, rfl, h4, h5, h6, ?_, fun _ => ⟨rfl, rfl⟩⟩
        rw [if_neg]
        intro hc
        rw [helig] at hc
        exact absurd hc.1 (by simp)
      · rename_i hcull
        split
        · rename_i hdec
          rw [h1] at hdec
          have helig : stroke_eligible p plane culled oc hd n = true := by
            unfold stroke_eligible survives
            rw [hn]
            simp at haabb hcull
            simp [haabb, hcull, hdec]
          split
          · rename_i hbud
            have hrec := h6 hbud
            refine ⟨h1, h2, rfl, h4, ?_, ?_, ?_, ?_⟩
            · intro hpos
              simp only [] at hpos
              omega
            · intro _
              exact hrec
            · rw [if_neg]
              intro hc
              omega
            · intro hc
              rw [helig] at hc
              exact Bool.noConfusion hc
          · rename_i hbud
            push_neg at hbud
            have heq := h5 hbud
            have hlt : acc.recomputed < 64 := by omega
            refine ⟨?_, ?_, rfl, ?_, ?_, ?_, ?_, ?_⟩
            · simp only []
              rw [h1]
              rfl
            · intro k hk
              simp only [] at hk
              rcases cache_lookup_entry_add_overwrite _ _ _ _ hk with hkn | hk2
              · rw [hkn]
                exact hdec
              · exact h2 k hk2
            · simp only []
              omega
            · intro hpos
              simp only [] at hpos ⊢
              push_cast
              omega
            · intro hle
              simp only [] at hle ⊢
              omega
            · rw [if_pos ⟨helig, hlt⟩]
            · intro hc
              rw [helig] at hc
              exact Bool.noConfusion hc
        · rename_i hdec
          rw [h1] at hdec
          have hdecf : recompute_decision oc hd p.dirty_nodes none n = false := by
            simp only [Bool.not_eq_true] at hdec
            exact hdec
          have helig : stroke_eligible p plane culled oc hd n = false := by
            unfold stroke_eligible
            simp [hdecf]
          split
          · rename_i cached hc
            exfalso
            have := h2 n (by rw [hc]; rfl)
            rw [hdecf] at this
            exact absurd this (by simp)
          · refine ⟨h1, h2, rfl, h4, h5, h6, ?_, fun _ => ⟨rfl, rfl⟩⟩
            rw [if_neg]
            intro hcond
            rw [helig] at hcond
            exact absurd hcond.1 (by simp)

/-- Folding the axis loop over any leaf list on a cleared axis: nothing is
reused and the recompute counter is the number of eligible leaves clamped at
the budget. -/
lemma axis_fold_stroke (positions : List V3) (mesh : Option MeshData)
    (p : Pbvh) (plane : PlaneData) (oc hd : Bool)
    (culled : Option (Bounds3 → Bool)) :
    ∀ (l : List ℕ) (acc : AxisAcc),
      acc.lookup = none →
      (∀ k, (cache_lookup_entry acc.cache k).isSome = true →
        recompute_decision oc hd p.dirty_nodes none k = true) →
      acc.recomputed ≤ 64 →
      (0 < acc.budget_left → (acc.recomputed : ℤ) + acc.budget_left = 64) →
      (acc.budget_left ≤ 0 → acc.recomputed = 64) →
      (l.foldl (axis_node_step positions mesh p plane oc hd culled) acc).reused
          = acc.reused ∧
      (l.foldl (axis_node_step positions mesh p plane oc hd culled) acc).recomputed
          = min (acc.recomputed +
              (l.filter (stroke_eligible p plane culled oc hd)).length) 64 ∧
      ((∀ k ∈ l, stroke_eligible p plane culled oc hd k = false) →
        (l.foldl (axis_node_step positions mesh p plane oc hd culled) acc).budget_left
            = acc.budget_left ∧
        (l.foldl (axis_node_step positions mesh p plane oc hd culled) acc).pending
            = acc.pending)
  | [], acc => by
    intro _ _ h4 _ _
    refine ⟨rfl, ?_, fun _ => ⟨rfl, rfl⟩⟩
    simp [Nat.min_eq_left h4]
  | n :: rest, acc => by
    intro h1 h2 h4 h5 h6
    obtain ⟨s1, s2, s3, s4, s5, s6, s7, s8⟩ :=
      axis_node_step_stroke positions mesh p plane oc hd culled acc n _ rfl
        h1 h2 h4 h5 h6
    obtain ⟨ih1, ih2, ih3⟩ :=
      axis_fold_stroke positions mesh p plane oc hd culled rest
        (axis_node_step positions mesh p plane oc hd culled acc n)
        s1 s2 s4 s5 s6
    rw [List.foldl_cons]
    refine ⟨by rw [ih1, s3], ?_, ?_⟩
    · rw [ih2, s7, List.filter_cons]
      by_cases he : stroke_eligible p plane culled oc hd n = true
      · by_cases hlt : acc.recomputed < 64
        · rw [if_pos ⟨he, hlt⟩, if_pos he]
          simp only [List.length_cons]
          omega
        · rw [if_neg (fun hc => hlt hc.2), if_pos he]
          simp only [List.length_cons]
          omega
      · rw [if_neg (fun hc => he hc.1), if_neg he]
    · intro hall
      have hen : stroke_eligible p plane culled oc hd n = false := by
        have := hall n (List.mem_cons_self n rest)
        exact this
      obtain ⟨e1, e2⟩ := s8 hen
      obtain ⟨f1, f2⟩ := ih3 (fun k hk => hall k (List.mem_cons_of_mem n hk))
      exact ⟨by rw [f1, e1], by rw [f2, e2]⟩

/-- One axis processed with a cleared cache: nothing is reused, the number
of recomputed leaves is the eligible count clamped at the budget, and when
no leaf is eligible the budget and the pending flag are untouched. -/
lemma process_axis_stroke (positions : List V3) (mesh : Option MeshData)
    (p : Pbvh) (plane : PlaneData) (oc hd : Bool)
    (culled : Option (Bounds3 → Bool)) :
    (process_axis positions mesh (some p) plane oc hd culled []).2.2.reused = 0 ∧
    (process_axis positions mesh (some p) plane oc hd culled []).2.2.recomputed
        = min (eligible_count p plane culled oc hd) 64 ∧
    ((∀ k ∈ p.leaf_indices, stroke_eligible p plane culled oc hd k = false) →
      (process_axis positions mesh (some p) plane oc hd culled []).2.2.budget_left = 64 ∧
      (process_axis positions mesh (some p) plane oc hd culled []).2.2.pending = false) := by
  obtain ⟨g1, g2, g3⟩ :=
    axis_fold_stroke positions mesh p plane oc hd culled p.leaf_indices
      ⟨[], [], [], none, 64, 0, 0, 0, 0, false⟩ rfl
      (fun k hk => by simp [cache_lookup_entry] at hk)
      (by norm_num) (by norm_num) (by norm_num)
  unfold process_axis
  simp only [List.isEmpty_nil, if_true]
  refine ⟨g1, ?_, fun hall => (g3 hall)⟩
  rw [g2]
  unfold eligible_count
  norm_num

/-- A disabled axis produces the zero metrics and leaves the frame
accumulator untouched. -/
lemma run_axis_disabled (positions : List V3) (mesh : Option MeshData)
    (pbvh : Option Pbvh) (obmat : M4) (oc hd : Bool)
    (culled : Option (Bounds3 → Bool)) (view : Option (M4 × (ℤ × ℤ)))
    (diag : ℝ) (flags : ℕ) (color : V3) (alpha : ℝ) (axis : ℕ) (acc : FrameAcc)
    (h : Nat.land flags (2 ^ axis) = 0) :
    run_axis positions mesh pbvh obmat oc hd culled view diag flags color alpha
      axis acc = (acc, zero_metrics) := by
  unfold run_axis
  rw [if_pos h]

/-- An enabled axis reports exactly the metrics of `process_axis` on that
axis cache. -/
lemma run_axis_enabled_metrics (positions : List V3) (mesh : Option MeshData)
    (pbvh : Option Pbvh) (obmat : M4) (oc hd : Bool)
    (culled : Option (Bounds3 → Bool)) (view : Option (M4 × (ℤ × ℤ)))
    (diag : ℝ) (flags : ℕ) (color : V3) (alpha : ℝ) (axis : ℕ) (acc : FrameAcc)
    (h : ¬ Nat.land flags (2 ^ axis) = 0) :
    (run_axis positions mesh pbvh obmat oc hd culled view diag flags color alpha
      axis acc).2 =
    (process_axis positions mesh pbvh (pipeline_plane (axis : ℤ) diag obmat)
      oc hd culled (acc.caches.get axis)).2.2 := by
  unfold run_axis
  rw [if_neg h]

/-- `run_axis` only writes its own axis cache. -/
lemma run_axis_caches_get (positions : List V3) (mesh : Option MeshData)
    (pbvh : Option Pbvh) (obmat : M4) (oc hd : Bool)
    (culled : Option (Bounds3 → Bool)) (view : Option (M4 × (ℤ × ℤ)))
    (diag : ℝ) (flags : ℕ) (color : V3) (alpha : ℝ) (axis : ℕ) (acc : FrameAcc)
    (k : ℕ) (ha : axis < 3) (hk : k < 3) (hne : k ≠ axis) :
    ((run_axis positions mesh pbvh obmat oc hd culled view diag flags color
      alpha axis acc).1).caches.get k = acc.caches.get k := by
  unfold run_axis
  split
  · rfl
  · exact AxisCaches.get_set_ne _ _ _ _ ha hk hne

/-- The three sequential axis passes of a regeneration that starts from
cleared caches: no axis reuses anything, and every enabled axis recomputes
exactly the eligible leaves clamped at the budget. -/
lemma frame_axes_stroke (positions : List V3) (mesh : Option MeshData)
    (p : Pbvh) (obmat : M4) (oc hd : Bool) (culled : Option (Bounds3 → Bool))
    (view : Option (M4 × (ℤ × ℤ))) (diag : ℝ) (flags : ℕ) (color : V3)
    (alpha : ℝ) (a0 : FrameAcc) (hc0 : a0.caches = AxisCaches.empty) :
    ((run_axis positions mesh (some p) obmat oc hd culled view diag flags
        color alpha 0 a0).2.reused = 0 ∧
      (run_axis positions mesh (some p) obmat oc hd culled view diag flags
        color alpha 1 (run_axis positions mesh (some p) obmat oc hd culled view
          diag flags color alpha 0 a0).1).2.reused = 0 ∧
      (run_axis positions mesh (some p) obmat oc hd culled view diag flags
        color alpha 2 (run_axis positions mesh (some p) obmat oc hd culled view
          diag flags color alpha 1 (run_axis positions mesh (some p) obmat oc hd
            culled view diag flags color alpha 0 a0).1).1).2.reused = 0) ∧
    (¬ Nat.land flags (2 ^ 0) = 0 →
      (run_axis positions mesh (some p) obmat oc hd culled view diag flags
        color alpha 0 a0).2.recomputed =
      min (eligible_count p (pipeline_plane (((0 : ℕ) : ℤ)) diag obmat)
        culled oc hd) 64) ∧
    (¬ Nat.land flags (2 ^ 1) = 0 →
      (run_axis positions mesh (some p) obmat oc hd culled view diag flags
        color alpha 1 (run_axis positions mesh (some p) obmat oc hd culled view
          diag flags color alpha 0 a0).1).2.recomputed =
      min (eligible_count p (pipeline_plane (((1 : ℕ) : ℤ)) diag obmat)
        culled oc hd) 64) ∧
    (¬ Nat.land flags (2 ^ 2) = 0 →
      (run_axis positions mesh (some p) obmat oc hd culled view diag flags
        color alpha 2 (run_axis positions mesh (some p) obmat oc hd culled view
          diag flags color alpha 1 (run_axis positions mesh (some p) obmat oc hd
            culled view diag flags color alpha 0 a0).1).1).2.recomputed =
      min (eligible_count p (pipeline_plane (((2 : ℕ) : ℤ)) diag obmat)
        culled oc hd) 64) := by
  have axgen : ∀ (axis : ℕ) (acc : FrameAcc), acc.caches.get axis = [] →
      (run_axis positions mesh (some p) obmat oc hd culled view diag flags
        color alpha axis acc).2.reused = 0 ∧
      (¬ Nat.land flags (2 ^ axis) = 0 →
        (run_axis positions mesh (some p) obmat oc hd culled view diag flags
          color alpha axis acc).2.recomputed =
        min (eligible_count p (pipeline_plane (axis : ℤ) diag obmat)
          culled oc hd) 64) := by
    intro axis acc hcache
    by_cases hf : Nat.land flags (2 ^ axis) = 0
    · rw [run_axis_disabled positions mesh (some p) obmat oc hd culled view
        diag flags color alpha axis acc hf]
      exact ⟨rfl, fun hc => absurd hf hc⟩
    · constructor
      · rw [run_axis_enabled_metrics positions mesh (some p) obmat oc hd culled
          view diag flags color alpha axis acc hf, hcache]
        exact (process_axis_stroke positions mesh p
          (pipeline_plane (axis : ℤ) diag obmat) oc hd culled).1
      · intro _
        rw [run_axis_enabled_metrics positions mesh (some p) obmat oc hd culled
          view diag flags color alpha axis acc hf, hcache]
        exact (process_axis_stroke positions mesh p
          (pipeline_plane (axis : ℤ) diag obmat) oc hd culled).2.1
  have hget0 : a0.caches.get 0 = [] := by rw [hc0]; rfl
  have hget1 : a0.caches.get 1 = [] := by rw [hc0]; rfl
  have hget2 : a0.caches.get 2 = [] := by rw [hc0]; rfl
  have hg1 : ((run_axis positions mesh (some p) obmat oc hd culled view diag
      flags color alpha 0 a0).1).caches.get 1 = [] := by
    rw [run_axis_caches_get positions mesh (some p) obmat oc hd culled view
      diag flags color alpha 0 a0 1 (by norm_num) (by norm_num) (by norm_num),
      hget1]
  have hg2 : ((run_axis positions mesh (some p) obmat oc hd culled view diag
      flags color alpha 1 (run_axis positions mesh (some p) obmat oc hd culled
        view diag flags color alpha 0 a0).1).1).caches.get 2 = [] := by
    rw [run_axis_caches_get positions mesh (some p) obmat oc hd culled view
      diag flags color alpha 1 _ 2 (by norm_num) (by norm_num) (by norm_num),
      run_axis_caches_get positions mesh (some p) obmat oc hd culled view
      diag flags color alpha 0 a0 2 (by norm_num) (by norm_num) (by norm_num),
      hget2]
  exact ⟨⟨(axgen 0 a0 hget0).1, (axgen 1 _ hg1).1, (axgen 2 _ hg2).1⟩,
    (axgen 0 a0 hget0).2, (axgen 1 _ hg1).2, (axgen 2 _ hg2).2⟩

/-- C9: when a regeneration runs while a brush stroke is active, all three
per-axis caches are cleared before any leaf is processed, so no leaf is
reused from cache on any axis; on every enabled axis the number of
recomputed leaves equals the number of eligible leaves (survivors of plane
and frustum culling whose recompute decision on the cleared cache is
positive) clamped at the per-axis budget of 64.  The decision is not `true`
for every survivor: when the object changed and dirty leaves exist, a
surviving leaf outside the dirty set is neither recomputed nor reused. -/
theorem C9_stroke_recompute (s : ContourState) (i : UpdateInput)
    (o : Obj) (mesh : MeshData) (p : Pbvh)
    (ho : i.ob = some o) (hdata : o.data = some mesh) (hpbvh : o.pbvh = some p)
    (hen : s.enable_contours = true) (hstroke : o.stroke_active = true) :
    ((update_contours s i).2.1.reused = 0 ∧
     (update_contours s i).2.2.1.reused = 0 ∧
     (update_contours s i).2.2.2.reused = 0) ∧
    (¬ Nat.land i.symmetry_flags (2 ^ 0) = 0 →
      (update_contours s i).2.1.recomputed =
        min (eligible_count p
          (pipeline_plane 0 (compute_diag (some p) o.eval_positions) o.obmat)
          (match i.rv3d with | some v => some v.culled | none => none)
          (decide (some o.id ≠ s.prev_object) ||
            decide (i.symmetry_flags ≠ s.prev_symmetry_flags))
          (!p.dirty_nodes.isEmpty)) 64) ∧
    (¬ Nat.land i.symmetry_flags (2 ^ 1) = 0 →
      (update_contours s i).2.2.1.recomputed =
        min (eligible_count p
          (pipeline_plane 1 (compute_diag (some p) o.eval_positions) o.obmat)
          (match i.rv3d with | some v => some v.culled | none => none)
          (decide (some o.id ≠ s.prev_object) ||
            decide (i.symmetry_flags ≠ s.prev_symmetry_flags))
          (!p.dirty_nodes.isEmpty)) 64) ∧
    (¬ Nat.land i.symmetry_flags (2 ^ 2) = 0 →
      (update_contours s i).2.2.2.recomputed =
        min (eligible_count p
          (pipeline_plane 2 (compute_diag (some p) o.eval_positions) o.obmat)
          (match i.rv3d with | some v => some v.culled | none => none)
          (decide (some o.id ≠ s.prev_object) ||
            decide (i.symmetry_flags ≠ s.prev_symmetry_flags))
          (!p.dirty_nodes.isEmpty)) 64) := by
  obtain ⟨iob, iflags, irv, ireg⟩ := i
  obtain ⟨oid, odata, ostroke, opbvh, omat, opos⟩ := o
  obtain ⟨scc, scaches, sdirty, spen, sprev, sprevflags, slines, senable,
    scolor, salpha⟩ := s
  simp only [] at ho hdata hpbvh hen hstroke ⊢
  subst ho hdata hpbvh hen hstroke
  have key := frame_axes_stroke opos (some mesh) p omat
    (decide (some oid ≠ sprev) || decide (iflags ≠ sprevflags))
    (!p.dirty_nodes.isEmpty)
    (match irv with | some v => some v.culled | none => none)
    (match irv, ireg with
      | some v, some r => some (v.persmat.mul omat, r)
      | _, _ => none)
    (compute_diag (some p) opos) iflags scolor salpha
    ⟨AxisCaches.empty, [], [], false⟩ rfl
  simp only [Nat.cast_zero, Nat.cast_one, Nat.cast_ofNat] at key
  unfold update_contours
  simp only [Option.map_some', Bool.or_true, Bool.not_true, Bool.false_and,
    Bool.false_eq_true, if_false, reduceIte]
  exact key

/-- Witness for C9 at a concrete stroke frame. -/
theorem C9_witness :
    ((update_contours c9w_state c9w_input).2.1.reused = 0 ∧
     (update_contours c9w_state c9w_input).2.2.1.reused = 0 ∧
     (update_contours c9w_state c9w_input).2.2.2.reused = 0) ∧
    (¬ Nat.land c9w_input.symmetry_flags (2 ^ 0) = 0 →
      (update_contours c9w_state c9w_input).2.1.recomputed =
        min (eligible_count c9w_pbvh
          (pipeline_plane 0
            (compute_diag (some c9w_pbvh) c9w_obj.eval_positions) c9w_obj.obmat)
          (match c9w_input.rv3d with | some v => some v.culled | none => none)
          (decide (some c9w_obj.id ≠ c9w_state.prev_object) ||
            decide (c9w_input.symmetry_flags ≠ c9w_state.prev_symmetry_flags))
          (!c9w_pbvh.dirty_nodes.isEmpty)) 64) ∧
    (¬ Nat.land c9w_input.symmetry_flags (2 ^ 1) = 0 →
      (update_contours c9w_state c9w_input).2.2.1.recomputed =
        min (eligible_count c9w_pbvh
          (pipeline_plane 1
            (compute_diag (some c9w_pbvh) c9w_obj.eval_positions) c9w_obj.obmat)
          (match c9w_input.rv3d with | some v => some v.culled | none => none)
          (decide (some c9w_obj.id ≠ c9w_state.prev_object) ||
            decide (c9w_input.symmetry_flags ≠ c9w_state.prev_symmetry_flags))
          (!c9w_pbvh.dirty_nodes.isEmpty)) 64) ∧
    (¬ Nat.land c9w_input.symmetry_flags (2 ^ 2) = 0 →
      (update_contours c9w_state c9w_input).2.2.2.recomputed =
        min (eligible_count c9w_pbvh
          (pipeline_plane 2
            (compute_diag (some c9w_pbvh) c9w_obj.eval_positions) c9w_obj.obmat)
          (match c9w_input.rv3d with | some v => some v.culled | none => none)
          (decide (some c9w_obj.id ≠ c9w_state.prev_object) ||
            decide (c9w_input.symmetry_flags ≠ c9w_state.prev_symmetry_flags))
          (!c9w_pbvh.dirty_nodes.isEmpty)) 64) :=
  C9_stroke_recompute c9w_state c9w_input c9w_obj c9w_mesh c9w_pbvh
    rfl rfl rfl rfl rfl

lemma c9c_diag : compute_diag (some c9c_pbvh) c9c_obj.eval_positions = 9 := by
  unfold compute_diag
  simp only []
  rw [show c9c_pbvh.bounds = (⟨⟨0, 0, 0⟩, ⟨7, 4, 4⟩⟩ : Bounds3) from rfl]
  have h0 : ((⟨7, 4, 4⟩ : V3).sub ⟨0, 0, 0⟩).length = 9 := by
    unfold V3.length
    exact sqrt_eval (by norm_num) (by norm_num [V3.sub, V3.length_squared])
  rw [h0, max_eq_left (by norm_num : (1 : ℝ) / 1000 ≤ 9)]

lemma c9c_aabb : aabb_intersects_plane c9c_node.bounds
    (pipeline_plane 0 (compute_diag (some c9c_pbvh) c9c_obj.eval_positions)
      c9c_obj.obmat) = true := by
  rw [c9c_diag, show c9c_node.bounds = (⟨⟨0, 0, 0⟩, ⟨0, 4, 4⟩⟩ : Bounds3) from rfl]
  unfold aabb_intersects_plane
  rw [decide_eq_true_eq]
  norm_num [pipeline_plane, build_plane_data, V3.smul, V3.add, V3.sub, V3.dot,
    abs_zero, abs_one]

lemma c9c_aabb2 : aabb_intersects_plane c9c_node2.bounds
    (pipeline_plane 0 (compute_diag (some c9c_pbvh) c9c_obj.eval_positions)
      c9c_obj.obmat) = false := by
  rw [c9c_diag, show c9c_node2.bounds = (⟨⟨7, 0, 0⟩, ⟨7, 4, 4⟩⟩ : Bounds3) from rfl]
  unfold aabb_intersects_plane
  rw [decide_eq_false_iff_not]
  norm_num [pipeline_plane, build_plane_data, V3.smul, V3.add, V3.sub, V3.dot,
    abs_zero, abs_one]

/-- C9 counterexample evaluation: during the stroke the surviving leaf 0 is
neither recomputed nor reused, the plane-culled dirty leaf 1 is skipped, and
the budget is never touched. -/
lemma c9c_metrics : (update_contours c9w_state c9c_input).2.1 =
    ⟨0, 0, 1, 0, false, 64⟩ := by
  have hstep : axis_node_step c9c_obj.eval_positions (some c9c_mesh) c9c_pbvh
      (pipeline_plane 0 (compute_diag (some c9c_pbvh) c9c_obj.eval_positions)
        c9c_obj.obmat) true true none
      ⟨[], [], [], none, 64, 0, 0, 0, 0, false⟩ 0 =
      ⟨[], [], [], none, 64, 0, 0, 0, 0, false⟩ := by
    unfold axis_node_step
    rw [show c9c_pbvh.nodes[0]? = some c9c_node from rfl]
    simp only []
    rw [c9c_aabb]
    simp only [Bool.not_true, Bool.false_eq_true, if_false]
    rw [show recompute_decision true true c9c_pbvh.dirty_nodes
      (none : Option (List ℕ)) 0 = false from by decide]
    simp only [Bool.false_eq_true, if_false]
    rfl
  have hstep2 : axis_node_step c9c_obj.eval_positions (some c9c_mesh) c9c_pbvh
      (pipeline_plane 0 (compute_diag (some c9c_pbvh) c9c_obj.eval_positions)
        c9c_obj.obmat) true true none
      ⟨[], [], [], none, 64, 0, 0, 0, 0, false⟩ 1 =
      ⟨[], [], [], none, 64, 0, 0, 1, 0, false⟩ := by
    unfold axis_node_step
    rw [show c9c_pbvh.nodes[1]? = some c9c_node2 from rfl]
    simp only []
    rw [c9c_aabb2]
    rfl
  have hshape : (update_contours c9w_state c9c_input).2.1 =
      (run_axis c9c_obj.eval_positions (some c9c_mesh) (some c9c_pbvh)
        c9c_obj.obmat true true none none
        (compute_diag (some c9c_pbvh) c9c_obj.eval_positions) 1
        c9w_state.line_color c9w_state.line_alpha 0
        ⟨AxisCaches.empty, [], [], false⟩).2 := rfl
  rw [hshape, run_axis_enabled_metrics c9c_obj.eval_positions (some c9c_mesh)
    (some c9c_pbvh) c9c_obj.obmat true true none none
    (compute_diag (some c9c_pbvh) c9c_obj.eval_positions) 1
    c9w_state.line_color c9w_state.line_alpha 0
    ⟨AxisCaches.empty, [], [], false⟩ (by decide)]
  rw [show ((⟨AxisCaches.empty, [], [], false⟩ : FrameAcc)).caches.get 0
    = ([] : SegCache) from rfl]
  unfold process_axis
  simp only [List.isEmpty_nil, if_true]
  rw [show c9c_pbvh.leaf_indices = [0, 1] from rfl, List.foldl_cons, List.foldl_cons,
    List.foldl_nil]
  simp only [Nat.cast_zero]
  rw [hstep, hstep2]

/-- C9 counterexample: a frame during an active stroke with the X axis
enabled, a changed object and a two-leaf tree whose dirty set is the
in-range leaf 1 — a leaf whose bounds lie off the symmetry plane, so the
plane test culls it (it is skipped). Leaf 0 survives plane and frustum
culling, the budget is never exhausted, yet nothing is recomputed (and
nothing reused, and no retry is scheduled), because the recompute decision
rejects a surviving leaf that is not in the dirty set. This contradicts the
claim that every surviving leaf is recomputed subject only to the per-axis
budget. -/
theorem C9_counterexample :
    c9c_obj.stroke_active = true ∧
    Nat.land c9c_input.symmetry_flags (2 ^ 0) ≠ 0 ∧
    c9c_pbvh.dirty_nodes = [1] ∧
    1 < c9c_pbvh.nodes.length ∧
    survives c9c_pbvh
      (pipeline_plane 0 (compute_diag (some c9c_pbvh) c9c_obj.eval_positions)
        c9c_obj.obmat)
      (match c9c_input.rv3d with | some v => some v.culled | none => none)
      1 = false ∧
    survives c9c_pbvh
      (pipeline_plane 0 (compute_diag (some c9c_pbvh) c9c_obj.eval_positions)
        c9c_obj.obmat)
      (match c9c_input.rv3d with | some v => some v.culled | none => none)
      0 = true ∧
    (update_contours c9w_state c9c_input).2.1.recomputed = 0 ∧
    (update_contours c9w_state c9c_input).2.1.reused = 0 ∧
    (update_contours c9w_state c9c_input).2.1.budget_left = 64 ∧
    (update_contours c9w_state c9c_input).2.1.pending = false := by
  refine ⟨rfl, by decide, rfl, by decide, ?_, ?_, ?_, ?_, ?_, ?_⟩
  · unfold survives
    rw [show c9c_pbvh.nodes[1]? = some c9c_node2 from rfl]
    simp only []
    rw [c9c_aabb2]
    rfl
  · unfold survives
    rw [show c9c_pbvh.nodes[0]? = some c9c_node from rfl]
    simp only []
    rw [c9c_aabb]
    rfl
  · rw [c9c_metrics]
  · rw [c9c_metrics]
  · rw [c9c_metrics]
  · rw [c9c_metrics]

lemma cache_entry_map_overwrite (c : SegCache) (n k : ℕ) (v : List ContourSegment) :
    cache_lookup_entry (c.map (fun e => if e.1 == n then (n, v) else e)) k =
      if k = n then
        (if (c.find? (fun e => e.1 == n)).isSome then some v else none)
      else cache_lookup_entry c k := by
  induction c with
  | nil =>
    by_cases hk : k = n <;> simp [cache_lookup_entry, hk]
  | cons e rest ih =>
    unfold cache_lookup_entry at ih ⊢
    by_cases hen : e.1 = n
    · by_cases hk : k = n
      · subst hk
        rw [List.map_cons, if_pos (by simpa using hen),
          List.find?_cons_of_pos _ (by simp),
          List.find?_cons_of_pos _ (by simpa using hen)]
        simp
      · rw [if_neg hk, List.map_cons, if_pos (by simpa using hen),
          List.find?_cons_of_neg _ (by simp; exact fun h => hk h.symm),
          List.find?_cons_of_neg _ (by simp [hen]; exact fun h => hk h.symm)]
        rw [ih, if_neg hk]
    · by_cases hk : k = n
      · subst hk
        rw [List.map_cons, if_neg (by simpa using hen),
          List.find?_cons_of_neg _ (by simpa using hen),
          List.find?_cons_of_neg _ (by simpa using hen)]
        rw [ih, if_pos rfl]
      · by_cases hek : e.1 = k
        · rw [if_neg hk, List.map_cons, if_neg (by simpa using hen),
            List.find?_cons_of_pos _ (by simpa using hek),
            List.find?_cons_of_pos _ (by simpa using hek)]
        · rw [if_neg hk, List.map_cons, if_neg (by simpa using hen),
            List.find?_cons_of_neg _ (by simpa using hek),
            List.find?_cons_of_neg _ (by simpa using hek)]
          rw [ih, if_neg hk]

lemma cache_entry_add_self (c : SegCache) (n : ℕ) (v : List ContourSegment) :
    cache_lookup_entry (cache_add_overwrite c n v) n = some v := by
  unfold cache_add_overwrite
  by_cases hs : (c.find? (fun e => e.1 == n)).isSome = true
  · rw [if_pos hs, cache_entry_map_overwrite, if_pos rfl, if_pos hs]
  · rw [if_neg hs]
    unfold cache_lookup_entry
    rw [List.find?_append]
    have hnone : c.find? (fun e => e.1 == n) = none := by
      rcases h : c.find? (fun e => e.1 == n) with _ | e
      · exact h
      · rw [h] at hs; simp at hs
    unfold cache_lookup_entry at hnone
    rw [hnone]
    simp

lemma cache_entry_add_other (c : SegCache) (n k : ℕ) (v : List ContourSegment)
    (h : k ≠ n) :
    cache_lookup_entry (cache_add_overwrite c n v) k = cache_lookup_entry c k := by
  unfold cache_add_overwrite
  by_cases hs : (c.find? (fun e => e.1 == n)).isSome = true
  · rw [if_pos hs, cache_entry_map_overwrite, if_neg h]
  · rw [if_neg hs]
    unfold cache_lookup_entry
    rw [List.find?_append]
    have hsing : List.find? (fun e => e.1 == k) [(n, v)] = none := by
      simp
      exact fun hnk => h hnk.symm
    rw [hsing, Option.or_none]

lemma keys_mem_iff (c : SegCache) (k : ℕ) :
    k ∈ c.map Prod.fst ↔ (cache_lookup_entry c k).isSome = true := by
  rw [cache_entry_isSome_iff]
  simp [List.mem_map]

lemma replay_merge_congr (p : Pbvh) (plane : PlaneData)
    (culled : Option (Bounds3 → Bool)) (vf vg : ℕ → List ContourSegment) :
    ∀ (l : List ℕ) (pr : List ContourSegment × List ℕ),
      (∀ n ∈ l, survives p plane culled n = true → vf n = vg n) →
      replay_merge p plane culled vf l pr = replay_merge p plane culled vg l pr
  | [], pr => fun _ => rfl
  | n :: rest, pr => fun h => by
    unfold replay_merge
    rw [List.foldl_cons, List.foldl_cons]
    by_cases hs : survives p plane culled n = true
    · rw [if_pos hs, if_pos hs, h n (List.mem_cons_self n rest) hs]
      exact replay_merge_congr p plane culled vf vg rest _
        (fun k hk => h k (List.mem_cons_of_mem n hk))
    · rw [if_neg hs, if_neg hs]
      exact replay_merge_congr p plane culled vf vg rest _
        (fun k hk => h k (List.mem_cons_of_mem n hk))

lemma recompute_decision_no_dirty (oc : Bool) (dirty : List ℕ) (n : ℕ) :
    recompute_decision oc false dirty none n = true := by
  cases oc <;> rfl

lemma recompute_decision_lookup (dirty : List ℕ) (L : List ℕ) (n : ℕ) :
    recompute_decision false false dirty (some L) n = decide (n ∉ L) := rfl

lemma survives_true_of (p : Pbvh) (plane : PlaneData)
    (culled : Option (Bounds3 → Bool)) (n : ℕ) (node : PbvhNode)
    (hn : p.nodes[n]? = some node)
    (ha : aabb_intersects_plane node.bounds plane = true)
    (hc : (match culled with | some f => f node.bounds | none => false) = false) :
    survives p plane culled n = true := by
  unfold survives
  rw [hn]
  simp [ha, hc]

lemma survives_false_none (p : Pbvh) (plane : PlaneData)
    (culled : Option (Bounds3 → Bool)) (n : ℕ) (hn : p.nodes[n]? = none) :
    survives p plane culled n = false := by
  unfold survives
  rw [hn]

lemma survives_false_aabb (p : Pbvh) (plane : PlaneData)
    (culled : Option (Bounds3 → Bool)) (n : ℕ) (node : PbvhNode)
    (hn : p.nodes[n]? = some node)
    (ha : aabb_intersects_plane node.bounds plane = false) :
    survives p plane culled n = false := by
  unfold survives
  rw [hn]
  simp [ha]

lemma survives_false_culled (p : Pbvh) (plane : PlaneData)
    (culled : Option (Bounds3 → Bool)) (n : ℕ) (node : PbvhNode)
    (hn : p.nodes[n]? = some node)
    (hc : (match culled with | some f => f node.bounds | none => false) = true) :
    survives p plane culled n = false := by
  unfold survives
  rw [hn]
  simp [hc]

lemma axis_node_step_pending_mono (positions : List V3) (mesh : Option MeshData)
    (p : Pbvh) (plane : PlaneData) (oc hd : Bool)
    (culled : Option (Bounds3 → Bool)) (acc : AxisAcc) (n : ℕ)
    (h : acc.pending = true) :
    (axis_node_step positions mesh p plane oc hd culled acc n).pending = true := by
  unfold axis_node_step
  split
  · exact h
  · split
    · exact h
    · split
      · exact h
      · split
        · split
          · rfl
          · exact h
        · split
          · exact h
          · exact h

lemma axis_fold_pending_mono (positions : List V3) (mesh : Option MeshData)
    (p : Pbvh) (plane : PlaneData) (oc hd : Bool)
    (culled : Option (Bounds3 → Bool)) :
    ∀ (l : List ℕ) (acc : AxisAcc), acc.pending = true →
      (l.foldl (axis_node_step positions mesh p plane oc hd culled) acc).pending = true
  | [], acc => fun h => h
  | n :: rest, acc => fun h => by
    rw [List.foldl_cons]
    exact axis_fold_pending_mono positions mesh p plane oc hd culled rest _
      (axis_node_step_pending_mono positions mesh p plane oc hd culled acc n h)

lemma axis_node_step_oc_irrelevant (positions : List V3) (mesh : Option MeshData)
    (p : Pbvh) (plane : PlaneData) (oc : Bool)
    (culled : Option (Bounds3 → Bool)) (acc : AxisAcc) (n : ℕ)
    (h1 : acc.lookup = none) :
    axis_node_step positions mesh p plane oc false culled acc n =
      axis_node_step positions mesh p plane false false culled acc n := by
  unfold axis_node_step
  rcases hn : p.nodes[n]? with _ | node
  · rfl
  · simp only []
    rw [h1, recompute_decision_no_dirty, recompute_decision_no_dirty]

lemma axis_fold_oc_irrelevant (positions : List V3) (mesh : Option MeshData)
    (p : Pbvh) (plane : PlaneData) (oc : Bool)
    (culled : Option (Bounds3 → Bool)) :
    ∀ (l : List ℕ) (acc : AxisAcc), acc.lookup = none →
      l.foldl (axis_node_step positions mesh p plane oc false culled) acc =
        l.foldl (axis_node_step positions mesh p plane false false culled) acc
  | [], _ => fun _ => rfl
  | n :: rest, acc => fun h1 => by
    rw [List.foldl_cons, List.foldl_cons,
      axis_node_step_oc_irrelevant positions mesh p plane oc culled acc n h1]
    have h1' : (axis_node_step positions mesh p plane false false culled acc n).lookup
        = none := by
      unfold axis_node_step
      split
      · exact h1
      · split
        · exact h1
        · split
          · exact h1
          · split
            · split
              · exact h1
              · simp only []
                rw [h1]
                rfl
            · split
              · exact h1
              · exact h1
    exact axis_fold_oc_irrelevant positions mesh p plane oc culled rest _ h1'

/-- One step of the axis loop when the snapshot is empty (`none`): every
survivor is recomputed (budget permitting), nothing is ever reused. -/
lemma axis_node_step_nolookup (positions : List V3) (mesh : Option MeshData)
    (p : Pbvh) (plane : PlaneData) (oc : Bool)
    (culled : Option (Bounds3 → Bool)) (acc : AxisAcc) (n : ℕ) (r : AxisAcc)
    (hr : r = axis_node_step positions mesh p plane oc false culled acc n)
    (h1 : acc.lookup = none) :
    r.lookup = none ∧
    (survives p plane culled n = false →
      r.segments = acc.segments ∧ r.segment_hashes = acc.segment_hashes ∧
      r.cache = acc.cache ∧ r.pending = acc.pending) ∧
    (survives p plane culled n = true → acc.budget_left ≤ 0 →
      r.segments = acc.segments ∧ r.segment_hashes = acc.segment_hashes ∧
      r.cache = acc.cache ∧ r.pending = true) ∧
    (survives p plane culled n = true → 0 < acc.budget_left →
      r.segments = (merge_segments acc.segments acc.segment_hashes
        (fresh_segments positions mesh p plane n)).1 ∧
      r.segment_hashes = (merge_segments acc.segments acc.segment_hashes
        (fresh_segments positions mesh p plane n)).2 ∧
      r.cache = cache_add_overwrite acc.cache n
        (fresh_segments positions mesh p plane n) ∧
      r.pending = acc.pending) := by
  subst hr
  unfold axis_node_step
  rcases hn : p.nodes[n]? with _ | node
  · have hs := survives_false_none p plane culled n hn
    refine ⟨h1, fun _ => ⟨rfl, rfl, rfl, rfl⟩, fun ht _ => ?_, fun ht _ => ?_⟩
    · rw [hs] at ht; exact Bool.noConfusion ht
    · rw [hs] at ht; exact Bool.noConfusion ht
  · simp only []
    by_cases ha : aabb_intersects_plane node.bounds plane = true
    · rw [ha]
      simp only [Bool.not_true, Bool.false_eq_true, if_false]
      rcases culled with _ | fcull
      · simp only [Bool.false_eq_true, if_false]
        have hs := survives_true_of p plane none n node hn ha rfl
        rw [h1, recompute_decision_no_dirty]
        rw [if_pos (show (true : Bool) = true from rfl)]
        by_cases hb : acc.budget_left ≤ 0
        · rw [if_pos hb]
          refine ⟨rfl, fun hf => ?_, fun _ _ => ⟨rfl, rfl, rfl, rfl⟩,
            fun _ hpos => absurd hb (by omega)⟩
          rw [hs] at hf; exact Bool.noConfusion hf
        · rw [if_neg hb]
          refine ⟨rfl, fun hf => ?_, fun _ hle => absurd hle hb, fun _ _ => ?_⟩
          · rw [hs] at hf; exact Bool.noConfusion hf
          · refine ⟨?_, ?_, ?_, rfl⟩ <;> simp only [] <;> rw [show
              fresh_segments positions mesh p plane n =
                (process_pbvh_mesh positions mesh node plane).1 from by
              unfold fresh_segments; rw [hn]]
      · simp only []
        by_cases hc : fcull node.bounds = true
        · rw [if_pos hc]
          have hs := survives_false_culled p plane (some fcull) n node hn hc
          refine ⟨h1, fun _ => ⟨rfl, rfl, rfl, rfl⟩, fun ht _ => ?_,
            fun ht _ => ?_⟩
          · rw [hs] at ht; exact Bool.noConfusion ht
          · rw [hs] at ht; exact Bool.noConfusion ht
        · rw [if_neg hc]
          have hcf : fcull node.bounds = false := by
            cases hmc : fcull node.bounds
            · rfl
            · exact absurd hmc hc
          have hs := survives_true_of p plane (some fcull) n node hn ha hcf
          rw [h1, recompute_decision_no_dirty]
          rw [if_pos (show (true : Bool) = true from rfl)]
          by_cases hb : acc.budget_left ≤ 0
          · rw [if_pos hb]
            refine ⟨rfl, fun hf => ?_, fun _ _ => ⟨rfl, rfl, rfl, rfl⟩,
              fun _ hpos => absurd hb (by omega)⟩
            rw [hs] at hf; exact Bool.noConfusion hf
          · rw [if_neg hb]
            refine ⟨rfl, fun hf => ?_, fun _ hle => absurd hle hb,
              fun _ _ => ?_⟩
            · rw [hs] at hf; exact Bool.noConfusion hf
            · refine ⟨?_, ?_, ?_, rfl⟩ <;> simp only [] <;> rw [show
                fresh_segments positions mesh p plane n =
                  (process_pbvh_mesh positions mesh node plane).1 from by
                unfold fresh_segments; rw [hn]]
    · have haf : aabb_intersects_plane node.bounds plane = false := by
        cases hma : aabb_intersects_plane node.bounds plane
        · rfl
        · exact absurd hma ha
      rw [haf, if_pos (show (!(false : Bool)) = true from rfl)]
      have hs := survives_false_aabb p plane culled n node hn haf
      refine ⟨h1, fun _ => ⟨rfl, rfl, rfl, rfl⟩, fun ht _ => ?_, fun ht _ => ?_⟩
      · rw [hs] at ht; exact Bool.noConfusion ht
      · rw [hs] at ht; exact Bool.noConfusion ht

/-- Folding the axis loop with an empty snapshot: the cache only ever holds
fresh values, entries persist, and on a pending-free run the merged segments
are the pure replay with fresh contributions and every survivor is cached
fresh. -/
lemma axis_fold_nolookup (positions : List V3) (mesh : Option MeshData)
    (p : Pbvh) (plane : PlaneData) (oc : Bool)
    (culled : Option (Bounds3 → Bool)) :
    ∀ (l : List ℕ) (acc r : AxisAcc),
      r = l.foldl (axis_node_step positions mesh p plane oc false culled) acc →
      acc.lookup = none →
      (∀ k, cache_lookup_entry acc.cache k = none ∨
        cache_lookup_entry acc.cache k =
          some (fresh_segments positions mesh p plane k)) →
      r.lookup = none ∧
      (∀ k, cache_lookup_entry r.cache k = none ∨
        cache_lookup_entry r.cache k =
          some (fresh_segments positions mesh p plane k)) ∧
      (∀ k, (cache_lookup_entry acc.cache k).isSome = true →
        (cache_lookup_entry r.cache k).isSome = true) ∧
      (r.pending = false →
        ((r.segments, r.segment_hashes) =
          replay_merge p plane culled (fresh_segments positions mesh p plane) l
            (acc.segments, acc.segment_hashes)) ∧
        (∀ k ∈ l, survives p plane culled k = true →
          cache_lookup_entry r.cache k =
            some (fresh_segments positions mesh p plane k)))
  | [], acc, r => fun hr h1 h2 => by
    subst hr
    exact ⟨h1, h2, fun _ hk => hk, fun _ =>
      ⟨rfl, fun k hk _ => absurd hk (List.not_mem_nil k)⟩⟩
  | n :: rest, acc, r => fun hr h1 h2 => by
    have hr' : r = rest.foldl (axis_node_step positions mesh p plane oc false culled)
        (axis_node_step positions mesh p plane oc false culled acc n) := by
      rw [hr, List.foldl_cons]
    obtain ⟨s1, sfalse, sskip, srec⟩ :=
      axis_node_step_nolookup positions mesh p plane oc culled acc n _ rfl h1
    by_cases hs : survives p plane culled n = true
    · by_cases hb : acc.budget_left ≤ 0
      · obtain ⟨e1, e2, e3, e4⟩ := sskip hs hb
        have hpend : r.pending = true := by
          rw [hr']
          exact axis_fold_pending_mono positions mesh p plane oc false culled
            rest _ e4
        obtain ⟨i1, i2, i3, _⟩ :=
          axis_fold_nolookup positions mesh p plane oc culled rest _ r hr' s1
            (fun k => by rw [e3]; exact h2 k)
        refine ⟨i1, i2, fun k hk => i3 k (by rw [e3]; exact hk), fun hpf => ?_⟩
        rw [hpf] at hpend
        exact Bool.noConfusion hpend
      · obtain ⟨e1, e2, e3, e4⟩ := srec hs (by omega)
        have h2' : ∀ k, cache_lookup_entry
            (axis_node_step positions mesh p plane oc false culled acc n).cache k
              = none ∨
            cache_lookup_entry
              (axis_node_step positions mesh p plane oc false culled acc n).cache k
              = some (fresh_segments positions mesh p plane k) := by
          intro k
          rw [e3]
          by_cases hkn : k = n
          · subst hkn
            right
            rw [cache_entry_add_self]
          · rw [cache_entry_add_other _ _ _ _ hkn]
            exact h2 k
        obtain ⟨i1, i2, i3, i4⟩ :=
          axis_fold_nolookup positions mesh p plane oc culled rest _ r hr' s1 h2'
        refine ⟨i1, i2, ?_, ?_⟩
        · intro k hk
          apply i3
          rw [e3]
          by_cases hkn : k = n
          · subst hkn
            rw [cache_entry_add_self]
            rfl
          · rw [cache_entry_add_other _ _ _ _ hkn]
            exact hk
        · intro hpf
          obtain ⟨j1, j2⟩ := i4 hpf
          constructor
          · rw [show replay_merge p plane culled
                (fresh_segments positions mesh p plane) (n :: rest)
                (acc.segments, acc.segment_hashes) =
              replay_merge p plane culled (fresh_segments positions mesh p plane)
                rest (merge_segments acc.segments acc.segment_hashes
                  (fresh_segments positions mesh p plane n)) from by
              unfold replay_merge
              rw [List.foldl_cons, if_pos hs]]
            rw [j1, e1, e2]
          · intro k hk hsk
            rcases List.mem_cons.mp hk with hkn | hkr
            · subst hkn
              have hpres : (cache_lookup_entry r.cache k).isSome = true := by
                apply i3
                rw [e3, cache_entry_add_self]
                rfl
              rcases i2 k with hnone | hval
              · rw [hnone] at hpres
                exact Bool.noConfusion hpres
              · exact hval
            · exact j2 k hkr hsk
    · have hsf : survives p plane culled n = false := by
        cases hms : survives p plane culled n
        · rfl
        · exact absurd hms hs
      obtain ⟨e1, e2, e3, e4⟩ := sfalse hsf
      obtain ⟨i1, i2, i3, i4⟩ :=
        axis_fold_nolookup positions mesh p plane oc culled rest _ r hr' s1
          (fun k => by rw [e3]; exact h2 k)
      refine ⟨i1, i2, fun k hk => i3 k (by rw [e3]; exact hk), fun hpf => ?_⟩
      obtain ⟨j1, j2⟩ := i4 hpf
      refine ⟨?_, fun k hk hsk => ?_⟩
      · rw [show replay_merge p plane culled
            (fresh_segments positions mesh p plane) (n :: rest)
            (acc.segments, acc.segment_hashes) =
          replay_merge p plane culled (fresh_segments positions mesh p plane)
            rest (acc.segments, acc.segment_hashes) from by
          unfold replay_merge
          rw [List.foldl_cons, if_neg hs]]
        rw [j1, e1, e2]
      · rcases List.mem_cons.mp hk with hkn | hkr
        · subst hkn
          rw [hsf] at hsk
          exact Bool.noConfusion hsk
        · exact j2 k hkr hsk

/-- One step of the axis loop on a populated snapshot with an unchanged,
clean object: snapshotted nodes are reused, missing nodes are recomputed. -/
lemma axis_node_step_lookup (positions : List V3) (mesh : Option MeshData)
    (p : Pbvh) (plane : PlaneData) (culled : Option (Bounds3 → Bool))
    (acc : AxisAcc) (n : ℕ) (r : AxisAcc) (L : List ℕ)
    (hr : r = axis_node_step positions mesh p plane false false culled acc n)
    (h1 : acc.lookup = some L) :
    (survives p plane culled n = false →
      r.segments = acc.segments ∧ r.segment_hashes = acc.segment_hashes ∧
      r.cache = acc.cache ∧ r.lookup = acc.lookup ∧ r.pending = acc.pending) ∧
    (survives p plane culled n = true → n ∈ L →
      (∀ v, cache_lookup_entry acc.cache n = some v →
        r.segments = (merge_segments acc.segments acc.segment_hashes v).1 ∧
        r.segment_hashes = (merge_segments acc.segments acc.segment_hashes v).2 ∧
        r.cache = acc.cache ∧ r.lookup = acc.lookup ∧ r.pending = acc.pending) ∧
      (cache_lookup_entry acc.cache n = none → r = acc)) ∧
    (survives p plane culled n = true → n ∉ L → acc.budget_left ≤ 0 →
      r.segments = acc.segments ∧ r.segment_hashes = acc.segment_hashes ∧
      r.cache = acc.cache ∧ r.lookup = acc.lookup ∧ r.pending = true) ∧
    (survives p plane culled n = true → n ∉ L → 0 < acc.budget_left →
      r.segments = (merge_segments acc.segments acc.segment_hashes
        (fresh_segments positions mesh p plane n)).1 ∧
      r.segment_hashes = (merge_segments acc.segments acc.segment_hashes
        (fresh_segments positions mesh p plane n)).2 ∧
      r.cache = cache_add_overwrite acc.cache n
        (fresh_segments positions mesh p plane n) ∧
      r.lookup = some (L ++ [n]) ∧ r.pending = acc.pending) := by
  subst hr
  unfold axis_node_step
  rcases hn : p.nodes[n]? with _ | node
  · have hs := survives_false_none p plane culled n hn
    refine ⟨fun _ => ⟨rfl, rfl, rfl, rfl, rfl⟩, fun ht => ?_, fun ht _ _ => ?_,
      fun ht _ _ => ?_⟩ <;> rw [hs] at ht <;> exact Bool.noConfusion ht
  · simp only []
    by_cases ha : aabb_intersects_plane node.bounds plane = true
    · rw [ha]
      simp only [Bool.not_true, Bool.false_eq_true, if_false]
      rcases culled with _ | fcull
      · simp only [Bool.false_eq_true, if_false]
        have hs := survives_true_of p plane none n node hn ha rfl
        rw [h1, recompute_decision_lookup]
        by_cases hnL : n ∈ L
        · rw [show decide (n ∉ L) = false from by simp [hnL]]
          simp only [Bool.false_eq_true, if_false]
          rcases hentry : cache_lookup_entry acc.cache n with _ | v
          · simp only []
            refine ⟨fun hf => ?_, fun _ _ => ⟨fun v0 hv0 => ?_, fun _ => by trivial⟩,
              fun _ hcon _ => absurd hnL hcon, fun _ hcon _ => absurd hnL hcon⟩
            · rw [hs] at hf; exact Bool.noConfusion hf
            · exact Option.noConfusion hv0
          · simp only []
            refine ⟨fun hf => ?_, fun _ _ => ⟨fun v0 hv0 => ?_, fun hcon => ?_⟩,
              fun _ hcon _ => absurd hnL hcon, fun _ hcon _ => absurd hnL hcon⟩
            · rw [hs] at hf; exact Bool.noConfusion hf
            · rw [← Option.some_inj.mp hv0]
              refine ⟨?_, ?_, ?_, ?_, ?_⟩ <;> trivial
            · exact Option.noConfusion hcon
        · rw [show decide (n ∉ L) = true from by simp [hnL]]
          rw [if_pos (show (true : Bool) = true from rfl)]
          by_cases hb : acc.budget_left ≤ 0
          · rw [if_pos hb]
            refine ⟨fun hf => ?_, fun _ hcon => absurd hcon hnL,
              fun _ _ _ => ⟨rfl, rfl, rfl, rfl, rfl⟩,
              fun _ _ hpos => absurd hb (by omega)⟩
            rw [hs] at hf; exact Bool.noConfusion hf
          · rw [if_neg hb]
            refine ⟨fun hf => ?_, fun _ hcon => absurd hcon hnL,
              fun _ _ hle => absurd hle hb, fun _ _ _ => ?_⟩
            · rw [hs] at hf; exact Bool.noConfusion hf
            · refine ⟨?_, ?_, ?_, rfl, rfl⟩ <;> simp only [] <;> rw [show
                fresh_segments positions mesh p plane n =
                  (process_pbvh_mesh positions mesh node plane).1 from by
                unfold fresh_segments; rw [hn]]
      · simp only []
        by_cases hc : fcull node.bounds = true
        · rw [if_pos hc]
          have hs := survives_false_culled p plane (some fcull) n node hn hc
          refine ⟨fun _ => ⟨rfl, rfl, rfl, rfl, rfl⟩, fun ht => ?_,
            fun ht _ _ => ?_, fun ht _ _ => ?_⟩ <;> rw [hs] at ht <;>
            exact Bool.noConfusion ht
        · rw [if_neg hc]
          have hcf : fcull node.bounds = false := by
            cases hmc : fcull node.bounds
            · rfl
            · exact absurd hmc hc
          have hs := survives_true_of p plane (some fcull) n node hn ha hcf
          rw [h1, recompute_decision_lookup]
          by_cases hnL : n ∈ L
          · rw [show decide (n ∉ L) = false from by simp [hnL]]
            simp only [Bool.false_eq_true, if_false]
            rcases hentry : cache_lookup_entry acc.cache n with _ | v
            · simp only []
              refine ⟨fun hf => ?_, fun _ _ => ⟨fun v0 hv0 => ?_, fun _ => by trivial⟩,
                fun _ hcon _ => absurd hnL hcon, fun _ hcon _ => absurd hnL hcon⟩
              · rw [hs] at hf; exact Bool.noConfusion hf
              · exact Option.noConfusion hv0
            · simp only []
              refine ⟨fun hf => ?_, fun _ _ => ⟨fun v0 hv0 => ?_, fun hcon => ?_⟩,
                fun _ hcon _ => absurd hnL hcon, fun _ hcon _ => absurd hnL hcon⟩
              · rw [hs] at hf; exact Bool.noConfusion hf
              · rw [← Option.some_inj.mp hv0]
                refine ⟨?_, ?_, ?_, ?_, ?_⟩ <;> trivial
              · exact Option.noConfusion hcon
          · rw [show decide (n ∉ L) = true from by simp [hnL]]
            rw [if_pos (show (true : Bool) = true from rfl)]
            by_cases hb : acc.budget_left ≤ 0
            · rw [if_pos hb]
              refine ⟨fun hf => ?_, fun _ hcon => absurd hcon hnL,
                fun _ _ _ => ⟨rfl, rfl, rfl, rfl, rfl⟩,
                fun _ _ hpos => absurd hb (by omega)⟩
              rw [hs] at hf; exact Bool.noConfusion hf
            · rw [if_neg hb]
              refine ⟨fun hf => ?_, fun _ hcon => absurd hcon hnL,
                fun _ _ hle => absurd hle hb, fun _ _ _ => ?_⟩
              · rw [hs] at hf; exact Bool.noConfusion hf
              · refine ⟨?_, ?_, ?_, rfl, rfl⟩ <;> simp only [] <;> rw [show
                  fresh_segments positions mesh p plane n =
                    (process_pbvh_mesh positions mesh node plane).1 from by
                  unfold fresh_segments; rw [hn]]
    · have haf : aabb_intersects_plane node.bounds plane = false := by
        cases hma : aabb_intersects_plane node.bounds plane
        · rfl
        · exact absurd hma ha
      rw [haf, if_pos (show (!(false : Bool)) = true from rfl)]
      have hs := survives_false_aabb p plane culled n node hn haf
      refine ⟨fun _ => ⟨rfl, rfl, rfl, rfl, rfl⟩, fun ht => ?_, fun ht _ _ => ?_,
        fun ht _ _ => ?_⟩ <;> rw [hs] at ht <;> exact Bool.noConfusion ht

/-- Folding the axis loop over a populated snapshot with an unchanged clean
object: cached entries persist, every entry value is the cached-or-fresh
value of the starting cache `d`, and on a pending-free run the merged
segments are the pure replay and every survivor ends up cached. -/
lemma axis_fold_lookup (positions : List V3) (mesh : Option MeshData)
    (p : Pbvh) (plane : PlaneData) (culled : Option (Bounds3 → Bool))
    (d : SegCache) :
    ∀ (l : List ℕ) (acc r : AxisAcc) (L : List ℕ),
      r = l.foldl (axis_node_step positions mesh p plane false false culled) acc →
      acc.lookup = some L →
      (∀ k, k ∈ L ↔ (cache_lookup_entry acc.cache k).isSome = true) →
      (∀ k, (cache_lookup_entry d k).isSome = true →
        (cache_lookup_entry acc.cache k).isSome = true) →
      (∀ k, (cache_lookup_entry acc.cache k).isSome = true →
        cache_lookup_entry acc.cache k =
          some (cached_or_fresh positions mesh p plane d k)) →
      (∀ k, (cache_lookup_entry acc.cache k).isSome = true →
        (cache_lookup_entry r.cache k).isSome = true) ∧
      (∀ k, (cache_lookup_entry r.cache k).isSome = true →
        cache_lookup_entry r.cache k =
          some (cached_or_fresh positions mesh p plane d k)) ∧
      (r.pending = false →
        ((r.segments, r.segment_hashes) =
          replay_merge p plane culled
            (cached_or_fresh positions mesh p plane d) l
            (acc.segments, acc.segment_hashes)) ∧
        (∀ k ∈ l, survives p plane culled k = true →
          cache_lookup_entry r.cache k =
            some (cached_or_fresh positions mesh p plane d k)))
  | [], acc, r, L => fun hr h1 hL hsub hval => by
    subst hr
    exact ⟨fun _ hk => hk, hval, fun _ =>
      ⟨rfl, fun k hk _ => absurd hk (List.not_mem_nil k)⟩⟩
  | n :: rest, acc, r, L => fun hr h1 hL hsub hval => by
    have hr' : r = rest.foldl
        (axis_node_step positions mesh p plane false false culled)
        (axis_node_step positions mesh p plane false false culled acc n) := by
      rw [hr, List.foldl_cons]
    obtain ⟨tfalse, treuse, tskip, trec⟩ :=
      axis_node_step_lookup positions mesh p plane culled acc n _ L rfl h1
    by_cases hs : survives p plane culled n = true
    · by_cases hnL : n ∈ L
      · have hpres := (hL n).mp hnL
        rcases hentry : cache_lookup_entry acc.cache n with _ | v
        · rw [hentry] at hpres
          exact absurd hpres (by simp)
        · obtain ⟨e1, e2, e3, e4, e5⟩ := (treuse hs hnL).1 v hentry
          have hv : v = cached_or_fresh positions mesh p plane d n := by
            have hx := hval n (by rw [hentry]; rfl)
            rw [hentry] at hx
            exact Option.some_inj.mp hx
          obtain ⟨i1, i2, i3⟩ :=
            axis_fold_lookup positions mesh p plane culled d rest _ r L hr'
              (by rw [e4, h1]) (fun k => by rw [e3]; exact hL k)
              (fun k hk => by rw [e3]; exact hsub k hk)
              (fun k hk => by rw [e3] at hk ⊢; exact hval k hk)
          refine ⟨fun k hk => i1 k (by rw [e3]; exact hk),
            i2, fun hpf => ?_⟩
          obtain ⟨j1, j2⟩ := i3 hpf
          refine ⟨?_, fun k hk hsk => ?_⟩
          · rw [show replay_merge p plane culled
                (cached_or_fresh positions mesh p plane d) (n :: rest)
                (acc.segments, acc.segment_hashes) =
              replay_merge p plane culled
                (cached_or_fresh positions mesh p plane d) rest
                (merge_segments acc.segments acc.segment_hashes
                  (cached_or_fresh positions mesh p plane d n)) from by
              unfold replay_merge
              rw [List.foldl_cons, if_pos hs]]
            rw [j1, e1, e2, hv]
          · rcases List.mem_cons.mp hk with hkn | hkr
            · subst hkn
              apply i2
              apply i1
              rw [e3, hentry]
              rfl
            · exact j2 k hkr hsk
      · by_cases hb : acc.budget_left ≤ 0
        · obtain ⟨e1, e2, e3, e4, e5⟩ := tskip hs hnL hb
          have hpend : r.pending = true := by
            rw [hr']
            exact axis_fold_pending_mono positions mesh p plane false false
              culled rest _ e5
          obtain ⟨i1, i2, _⟩ :=
            axis_fold_lookup positions mesh p plane culled d rest _ r L hr'
              (by rw [e4, h1]) (fun k => by rw [e3]; exact hL k)
              (fun k hk => by rw [e3]; exact hsub k hk)
              (fun k hk => by rw [e3] at hk ⊢; exact hval k hk)
          refine ⟨fun k hk => i1 k (by rw [e3]; exact hk), i2, fun hpf => ?_⟩
          rw [hpf] at hpend
          exact Bool.noConfusion hpend
        · obtain ⟨e1, e2, e3, e4, e5⟩ := trec hs hnL (by omega)
          have hdn : cache_lookup_entry d n = none := by
            rcases hdd : cache_lookup_entry d n with _ | w
            · rfl
            · exact absurd ((hL n).mpr (hsub n (by rw [hdd]; rfl))) hnL
          have hcof : cached_or_fresh positions mesh p plane d n =
              fresh_segments positions mesh p plane n := by
            unfold cached_or_fresh
            rw [hdn]
          have hL' : ∀ k, k ∈ L ++ [n] ↔
              (cache_lookup_entry
                (axis_node_step positions mesh p plane false false culled
                  acc n).cache k).isSome = true := by
            intro k
            rw [e3]
            by_cases hkn : k = n
            · subst hkn
              rw [cache_entry_add_self]
              simp
            · rw [cache_entry_add_other _ _ _ _ hkn]
              rw [List.mem_append, List.mem_singleton]
              simp [hkn]
              exact hL k
          obtain ⟨i1, i2, i3⟩ :=
            axis_fold_lookup positions mesh p plane culled d rest _ r (L ++ [n])
              hr' e4 hL'
              (fun k hk => by
                rw [e3]
                by_cases hkn : k = n
                · subst hkn
                  rw [cache_entry_add_self]
                  rfl
                · rw [cache_entry_add_other _ _ _ _ hkn]
                  exact hsub k hk)
              (fun k hk => by
                rw [e3] at hk ⊢
                by_cases hkn : k = n
                · subst hkn
                  rw [cache_entry_add_self, hcof]
                · rw [cache_entry_add_other _ _ _ _ hkn] at hk ⊢
                  exact hval k hk)
          refine ⟨?_, i2, fun hpf => ?_⟩
          · intro k hk
            apply i1
            rw [e3]
            by_cases hkn : k = n
            · subst hkn
              rw [cache_entry_add_self]
              rfl
            · rw [cache_entry_add_other _ _ _ _ hkn]
              exact hk
          · obtain ⟨j1, j2⟩ := i3 hpf
            refine ⟨?_, fun k hk hsk => ?_⟩
            · rw [show replay_merge p plane culled
                  (cached_or_fresh positions mesh p plane d) (n :: rest)
                  (acc.segments, acc.segment_hashes) =
                replay_merge p plane culled
                  (cached_or_fresh positions mesh p plane d) rest
                  (merge_segments acc.segments acc.segment_hashes
                    (cached_or_fresh positions mesh p plane d n)) from by
                unfold replay_merge
                rw [List.foldl_cons, if_pos hs]]
              rw [j1, e1, e2, hcof]
            · rcases List.mem_cons.mp hk with hkn | hkr
              · subst hkn
                apply i2
                apply i1
                rw [e3, cache_entry_add_self]
                rfl
              · exact j2 k hkr hsk
    · have hsf : survives p plane culled n = false := by
        cases hms : survives p plane culled n
        · rfl
        · exact absurd hms hs
      obtain ⟨e1, e2, e3, e4, e5⟩ := tfalse hsf
      obtain ⟨i1, i2, i3⟩ :=
        axis_fold_lookup positions mesh p plane culled d rest _ r L hr'
          (by rw [e4, h1]) (fun k => by rw [e3]; exact hL k)
          (fun k hk => by rw [e3]; exact hsub k hk)
          (fun k hk => by rw [e3] at hk ⊢; exact hval k hk)
      refine ⟨fun k hk => i1 k (by rw [e3]; exact hk), i2, fun hpf => ?_⟩
      obtain ⟨j1, j2⟩ := i3 hpf
      refine ⟨?_, fun k hk hsk => ?_⟩
      · rw [show replay_merge p plane culled
            (cached_or_fresh positions mesh p plane d) (n :: rest)
            (acc.segments, acc.segment_hashes) =
          replay_merge p plane culled
            (cached_or_fresh positions mesh p plane d) rest
            (acc.segments, acc.segment_hashes) from by
          unfold replay_merge
          rw [List.foldl_cons, if_neg hs]]
        rw [j1, e1, e2]
      · rcases List.mem_cons.mp hk with hkn | hkr
        · subst hkn
          rw [hsf] at hsk
          exact Bool.noConfusion hsk
        · exact j2 k hkr hsk

/-- Folding the axis loop when every surviving leaf is already cached: the
run only reuses, the cache, snapshot, pending flag and budget are untouched
and the merged segments are the pure replay of the cached values. -/
lemma axis_fold_all_cached (positions : List V3) (mesh : Option MeshData)
    (p : Pbvh) (plane : PlaneData) (culled : Option (Bounds3 → Bool))
    (vf : ℕ → List ContourSegment) :
    ∀ (l : List ℕ) (acc r : AxisAcc) (L : List ℕ),
      r = l.foldl (axis_node_step positions mesh p plane false false culled) acc →
      acc.lookup = some L →
      (∀ k, (cache_lookup_entry acc.cache k).isSome = true → k ∈ L) →
      (∀ k ∈ l, survives p plane culled k = true →
        cache_lookup_entry acc.cache k = some (vf k)) →
      ((r.segments, r.segment_hashes) =
        replay_merge p plane culled vf l (acc.segments, acc.segment_hashes)) ∧
      r.cache = acc.cache ∧ r.lookup = acc.lookup ∧ r.pending = acc.pending
  | [], acc, r, L => fun hr _ _ _ => by
    subst hr
    exact ⟨rfl, rfl, rfl, rfl⟩
  | n :: rest, acc, r, L => fun hr h1 hLdir hcached => by
    have hr' : r = rest.foldl
        (axis_node_step positions mesh p plane false false culled)
        (axis_node_step positions mesh p plane false false culled acc n) := by
      rw [hr, List.foldl_cons]
    obtain ⟨tfalse, treuse, _, _⟩ :=
      axis_node_step_lookup positions mesh p plane culled acc n _ L rfl h1
    by_cases hs : survives p plane culled n = true
    · have hentry := hcached n (List.mem_cons_self n rest) hs
      have hnL : n ∈ L := hLdir n (by rw [hentry]; rfl)
      obtain ⟨e1, e2, e3, e4, e5⟩ := (treuse hs hnL).1 (vf n) hentry
      obtain ⟨i1, i2, i3, i4⟩ :=
        axis_fold_all_cached positions mesh p plane culled vf rest _ r L hr'
          (by rw [e4, h1]) (fun k hk => by rw [e3] at hk; exact hLdir k hk)
          (fun k hk hsk => by
            rw [e3]
            exact hcached k (List.mem_cons_of_mem n hk) hsk)
      refine ⟨?_, by rw [i2, e3], by rw [i3, e4], by rw [i4, e5]⟩
      rw [show replay_merge p plane culled vf (n :: rest)
            (acc.segments, acc.segment_hashes) =
          replay_merge p plane culled vf rest
            (merge_segments acc.segments acc.segment_hashes (vf n)) from by
        unfold replay_merge
        rw [List.foldl_cons, if_pos hs]]
      rw [i1, e1, e2]
    · have hsf : survives p plane culled n = false := by
        cases hms : survives p plane culled n
        · rfl
        · exact absurd hms hs
      obtain ⟨e1, e2, e3, e4, e5⟩ := tfalse hsf
      obtain ⟨i1, i2, i3, i4⟩ :=
        axis_fold_all_cached positions mesh p plane culled vf rest _ r L hr'
          (by rw [e4, h1]) (fun k hk => by rw [e3] at hk; exact hLdir k hk)
          (fun k hk hsk => by
            rw [e3]
            exact hcached k (List.mem_cons_of_mem n hk) hsk)
      refine ⟨?_, by rw [i2, e3], by rw [i3, e4], by rw [i4, e5]⟩
      rw [show replay_merge p plane culled vf (n :: rest)
            (acc.segments, acc.segment_hashes) =
          replay_merge p plane culled vf rest
            (acc.segments, acc.segment_hashes) from by
        unfold replay_merge
        rw [List.foldl_cons, if_neg hs]]
      rw [i1, e1, e2]

/-- The second pass of one axis reproduces the merged segments of a
pending-free first pass: every leaf the first pass recomputed or reused is
served from the cache the first pass left behind. -/
lemma axis_fold_second_pass (positions : List V3) (mesh : Option MeshData)
    (p : Pbvh) (plane : PlaneData) (oc : Bool)
    (culled : Option (Bounds3 → Bool)) (c0 : SegCache)
    (hoc : oc = true → c0 = [])
    (hpend : (p.leaf_indices.foldl
        (axis_node_step positions mesh p plane oc false culled)
        ⟨[], [], c0, (if c0.isEmpty then none else some (c0.map Prod.fst)),
          64, 0, 0, 0, 0, false⟩).pending = false) :
    ((p.leaf_indices.foldl
        (axis_node_step positions mesh p plane false false culled)
        ⟨[], [],
          (p.leaf_indices.foldl
            (axis_node_step positions mesh p plane oc false culled)
            ⟨[], [], c0, (if c0.isEmpty then none else some (c0.map Prod.fst)),
              64, 0, 0, 0, 0, false⟩).cache,
          (if (p.leaf_indices.foldl
              (axis_node_step positions mesh p plane oc false culled)
              ⟨[], [], c0, (if c0.isEmpty then none else some (c0.map Prod.fst)),
                64, 0, 0, 0, 0, false⟩).cache.isEmpty then none
            else some ((p.leaf_indices.foldl
              (axis_node_step positions mesh p plane oc false culled)
              ⟨[], [], c0, (if c0.isEmpty then none else some (c0.map Prod.fst)),
                64, 0, 0, 0, 0, false⟩).cache.map Prod.fst)),
          64, 0, 0, 0, 0, false⟩).segments,
     (p.leaf_indices.foldl
        (axis_node_step positions mesh p plane false false culled)
        ⟨[], [],
          (p.leaf_indices.foldl
            (axis_node_step positions mesh p plane oc false culled)
            ⟨[], [], c0, (if c0.isEmpty then none else some (c0.map Prod.fst)),
              64, 0, 0, 0, 0, false⟩).cache,
          (if (p.leaf_indices.foldl
              (axis_node_step positions mesh p plane oc false culled)
              ⟨[], [], c0, (if c0.isEmpty then none else some (c0.map Prod.fst)),
                64, 0, 0, 0, 0, false⟩).cache.isEmpty then none
            else some ((p.leaf_indices.foldl
              (axis_node_step positions mesh p plane oc false culled)
              ⟨[], [], c0, (if c0.isEmpty then none else some (c0.map Prod.fst)),
                64, 0, 0, 0, 0, false⟩).cache.map Prod.fst)),
          64, 0, 0, 0, 0, false⟩).segment_hashes) =
    ((p.leaf_indices.foldl
        (axis_node_step positions mesh p plane oc false culled)
        ⟨[], [], c0, (if c0.isEmpty then none else some (c0.map Prod.fst)),
          64, 0, 0, 0, 0, false⟩).segments,
     (p.leaf_indices.foldl
        (axis_node_step positions mesh p plane oc false culled)
        ⟨[], [], c0, (if c0.isEmpty then none else some (c0.map Prod.fst)),
          64, 0, 0, 0, 0, false⟩).segment_hashes) := by
  by_cases hc0 : c0.isEmpty = true
  · have hc0e : c0 = [] := List.isEmpty_iff.mp hc0
    subst hc0e
    rw [if_pos hc0] at hpend ⊢
    obtain ⟨a1, a2, _, a4⟩ :=
      axis_fold_nolookup positions mesh p plane oc culled p.leaf_indices
        ⟨[], [], [], none, 64, 0, 0, 0, 0, false⟩ _ rfl rfl
        (fun k => Or.inl rfl)
    obtain ⟨j1, j2⟩ := a4 hpend
    by_cases hc1 : (p.leaf_indices.foldl
        (axis_node_step positions mesh p plane oc false culled)
        ⟨[], [], [], none, 64, 0, 0, 0, 0, false⟩).cache.isEmpty = true
    · rw [if_pos hc1, List.isEmpty_iff.mp hc1]
      rw [← axis_fold_oc_irrelevant positions mesh p plane oc culled
        p.leaf_indices ⟨[], [], [], none, 64, 0, 0, 0, 0, false⟩ rfl]
    · rw [if_neg hc1]
      obtain ⟨k1, _, _, _⟩ :=
        axis_fold_all_cached positions mesh p plane culled
          (fresh_segments positions mesh p plane) p.leaf_indices
          ⟨[], [],
            (p.leaf_indices.foldl
              (axis_node_step positions mesh p plane oc false culled)
              ⟨[], [], [], none, 64, 0, 0, 0, 0, false⟩).cache,
            some ((p.leaf_indices.foldl
              (axis_node_step positions mesh p plane oc false culled)
              ⟨[], [], [], none, 64, 0, 0, 0, 0, false⟩).cache.map Prod.fst),
            64, 0, 0, 0, 0, false⟩ _
          ((p.leaf_indices.foldl
            (axis_node_step positions mesh p plane oc false culled)
            ⟨[], [], [], none, 64, 0, 0, 0, 0, false⟩).cache.map Prod.fst)
          rfl rfl (fun k hk => (keys_mem_iff _ k).mpr hk) (fun k hk hsk => j2 k hk hsk)
      rw [k1, ← j1]
  · rw [if_neg hc0] at hpend ⊢
    have hocf : oc = false := by
      cases hoco : oc
      · rfl
      · rw [hoc hoco] at hc0
        exact absurd rfl hc0
    subst hocf
    have hval0 : ∀ k, (cache_lookup_entry c0 k).isSome = true →
        cache_lookup_entry c0 k =
          some (cached_or_fresh positions mesh p plane c0 k) := by
      intro k hk
      rcases hkv : cache_lookup_entry c0 k with _ | v
      · rw [hkv] at hk
        exact absurd hk (by simp)
      · unfold cached_or_fresh
        rw [hkv]
    obtain ⟨b1, b2, b3⟩ :=
      axis_fold_lookup positions mesh p plane culled c0 p.leaf_indices
        ⟨[], [], c0, some (c0.map Prod.fst), 64, 0, 0, 0, 0, false⟩ _
        (c0.map Prod.fst) rfl rfl (fun k => keys_mem_iff c0 k)
        (fun k hk => hk) hval0
    obtain ⟨j1, j2⟩ := b3 hpend
    have hne : c0 ≠ [] := by
      intro hcontra
      rw [hcontra] at hc0
      exact hc0 rfl
    obtain ⟨e, he⟩ := List.exists_mem_of_ne_nil c0 hne
    have hpres : (cache_lookup_entry c0 e.1).isSome = true :=
      (cache_entry_isSome_iff c0 e.1).mpr ⟨e, he, rfl⟩
    have hpres2 := b1 e.1 hpres
    have hc1 : (p.leaf_indices.foldl
        (axis_node_step positions mesh p plane false false culled)
        ⟨[], [], c0, some (c0.map Prod.fst), 64, 0, 0, 0, 0, false⟩).cache.isEmpty
          = false := by
      cases hfc : (p.leaf_indices.foldl
          (axis_node_step positions mesh p plane false false culled)
          ⟨[], [], c0, some (c0.map Prod.fst), 64, 0, 0, 0, 0, false⟩).cache.isEmpty
      · rfl
      · rw [List.isEmpty_iff.mp hfc] at hpres2
        exact absurd hpres2 (by simp [cache_lookup_entry])
    rw [hc1]
    simp only [Bool.false_eq_true, if_false]
    obtain ⟨k1, _, _, _⟩ :=
      axis_fold_all_cached positions mesh p plane culled
        (cached_or_fresh positions mesh p plane c0) p.leaf_indices
        ⟨[], [],
          (p.leaf_indices.foldl
            (axis_node_step positions mesh p plane false false culled)
            ⟨[], [], c0, some (c0.map Prod.fst), 64, 0, 0, 0, 0, false⟩).cache,
          some ((p.leaf_indices.foldl
            (axis_node_step positions mesh p plane false false culled)
            ⟨[], [], c0, some (c0.map Prod.fst), 64, 0, 0, 0, 0, false⟩).cache.map
              Prod.fst),
          64, 0, 0, 0, 0, false⟩ _
        ((p.leaf_indices.foldl
          (axis_node_step positions mesh p plane false false culled)
          ⟨[], [], c0, some (c0.map Prod.fst), 64, 0, 0, 0, 0, false⟩).cache.map
            Prod.fst)
        rfl rfl (fun k hk => (keys_mem_iff _ k).mpr hk)
        (fun k hk hsk => j2 k hk hsk)
    rw [k1, ← j1]

/-- Running one axis a second time over the cache left by a pending-free
first run yields the same merged segment list. -/
lemma process_axis_idempotent (positions : List V3) (mesh : Option MeshData)
    (pbvh : Option Pbvh) (plane : PlaneData) (oc : Bool)
    (culled : Option (Bounds3 → Bool)) (c0 : SegCache)
    (hoc : oc = true → c0 = [])
    (hpend : (process_axis positions mesh pbvh plane oc false culled
      c0).2.2.pending = false) :
    (process_axis positions mesh pbvh plane false false culled
      ((process_axis positions mesh pbvh plane oc false culled c0).2.1)).1 =
    (process_axis positions mesh pbvh plane oc false culled c0).1 := by
  rcases pbvh with _ | p
  · rfl
  · unfold process_axis at hpend ⊢
    simp only [] at hpend ⊢
    have key := axis_fold_second_pass positions mesh p plane oc culled c0 hoc hpend
    have h1 := congrArg Prod.fst key
    have h2 := congrArg Prod.snd key
    simp only [] at h1 h2
    rw [h1, h2]

lemma AxisCaches.get_set_self (c : AxisCaches) (a : ℕ) (v : SegCache) :
    (c.set a v).get a = v := by
  unfold AxisCaches.get AxisCaches.set
  by_cases h0 : a = 0
  · simp [h0]
  · by_cases h1 : a = 1
    · simp [h0, h1]
    · simp [h0, h1]

lemma run_axis_caches_enabled (positions : List V3) (mesh : Option MeshData)
    (pbvh : Option Pbvh) (obmat : M4) (oc hd : Bool)
    (culled : Option (Bounds3 → Bool)) (view : Option (M4 × (ℤ × ℤ)))
    (diag : ℝ) (flags : ℕ) (color : V3) (alpha : ℝ) (axis : ℕ) (acc : FrameAcc)
    (h : ¬ Nat.land flags (2 ^ axis) = 0) :
    (run_axis positions mesh pbvh obmat oc hd culled view diag flags color
      alpha axis acc).1.caches =
    acc.caches.set axis
      (process_axis positions mesh pbvh (pipeline_plane (axis : ℤ) diag obmat)
        oc hd culled (acc.caches.get axis)).2.1 := by
  unfold run_axis
  rw [if_neg h]

lemma run_axis_contours_enabled (positions : List V3) (mesh : Option MeshData)
    (pbvh : Option Pbvh) (obmat : M4) (oc hd : Bool)
    (culled : Option (Bounds3 → Bool)) (view : Option (M4 × (ℤ × ℤ)))
    (diag : ℝ) (flags : ℕ) (color : V3) (alpha : ℝ) (axis : ℕ) (acc : FrameAcc)
    (h : ¬ Nat.land flags (2 ^ axis) = 0) :
    (run_axis positions mesh pbvh obmat oc hd culled view diag flags color
      alpha axis acc).1.cached_contours =
    acc.cached_contours ++
      axis_postprocess
        (process_axis positions mesh pbvh (pipeline_plane (axis : ℤ) diag obmat)
          oc hd culled (acc.caches.get axis)).1
        (pipeline_plane (axis : ℤ) diag obmat) view := by
  unfold run_axis
  rw [if_neg h]

/-- One axis contributes the same contour batch in the second frame as in
the first, provided its first-pass metrics are pending-free and the second
frame starts from the caches the first frame wrote. -/
lemma run_axis_contrib (positions : List V3) (mesh : Option MeshData)
    (pbvh : Option Pbvh) (obmat : M4) (oc : Bool)
    (culled : Option (Bounds3 → Bool)) (view : Option (M4 × (ℤ × ℤ)))
    (diag : ℝ) (flags : ℕ) (color : V3) (alpha : ℝ) (axis : ℕ)
    (accA accB : FrameAcc)
    (hcache : accB.caches.get axis =
      (run_axis positions mesh pbvh obmat oc false culled view diag flags color
        alpha axis accA).1.caches.get axis)
    (hpendk : (run_axis positions mesh pbvh obmat oc false culled view diag
      flags color alpha axis accA).2.pending = false)
    (hc0 : oc = true → accA.caches.get axis = []) :
    ∃ χ,
      (run_axis positions mesh pbvh obmat oc false culled view diag flags color
        alpha axis accA).1.cached_contours = accA.cached_contours ++ χ ∧
      (run_axis positions mesh pbvh obmat false false culled view diag flags
        color alpha axis accB).1.cached_contours =
        accB.cached_contours ++ χ := by
  by_cases hf : Nat.land flags (2 ^ axis) = 0
  · refine ⟨[], ?_, ?_⟩
    · rw [run_axis_disabled positions mesh pbvh obmat oc false culled view diag
        flags color alpha axis accA hf]
      exact (List.append_nil _).symm
    · rw [run_axis_disabled positions mesh pbvh obmat false false culled view
        diag flags color alpha axis accB hf]
      exact (List.append_nil _).symm
  · refine ⟨axis_postprocess
      (process_axis positions mesh pbvh (pipeline_plane (axis : ℤ) diag obmat)
        oc false culled (accA.caches.get axis)).1
      (pipeline_plane (axis : ℤ) diag obmat) view, ?_, ?_⟩
    · rw [run_axis_contours_enabled positions mesh pbvh obmat oc false culled
        view diag flags color alpha axis accA hf]
    · rw [run_axis_contours_enabled positions mesh pbvh obmat false false
        culled view diag flags color alpha axis accB hf]
      have hc2 : accB.caches.get axis =
          (process_axis positions mesh pbvh
            (pipeline_plane (axis : ℤ) diag obmat) oc false culled
            (accA.caches.get axis)).2.1 := by
        rw [hcache, run_axis_caches_enabled positions mesh pbvh obmat oc false
          culled view diag flags color alpha axis accA hf,
          AxisCaches.get_set_self]
      have hpend2 : (process_axis positions mesh pbvh
          (pipeline_plane (axis : ℤ) diag obmat) oc false culled
          (accA.caches.get axis)).2.2.pending = false := by
        rw [run_axis_enabled_metrics positions mesh pbvh obmat oc false culled
          view diag flags color alpha axis accA hf] at hpendk
        exact hpendk
      rw [hc2, process_axis_idempotent positions mesh pbvh
        (pipeline_plane (axis : ℤ) diag obmat) oc culled
        (accA.caches.get axis) hc0 hpend2]

/-- A full three-axis frame rerun from the caches of a pending-free frame
rebuilds exactly the same contour list. -/
lemma frame_idempotent (positions : List V3) (mesh : Option MeshData)
    (pbvh : Option Pbvh) (obmat : M4) (oc : Bool)
    (culled : Option (Bounds3 → Bool)) (view : Option (M4 × (ℤ × ℤ)))
    (diag : ℝ) (flags : ℕ) (color : V3) (alpha : ℝ) (C0 : AxisCaches)
    (hoc : oc = true → C0 = AxisCaches.empty)
    (hpend : (run_axis positions mesh pbvh obmat oc false culled view diag flags color alpha 2 (run_axis positions mesh pbvh obmat oc false culled view diag flags color alpha 1 (run_axis positions mesh pbvh obmat oc false culled view diag flags color alpha 0 ⟨C0, [], [], false⟩).1).1).1.pending_any = false) :
    (run_axis positions mesh pbvh obmat false false culled view diag flags color alpha 2 (run_axis positions mesh pbvh obmat false false culled view diag flags color alpha 1 (run_axis positions mesh pbvh obmat false false culled view diag flags color alpha 0 ⟨(run_axis positions mesh pbvh obmat oc false culled view diag flags color alpha 2 (run_axis positions mesh pbvh obmat oc false culled view diag flags color alpha 1 (run_axis positions mesh pbvh obmat oc false culled view diag flags color alpha 0 ⟨C0, [], [], false⟩).1).1).1.caches, [], [], false⟩).1).1).1.cached_contours = (run_axis positions mesh pbvh obmat oc false culled view diag flags color alpha 2 (run_axis positions mesh pbvh obmat oc false culled view diag flags color alpha 1 (run_axis positions mesh pbvh obmat oc false culled view diag flags color alpha 0 ⟨C0, [], [], false⟩).1).1).1.cached_contours := by
  have e0 := run_axis_pending_any positions mesh pbvh obmat oc false culled view diag flags color alpha 0 ⟨C0, [], [], false⟩
  have e1 := run_axis_pending_any positions mesh pbvh obmat oc false culled view diag flags color alpha 1 (run_axis positions mesh pbvh obmat oc false culled view diag flags color alpha 0 ⟨C0, [], [], false⟩).1
  have e2 := run_axis_pending_any positions mesh pbvh obmat oc false culled view diag flags color alpha 2 (run_axis positions mesh pbvh obmat oc false culled view diag flags color alpha 1 (run_axis positions mesh pbvh obmat oc false culled view diag flags color alpha 0 ⟨C0, [], [], false⟩).1).1
  rw [e2, e1, e0] at hpend
  simp only [] at hpend
  rw [Bool.false_or] at hpend
  obtain ⟨h01, hp2⟩ := Bool.or_eq_false_iff.mp hpend
  obtain ⟨hp0, hp1⟩ := Bool.or_eq_false_iff.mp h01
  have c01 : (run_axis positions mesh pbvh obmat oc false culled view diag flags color alpha 0 ⟨C0, [], [], false⟩).1.caches.get 1 = C0.get 1 :=
    run_axis_caches_get positions mesh pbvh obmat oc false culled view diag flags color alpha 0 ⟨C0, [], [], false⟩ 1 (by norm_num) (by norm_num) (by norm_num)
  have c02 : (run_axis positions mesh pbvh obmat oc false culled view diag flags color alpha 0 ⟨C0, [], [], false⟩).1.caches.get 2 = C0.get 2 :=
    run_axis_caches_get positions mesh pbvh obmat oc false culled view diag flags color alpha 0 ⟨C0, [], [], false⟩ 2 (by norm_num) (by norm_num) (by norm_num)
  have c12 : (run_axis positions mesh pbvh obmat oc false culled view diag flags color alpha 1 (run_axis positions mesh pbvh obmat oc false culled view diag flags color alpha 0 ⟨C0, [], [], false⟩).1).1.caches.get 2 = (run_axis positions mesh pbvh obmat oc false culled view diag flags color alpha 0 ⟨C0, [], [], false⟩).1.caches.get 2 :=
    run_axis_caches_get positions mesh pbvh obmat oc false culled view diag flags color alpha 1 (run_axis positions mesh pbvh obmat oc false culled view diag flags color alpha 0 ⟨C0, [], [], false⟩).1 2 (by norm_num) (by norm_num) (by norm_num)
  have s0 : (run_axis positions mesh pbvh obmat oc false culled view diag flags color alpha 2 (run_axis positions mesh pbvh obmat oc false culled view diag flags color alpha 1 (run_axis positions mesh pbvh obmat oc false culled view diag flags color alpha 0 ⟨C0, [], [], false⟩).1).1).1.caches.get 0 = (run_axis positions mesh pbvh obmat oc false culled view diag flags color alpha 0 ⟨C0, [], [], false⟩).1.caches.get 0 := by
    rw [run_axis_caches_get positions mesh pbvh obmat oc false culled view diag flags color alpha 2 (run_axis positions mesh pbvh obmat oc false culled view diag flags color alpha 1 (run_axis positions mesh pbvh obmat oc false culled view diag flags color alpha 0 ⟨C0, [], [], false⟩).1).1 0 (by norm_num) (by norm_num) (by norm_num),
      run_axis_caches_get positions mesh pbvh obmat oc false culled view diag flags color alpha 1 (run_axis positions mesh pbvh obmat oc false culled view diag flags color alpha 0 ⟨C0, [], [], false⟩).1 0 (by norm_num) (by norm_num) (by norm_num)]
  have s1 : (run_axis positions mesh pbvh obmat oc false culled view diag flags color alpha 2 (run_axis positions mesh pbvh obmat oc false culled view diag flags color alpha 1 (run_axis positions mesh pbvh obmat oc false culled view diag flags color alpha 0 ⟨C0, [], [], false⟩).1).1).1.caches.get 1 = (run_axis positions mesh pbvh obmat oc false culled view diag flags color alpha 1 (run_axis positions mesh pbvh obmat oc false culled view diag flags color alpha 0 ⟨C0, [], [], false⟩).1).1.caches.get 1 :=
    run_axis_caches_get positions mesh pbvh obmat oc false culled view diag flags color alpha 2 (run_axis positions mesh pbvh obmat oc false culled view diag flags color alpha 1 (run_axis positions mesh pbvh obmat oc false culled view diag flags color alpha 0 ⟨C0, [], [], false⟩).1).1 1 (by norm_num) (by norm_num) (by norm_num)
  have b01 : (run_axis positions mesh pbvh obmat false false culled view diag flags color alpha 0 ⟨(run_axis positions mesh pbvh obmat oc false culled view diag flags color alpha 2 (run_axis positions mesh pbvh obmat oc false culled view diag flags color alpha 1 (run_axis positions mesh pbvh obmat oc false culled view diag flags color alpha 0 ⟨C0, [], [], false⟩).1).1).1.caches, [], [], false⟩).1.caches.get 1 = (run_axis positions mesh pbvh obmat oc false culled view diag flags color alpha 2 (run_axis positions mesh pbvh obmat oc false culled view diag flags color alpha 1 (run_axis positions mesh pbvh obmat oc false culled view diag flags color alpha 0 ⟨C0, [], [], false⟩).1).1).1.caches.get 1 :=
    run_axis_caches_get positions mesh pbvh obmat false false culled view diag flags color alpha 0 ⟨(run_axis positions mesh pbvh obmat oc false culled view diag flags color alpha 2 (run_axis positions mesh pbvh obmat oc false culled view diag flags color alpha 1 (run_axis positions mesh pbvh obmat oc false culled view diag flags color alpha 0 ⟨C0, [], [], false⟩).1).1).1.caches, [], [], false⟩ 1 (by norm_num) (by norm_num) (by norm_num)
  have b02 : (run_axis positions mesh pbvh obmat false false culled view diag flags color alpha 0 ⟨(run_axis positions mesh pbvh obmat oc false culled view diag flags color alpha 2 (run_axis positions mesh pbvh obmat oc false culled view diag flags color alpha 1 (run_axis positions mesh pbvh obmat oc false culled view diag flags color alpha 0 ⟨C0, [], [], false⟩).1).1).1.caches, [], [], false⟩).1.caches.get 2 = (run_axis positions mesh pbvh obmat oc false culled view diag flags color alpha 2 (run_axis positions mesh pbvh obmat oc false culled view diag flags color alpha 1 (run_axis positions mesh pbvh obmat oc false culled view diag flags color alpha 0 ⟨C0, [], [], false⟩).1).1).1.caches.get 2 :=
    run_axis_caches_get positions mesh pbvh obmat false false culled view diag flags color alpha 0 ⟨(run_axis positions mesh pbvh obmat oc false culled view diag flags color alpha 2 (run_axis positions mesh pbvh obmat oc false culled view diag flags color alpha 1 (run_axis positions mesh pbvh obmat oc false culled view diag flags color alpha 0 ⟨C0, [], [], false⟩).1).1).1.caches, [], [], false⟩ 2 (by norm_num) (by norm_num) (by norm_num)
  have b12 : (run_axis positions mesh pbvh obmat false false culled view diag flags color alpha 1 (run_axis positions mesh pbvh obmat false false culled view diag flags color alpha 0 ⟨(run_axis positions mesh pbvh obmat oc false culled view diag flags color alpha 2 (run_axis positions mesh pbvh obmat oc false culled view diag flags color alpha 1 (run_axis positions mesh pbvh obmat oc false culled view diag flags color alpha 0 ⟨C0, [], [], false⟩).1).1).1.caches, [], [], false⟩).1).1.caches.get 2 = (run_axis positions mesh pbvh obmat false false culled view diag flags color alpha 0 ⟨(run_axis positions mesh pbvh obmat oc false culled view diag flags color alpha 2 (run_axis positions mesh pbvh obmat oc false culled view diag flags color alpha 1 (run_axis positions mesh pbvh obmat oc false culled view diag flags color alpha 0 ⟨C0, [], [], false⟩).1).1).1.caches, [], [], false⟩).1.caches.get 2 :=
    run_axis_caches_get positions mesh pbvh obmat false false culled view diag flags color alpha 1 (run_axis positions mesh pbvh obmat false false culled view diag flags color alpha 0 ⟨(run_axis positions mesh pbvh obmat oc false culled view diag flags color alpha 2 (run_axis positions mesh pbvh obmat oc false culled view diag flags color alpha 1 (run_axis positions mesh pbvh obmat oc false culled view diag flags color alpha 0 ⟨C0, [], [], false⟩).1).1).1.caches, [], [], false⟩).1 2 (by norm_num) (by norm_num) (by norm_num)
  obtain ⟨χ0, ka0, kb0⟩ := run_axis_contrib positions mesh pbvh obmat oc culled
    view diag flags color alpha 0 ⟨C0, [], [], false⟩ ⟨(run_axis positions mesh pbvh obmat oc false culled view diag flags color alpha 2 (run_axis positions mesh pbvh obmat oc false culled view diag flags color alpha 1 (run_axis positions mesh pbvh obmat oc false culled view diag flags color alpha 0 ⟨C0, [], [], false⟩).1).1).1.caches, [], [], false⟩
    s0 hp0 (fun h => by
      rw [show (⟨C0, [], [], false⟩ : FrameAcc).caches = C0 from rfl, hoc h]
      rfl)
  obtain ⟨χ1, ka1, kb1⟩ := run_axis_contrib positions mesh pbvh obmat oc culled
    view diag flags color alpha 1 (run_axis positions mesh pbvh obmat oc false culled view diag flags color alpha 0 ⟨C0, [], [], false⟩).1 (run_axis positions mesh pbvh obmat false false culled view diag flags color alpha 0 ⟨(run_axis positions mesh pbvh obmat oc false culled view diag flags color alpha 2 (run_axis positions mesh pbvh obmat oc false culled view diag flags color alpha 1 (run_axis positions mesh pbvh obmat oc false culled view diag flags color alpha 0 ⟨C0, [], [], false⟩).1).1).1.caches, [], [], false⟩).1
    (b01.trans s1) hp1 (fun h => by rw [c01, hoc h]; rfl)
  obtain ⟨χ2, ka2, kb2⟩ := run_axis_contrib positions mesh pbvh obmat oc culled
    view diag flags color alpha 2 (run_axis positions mesh pbvh obmat oc false culled view diag flags color alpha 1 (run_axis positions mesh pbvh obmat oc false culled view diag flags color alpha 0 ⟨C0, [], [], false⟩).1).1 (run_axis positions mesh pbvh obmat false false culled view diag flags color alpha 1 (run_axis positions mesh pbvh obmat false false culled view diag flags color alpha 0 ⟨(run_axis positions mesh pbvh obmat oc false culled view diag flags color alpha 2 (run_axis positions mesh pbvh obmat oc false culled view diag flags color alpha 1 (run_axis positions mesh pbvh obmat oc false culled view diag flags color alpha 0 ⟨C0, [], [], false⟩).1).1).1.caches, [], [], false⟩).1).1
    (b12.trans b02) hp2 (fun h => by rw [c12, c02, hoc h]; rfl)
  rw [kb2, kb1, kb0, ka2, ka1, ka0]

/-- One evaluation step of `update_contours` on a valid, enabled input: the
call either replays the cached contours or regenerates along the three
axes. -/
lemma update_eval (s : ContourState) (i : UpdateInput) (o : Obj)
    (mesh : MeshData) (ho : i.ob = some o) (hdata : o.data = some mesh)
    (hen : s.enable_contours = true) :
    update_contours s i =
    (if (!(s.contours_dirty || decide (s.enable_contours ≠ s.prev_enable) || (decide ((some o.id : Option ℕ) ≠ s.prev_object) || decide (i.symmetry_flags ≠ s.prev_symmetry_flags)) || (match o.pbvh with | some p => !p.dirty_nodes.isEmpty | none => false) || o.stroke_active) && !s.cached_contours.isEmpty) = true
     then
      ({ s with contour_lines := s.contour_lines ++
          contour_lines_of s.cached_contours s.line_color s.line_alpha },
        (zero_metrics, zero_metrics, zero_metrics))
     else
      ({ s with
          cached_contours := (run_axis o.eval_positions (some mesh) o.pbvh o.obmat (decide ((some o.id : Option ℕ) ≠ s.prev_object) || decide (i.symmetry_flags ≠ s.prev_symmetry_flags)) (match o.pbvh with | some p => !p.dirty_nodes.isEmpty | none => false) (match i.rv3d with | some v => some v.culled | none => none) (match i.rv3d, i.region with | some v, some r => some (v.persmat.mul o.obmat, r) | _, _ => none) (compute_diag o.pbvh o.eval_positions) i.symmetry_flags s.line_color s.line_alpha 2 (run_axis o.eval_positions (some mesh) o.pbvh o.obmat (decide ((some o.id : Option ℕ) ≠ s.prev_object) || decide (i.symmetry_flags ≠ s.prev_symmetry_flags)) (match o.pbvh with | some p => !p.dirty_nodes.isEmpty | none => false) (match i.rv3d with | some v => some v.culled | none => none) (match i.rv3d, i.region with | some v, some r => some (v.persmat.mul o.obmat, r) | _, _ => none) (compute_diag o.pbvh o.eval_positions) i.symmetry_flags s.line_color s.line_alpha 1 (run_axis o.eval_positions (some mesh) o.pbvh o.obmat (decide ((some o.id : Option ℕ) ≠ s.prev_object) || decide (i.symmetry_flags ≠ s.prev_symmetry_flags)) (match o.pbvh with | some p => !p.dirty_nodes.isEmpty | none => false) (match i.rv3d with | some v => some v.culled | none => none) (match i.rv3d, i.region with | some v, some r => some (v.persmat.mul o.obmat, r) | _, _ => none) (compute_diag o.pbvh o.eval_positions) i.symmetry_flags s.line_color s.line_alpha 0 ⟨(if (o.stroke_active || o.stroke_active) = true then AxisCaches.empty else if (decide ((some o.id : Option ℕ) ≠ s.prev_object) || decide (i.symmetry_flags ≠ s.prev_symmetry_flags)) = true then AxisCaches.empty else s.caches), [], [], false⟩).1).1).1.cached_contours
          caches := (run_axis o.eval_positions (some mesh) o.pbvh o.obmat (decide ((some o.id : Option ℕ) ≠ s.prev_object) || decide (i.symmetry_flags ≠ s.prev_symmetry_flags)) (match o.pbvh with | some p => !p.dirty_nodes.isEmpty | none => false) (match i.rv3d with | some v => some v.culled | none => none) (match i.rv3d, i.region with | some v, some r => some (v.persmat.mul o.obmat, r) | _, _ => none) (compute_diag o.pbvh o.eval_positions) i.symmetry_flags s.line_color s.line_alpha 2 (run_axis o.eval_positions (some mesh) o.pbvh o.obmat (decide ((some o.id : Option ℕ) ≠ s.prev_object) || decide (i.symmetry_flags ≠ s.prev_symmetry_flags)) (match o.pbvh with | some p => !p.dirty_nodes.isEmpty | none => false) (match i.rv3d with | some v => some v.culled | none => none) (match i.rv3d, i.region with | some v, some r => some (v.persmat.mul o.obmat, r) | _, _ => none) (compute_diag o.pbvh o.eval_positions) i.symmetry_flags s.line_color s.line_alpha 1 (run_axis o.eval_positions (some mesh) o.pbvh o.obmat (decide ((some o.id : Option ℕ) ≠ s.prev_object) || decide (i.symmetry_flags ≠ s.prev_symmetry_flags)) (match o.pbvh with | some p => !p.dirty_nodes.isEmpty | none => false) (match i.rv3d with | some v => some v.culled | none => none) (match i.rv3d, i.region with | some v, some r => some (v.persmat.mul o.obmat, r) | _, _ => none) (compute_diag o.pbvh o.eval_positions) i.symmetry_flags s.line_color s.line_alpha 0 ⟨(if (o.stroke_active || o.stroke_active) = true then AxisCaches.empty else if (decide ((some o.id : Option ℕ) ≠ s.prev_object) || decide (i.symmetry_flags ≠ s.prev_symmetry_flags)) = true then AxisCaches.empty else s.caches), [], [], false⟩).1).1).1.caches
          contour_lines := (run_axis o.eval_positions (some mesh) o.pbvh o.obmat (decide ((some o.id : Option ℕ) ≠ s.prev_object) || decide (i.symmetry_flags ≠ s.prev_symmetry_flags)) (match o.pbvh with | some p => !p.dirty_nodes.isEmpty | none => false) (match i.rv3d with | some v => some v.culled | none => none) (match i.rv3d, i.region with | some v, some r => some (v.persmat.mul o.obmat, r) | _, _ => none) (compute_diag o.pbvh o.eval_positions) i.symmetry_flags s.line_color s.line_alpha 2 (run_axis o.eval_positions (some mesh) o.pbvh o.obmat (decide ((some o.id : Option ℕ) ≠ s.prev_object) || decide (i.symmetry_flags ≠ s.prev_symmetry_flags)) (match o.pbvh with | some p => !p.dirty_nodes.isEmpty | none => false) (match i.rv3d with | some v => some v.culled | none => none) (match i.rv3d, i.region with | some v, some r => some (v.persmat.mul o.obmat, r) | _, _ => none) (compute_diag o.pbvh o.eval_positions) i.symmetry_flags s.line_color s.line_alpha 1 (run_axis o.eval_positions (some mesh) o.pbvh o.obmat (decide ((some o.id : Option ℕ) ≠ s.prev_object) || decide (i.symmetry_flags ≠ s.prev_symmetry_flags)) (match o.pbvh with | some p => !p.dirty_nodes.isEmpty | none => false) (match i.rv3d with | some v => some v.culled | none => none) (match i.rv3d, i.region with | some v, some r => some (v.persmat.mul o.obmat, r) | _, _ => none) (compute_diag o.pbvh o.eval_positions) i.symmetry_flags s.line_color s.line_alpha 0 ⟨(if (o.stroke_active || o.stroke_active) = true then AxisCaches.empty else if (decide ((some o.id : Option ℕ) ≠ s.prev_object) || decide (i.symmetry_flags ≠ s.prev_symmetry_flags)) = true then AxisCaches.empty else s.caches), [], [], false⟩).1).1).1.contour_lines
          contours_dirty := (run_axis o.eval_positions (some mesh) o.pbvh o.obmat (decide ((some o.id : Option ℕ) ≠ s.prev_object) || decide (i.symmetry_flags ≠ s.prev_symmetry_flags)) (match o.pbvh with | some p => !p.dirty_nodes.isEmpty | none => false) (match i.rv3d with | some v => some v.culled | none => none) (match i.rv3d, i.region with | some v, some r => some (v.persmat.mul o.obmat, r) | _, _ => none) (compute_diag o.pbvh o.eval_positions) i.symmetry_flags s.line_color s.line_alpha 2 (run_axis o.eval_positions (some mesh) o.pbvh o.obmat (decide ((some o.id : Option ℕ) ≠ s.prev_object) || decide (i.symmetry_flags ≠ s.prev_symmetry_flags)) (match o.pbvh with | some p => !p.dirty_nodes.isEmpty | none => false) (match i.rv3d with | some v => some v.culled | none => none) (match i.rv3d, i.region with | some v, some r => some (v.persmat.mul o.obmat, r) | _, _ => none) (compute_diag o.pbvh o.eval_positions) i.symmetry_flags s.line_color s.line_alpha 1 (run_axis o.eval_positions (some mesh) o.pbvh o.obmat (decide ((some o.id : Option ℕ) ≠ s.prev_object) || decide (i.symmetry_flags ≠ s.prev_symmetry_flags)) (match o.pbvh with | some p => !p.dirty_nodes.isEmpty | none => false) (match i.rv3d with | some v => some v.culled | none => none) (match i.rv3d, i.region with | some v, some r => some (v.persmat.mul o.obmat, r) | _, _ => none) (compute_diag o.pbvh o.eval_positions) i.symmetry_flags s.line_color s.line_alpha 0 ⟨(if (o.stroke_active || o.stroke_active) = true then AxisCaches.empty else if (decide ((some o.id : Option ℕ) ≠ s.prev_object) || decide (i.symmetry_flags ≠ s.prev_symmetry_flags)) = true then AxisCaches.empty else s.caches), [], [], false⟩).1).1).1.pending_any
          prev_enable := s.enable_contours
          prev_object := some o.id
          prev_symmetry_flags := i.symmetry_flags },
        ((run_axis o.eval_positions (some mesh) o.pbvh o.obmat (decide ((some o.id : Option ℕ) ≠ s.prev_object) || decide (i.symmetry_flags ≠ s.prev_symmetry_flags)) (match o.pbvh with | some p => !p.dirty_nodes.isEmpty | none => false) (match i.rv3d with | some v => some v.culled | none => none) (match i.rv3d, i.region with | some v, some r => some (v.persmat.mul o.obmat, r) | _, _ => none) (compute_diag o.pbvh o.eval_positions) i.symmetry_flags s.line_color s.line_alpha 0 ⟨(if (o.stroke_active || o.stroke_active) = true then AxisCaches.empty else if (decide ((some o.id : Option ℕ) ≠ s.prev_object) || decide (i.symmetry_flags ≠ s.prev_symmetry_flags)) = true then AxisCaches.empty else s.caches), [], [], false⟩).2, (run_axis o.eval_positions (some mesh) o.pbvh o.obmat (decide ((some o.id : Option ℕ) ≠ s.prev_object) || decide (i.symmetry_flags ≠ s.prev_symmetry_flags)) (match o.pbvh with | some p => !p.dirty_nodes.isEmpty | none => false) (match i.rv3d with | some v => some v.culled | none => none) (match i.rv3d, i.region with | some v, some r => some (v.persmat.mul o.obmat, r) | _, _ => none) (compute_diag o.pbvh o.eval_positions) i.symmetry_flags s.line_color s.line_alpha 1 (run_axis o.eval_positions (some mesh) o.pbvh o.obmat (decide ((some o.id : Option ℕ) ≠ s.prev_object) || decide (i.symmetry_flags ≠ s.prev_symmetry_flags)) (match o.pbvh with | some p => !p.dirty_nodes.isEmpty | none => false) (match i.rv3d with | some v => some v.culled | none => none) (match i.rv3d, i.region with | some v, some r => some (v.persmat.mul o.obmat, r) | _, _ => none) (compute_diag o.pbvh o.eval_positions) i.symmetry_flags s.line_color s.line_alpha 0 ⟨(if (o.stroke_active || o.stroke_active) = true then AxisCaches.empty else if (decide ((some o.id : Option ℕ) ≠ s.prev_object) || decide (i.symmetry_flags ≠ s.prev_symmetry_flags)) = true then AxisCaches.empty else s.caches), [], [], false⟩).1).2, (run_axis o.eval_positions (some mesh) o.pbvh o.obmat (decide ((some o.id : Option ℕ) ≠ s.prev_object) || decide (i.symmetry_flags ≠ s.prev_symmetry_flags)) (match o.pbvh with | some p => !p.dirty_nodes.isEmpty | none => false) (match i.rv3d with | some v => some v.culled | none => none) (match i.rv3d, i.region with | some v, some r => some (v.persmat.mul o.obmat, r) | _, _ => none) (compute_diag o.pbvh o.eval_positions) i.symmetry_flags s.line_color s.line_alpha 2 (run_axis o.eval_positions (some mesh) o.pbvh o.obmat (decide ((some o.id : Option ℕ) ≠ s.prev_object) || decide (i.symmetry_flags ≠ s.prev_symmetry_flags)) (match o.pbvh with | some p => !p.dirty_nodes.isEmpty | none => false) (match i.rv3d with | some v => some v.culled | none => none) (match i.rv3d, i.region with | some v, some r => some (v.persmat.mul o.obmat, r) | _, _ => none) (compute_diag o.pbvh o.eval_positions) i.symmetry_flags s.line_color s.line_alpha 1 (run_axis o.eval_positions (some mesh) o.pbvh o.obmat (decide ((some o.id : Option ℕ) ≠ s.prev_object) || decide (i.symmetry_flags ≠ s.prev_symmetry_flags)) (match o.pbvh with | some p => !p.dirty_nodes.isEmpty | none => false) (match i.rv3d with | some v => some v.culled | none => none) (match i.rv3d, i.region with | some v, some r => some (v.persmat.mul o.obmat, r) | _, _ => none) (compute_diag o.pbvh o.eval_positions) i.symmetry_flags s.line_color s.line_alpha 0 ⟨(if (o.stroke_active || o.stroke_active) = true then AxisCaches.empty else if (decide ((some o.id : Option ℕ) ≠ s.prev_object) || decide (i.symmetry_flags ≠ s.prev_symmetry_flags)) = true then AxisCaches.empty else s.caches), [], [], false⟩).1).1).2))) := by
  obtain ⟨iob, iflags, irv, ireg⟩ := i
  obtain ⟨oid, odata, ostroke, opbvh, omat, opos⟩ := o
  simp only [] at ho hdata ⊢
  subst ho hdata
  unfold update_contours
  simp only []
  rw [hen]
  simp only [Bool.not_true, Bool.false_eq_true, if_false]
  rfl

lemma hd_of_no_dirty (o : Obj)
    (hdirty : ∀ p, o.pbvh = some p → p.dirty_nodes = []) :
    (match o.pbvh with
      | some p => !p.dirty_nodes.isEmpty | none => false) = false := by
  rcases hp : o.pbvh with _ | p
  · rfl
  · simp only []
    rw [hdirty p hp]
    rfl

/-- C4: with the same input on both calls, no active stroke, no dirty
leaves, and a clean dirty flag after the first call, a second consecutive
call to `update_contours` leaves the cached polyline list identical to the
one produced by the first call. -/
theorem C4_idempotent (s : ContourState) (i : UpdateInput) (o : Obj)
    (mesh : MeshData) (ho : i.ob = some o) (hdata : o.data = some mesh)
    (hstroke : o.stroke_active = false)
    (hdirty : ∀ p, o.pbvh = some p → p.dirty_nodes = [])
    (hpend : (update_contours s i).1.contours_dirty = false) :
    (update_contours (update_contours s i).1 i).1.cached_contours =
      (update_contours s i).1.cached_contours := by
  have hhd := hd_of_no_dirty o hdirty
  by_cases hen : s.enable_contours = true
  · have E1 := update_eval s i o mesh ho hdata hen
    rw [hhd, hstroke] at E1
    simp only [Bool.or_false, Bool.or_self, Bool.false_eq_true, if_false] at E1
    split at E1
    · rename_i hcond
      rw [E1]
      simp only []
      have E2 := update_eval
        { s with contour_lines := s.contour_lines ++
            contour_lines_of s.cached_contours s.line_color s.line_alpha }
        i o mesh ho hdata hen
      rw [E2, hhd, hstroke]
      simp only [Bool.or_false, Bool.or_self, Bool.false_eq_true, if_false]
      rw [if_pos hcond]
    · rename_i hcond
      rw [E1] at hpend ⊢
      simp only [] at hpend ⊢
      have E2 := update_eval
        { s with
            cached_contours := (run_axis o.eval_positions (some mesh) o.pbvh o.obmat (decide ((some o.id : Option ℕ) ≠ s.prev_object) || decide (i.symmetry_flags ≠ s.prev_symmetry_flags)) false (match i.rv3d with | some v => some v.culled | none => none) (match i.rv3d, i.region with | some v, some r => some (v.persmat.mul o.obmat, r) | _, _ => none) (compute_diag o.pbvh o.eval_positions) i.symmetry_flags s.line_color s.line_alpha 2 (run_axis o.eval_positions (some mesh) o.pbvh o.obmat (decide ((some o.id : Option ℕ) ≠ s.prev_object) || decide (i.symmetry_flags ≠ s.prev_symmetry_flags)) false (match i.rv3d with | some v => some v.culled | none => none) (match i.rv3d, i.region with | some v, some r => some (v.persmat.mul o.obmat, r) | _, _ => none) (compute_diag o.pbvh o.eval_positions) i.symmetry_flags s.line_color s.line_alpha 1 (run_axis o.eval_positions (some mesh) o.pbvh o.obmat (decide ((some o.id : Option ℕ) ≠ s.prev_object) || decide (i.symmetry_flags ≠ s.prev_symmetry_flags)) false (match i.rv3d with | some v => some v.culled | none => none) (match i.rv3d, i.region with | some v, some r => some (v.persmat.mul o.obmat, r) | _, _ => none) (compute_diag o.pbvh o.eval_positions) i.symmetry_flags s.line_color s.line_alpha 0 ⟨(if (decide ((some o.id : Option ℕ) ≠ s.prev_object) || decide (i.symmetry_flags ≠ s.prev_symmetry_flags)) = true then AxisCaches.empty else s.caches), [], [], false⟩).1).1).1.cached_contours
            caches := (run_axis o.eval_positions (some mesh) o.pbvh o.obmat (decide ((some o.id : Option ℕ) ≠ s.prev_object) || decide (i.symmetry_flags ≠ s.prev_symmetry_flags)) false (match i.rv3d with | some v => some v.culled | none => none) (match i.rv3d, i.region with | some v, some r => some (v.persmat.mul o.obmat, r) | _, _ => none) (compute_diag o.pbvh o.eval_positions) i.symmetry_flags s.line_color s.line_alpha 2 (run_axis o.eval_positions (some mesh) o.pbvh o.obmat (decide ((some o.id : Option ℕ) ≠ s.prev_object) || decide (i.symmetry_flags ≠ s.prev_symmetry_flags)) false (match i.rv3d with | some v => some v.culled | none => none) (match i.rv3d, i.region with | some v, some r => some (v.persmat.mul o.obmat, r) | _, _ => none) (compute_diag o.pbvh o.eval_positions) i.symmetry_flags s.line_color s.line_alpha 1 (run_axis o.eval_positions (some mesh) o.pbvh o.obmat (decide ((some o.id : Option ℕ) ≠ s.prev_object) || decide (i.symmetry_flags ≠ s.prev_symmetry_flags)) false (match i.rv3d with | some v => some v.culled | none => none) (match i.rv3d, i.region with | some v, some r => some (v.persmat.mul o.obmat, r) | _, _ => none) (compute_diag o.pbvh o.eval_positions) i.symmetry_flags s.line_color s.line_alpha 0 ⟨(if (decide ((some o.id : Option ℕ) ≠ s.prev_object) || decide (i.symmetry_flags ≠ s.prev_symmetry_flags)) = true then AxisCaches.empty else s.caches), [], [], false⟩).1).1).1.caches
            contour_lines := (run_axis o.eval_positions (some mesh) o.pbvh o.obmat (decide ((some o.id : Option ℕ) ≠ s.prev_object) || decide (i.symmetry_flags ≠ s.prev_symmetry_flags)) false (match i.rv3d with | some v => some v.culled | none => none) (match i.rv3d, i.region with | some v, some r => some (v.persmat.mul o.obmat, r) | _, _ => none) (compute_diag o.pbvh o.eval_positions) i.symmetry_flags s.line_color s.line_alpha 2 (run_axis o.eval_positions (some mesh) o.pbvh o.obmat (decide ((some o.id : Option ℕ) ≠ s.prev_object) || decide (i.symmetry_flags ≠ s.prev_symmetry_flags)) false (match i.rv3d with | some v => some v.culled | none => none) (match i.rv3d, i.region with | some v, some r => some (v.persmat.mul o.obmat, r) | _, _ => none) (compute_diag o.pbvh o.eval_positions) i.symmetry_flags s.line_color s.line_alpha 1 (run_axis o.eval_positions (some mesh) o.pbvh o.obmat (decide ((some o.id : Option ℕ) ≠ s.prev_object) || decide (i.symmetry_flags ≠ s.prev_symmetry_flags)) false (match i.rv3d with | some v => some v.culled | none => none) (match i.rv3d, i.region with | some v, some r => some (v.persmat.mul o.obmat, r) | _, _ => none) (compute_diag o.pbvh o.eval_positions) i.symmetry_flags s.line_color s.line_alpha 0 ⟨(if (decide ((some o.id : Option ℕ) ≠ s.prev_object) || decide (i.symmetry_flags ≠ s.prev_symmetry_flags)) = true then AxisCaches.empty else s.caches), [], [], false⟩).1).1).1.contour_lines
            contours_dirty := (run_axis o.eval_positions (some mesh) o.pbvh o.obmat (decide ((some o.id : Option ℕ) ≠ s.prev_object) || decide (i.symmetry_flags ≠ s.prev_symmetry_flags)) false (match i.rv3d with | some v => some v.culled | none => none) (match i.rv3d, i.region with | some v, some r => some (v.persmat.mul o.obmat, r) | _, _ => none) (compute_diag o.pbvh o.eval_positions) i.symmetry_flags s.line_color s.line_alpha 2 (run_axis o.eval_positions (some mesh) o.pbvh o.obmat (decide ((some o.id : Option ℕ) ≠ s.prev_object) || decide (i.symmetry_flags ≠ s.prev_symmetry_flags)) false (match i.rv3d with | some v => some v.culled | none => none) (match i.rv3d, i.region with | some v, some r => some (v.persmat.mul o.obmat, r) | _, _ => none) (compute_diag o.pbvh o.eval_positions) i.symmetry_flags s.line_color s.line_alpha 1 (run_axis o.eval_positions (some mesh) o.pbvh o.obmat (decide ((some o.id : Option ℕ) ≠ s.prev_object) || decide (i.symmetry_flags ≠ s.prev_symmetry_flags)) false (match i.rv3d with | some v => some v.culled | none => none) (match i.rv3d, i.region with | some v, some r => some (v.persmat.mul o.obmat, r) | _, _ => none) (compute_diag o.pbvh o.eval_positions) i.symmetry_flags s.line_color s.line_alpha 0 ⟨(if (decide ((some o.id : Option ℕ) ≠ s.prev_object) || decide (i.symmetry_flags ≠ s.prev_symmetry_flags)) = true then AxisCaches.empty else s.caches), [], [], false⟩).1).1).1.pending_any
            prev_enable := s.enable_contours
            prev_object := some o.id
            prev_symmetry_flags := i.symmetry_flags }
        i o mesh ho hdata hen
      rw [E2, hhd, hstroke]
      simp only [Bool.or_false, Bool.or_self, Bool.false_eq_true, if_false]
      rw [hpend]
      have d1 : decide ((s.enable_contours : Bool) ≠ s.enable_contours)
          = false := by simp
      have d2 : decide ((some o.id : Option ℕ) ≠ some o.id) = false := by simp
      have d3 : decide (i.symmetry_flags ≠ i.symmetry_flags) = false := by simp
      rw [d1, d2, d3]
      simp only [Bool.or_self, Bool.false_or, Bool.not_false, Bool.true_and,
        Bool.false_eq_true, if_false]
      by_cases hemp : ((run_axis o.eval_positions (some mesh) o.pbvh o.obmat (decide ((some o.id : Option ℕ) ≠ s.prev_object) || decide (i.symmetry_flags ≠ s.prev_symmetry_flags)) false (match i.rv3d with | some v => some v.culled | none => none) (match i.rv3d, i.region with | some v, some r => some (v.persmat.mul o.obmat, r) | _, _ => none) (compute_diag o.pbvh o.eval_positions) i.symmetry_flags s.line_color s.line_alpha 2 (run_axis o.eval_positions (some mesh) o.pbvh o.obmat (decide ((some o.id : Option ℕ) ≠ s.prev_object) || decide (i.symmetry_flags ≠ s.prev_symmetry_flags)) false (match i.rv3d with | some v => some v.culled | none => none) (match i.rv3d, i.region with | some v, some r => some (v.persmat.mul o.obmat, r) | _, _ => none) (compute_diag o.pbvh o.eval_positions) i.symmetry_flags s.line_color s.line_alpha 1 (run_axis o.eval_positions (some mesh) o.pbvh o.obmat (decide ((some o.id : Option ℕ) ≠ s.prev_object) || decide (i.symmetry_flags ≠ s.prev_symmetry_flags)) false (match i.rv3d with | some v => some v.culled | none => none) (match i.rv3d, i.region with | some v, some r => some (v.persmat.mul o.obmat, r) | _, _ => none) (compute_diag o.pbvh o.eval_positions) i.symmetry_flags s.line_color s.line_alpha 0 ⟨(if (decide ((some o.id : Option ℕ) ≠ s.prev_object) || decide (i.symmetry_flags ≠ s.prev_symmetry_flags)) = true then AxisCaches.empty else s.caches), [], [], false⟩).1).1).1.cached_contours).isEmpty = true
      · rw [hemp]
        simp only [Bool.not_true, Bool.false_eq_true, if_false]
        exact frame_idempotent o.eval_positions (some mesh) o.pbvh o.obmat
          (decide ((some o.id : Option ℕ) ≠ s.prev_object) || decide (i.symmetry_flags ≠ s.prev_symmetry_flags)) (match i.rv3d with | some v => some v.culled | none => none) (match i.rv3d, i.region with | some v, some r => some (v.persmat.mul o.obmat, r) | _, _ => none) (compute_diag o.pbvh o.eval_positions)
          i.symmetry_flags s.line_color s.line_alpha
          (if (decide ((some o.id : Option ℕ) ≠ s.prev_object) || decide (i.symmetry_flags ≠ s.prev_symmetry_flags)) = true then AxisCaches.empty else s.caches) (fun h => by rw [h]; rfl) hpend
      · have hempf : ((run_axis o.eval_positions (some mesh) o.pbvh o.obmat (decide ((some o.id : Option ℕ) ≠ s.prev_object) || decide (i.symmetry_flags ≠ s.prev_symmetry_flags)) false (match i.rv3d with | some v => some v.culled | none => none) (match i.rv3d, i.region with | some v, some r => some (v.persmat.mul o.obmat, r) | _, _ => none) (compute_diag o.pbvh o.eval_positions) i.symmetry_flags s.line_color s.line_alpha 2 (run_axis o.eval_positions (some mesh) o.pbvh o.obmat (decide ((some o.id : Option ℕ) ≠ s.prev_object) || decide (i.symmetry_flags ≠ s.prev_symmetry_flags)) false (match i.rv3d with | some v => some v.culled | none => none) (match i.rv3d, i.region with | some v, some r => some (v.persmat.mul o.obmat, r) | _, _ => none) (compute_diag o.pbvh o.eval_positions) i.symmetry_flags s.line_color s.line_alpha 1 (run_axis o.eval_positions (some mesh) o.pbvh o.obmat (decide ((some o.id : Option ℕ) ≠ s.prev_object) || decide (i.symmetry_flags ≠ s.prev_symmetry_flags)) false (match i.rv3d with | some v => some v.culled | none => none) (match i.rv3d, i.region with | some v, some r => some (v.persmat.mul o.obmat, r) | _, _ => none) (compute_diag o.pbvh o.eval_positions) i.symmetry_flags s.line_color s.line_alpha 0 ⟨(if (decide ((some o.id : Option ℕ) ≠ s.prev_object) || decide (i.symmetry_flags ≠ s.prev_symmetry_flags)) = true then AxisCaches.empty else s.caches), [], [], false⟩).1).1).1.cached_contours).isEmpty = false := by
          cases hv2 : ((run_axis o.eval_positions (some mesh) o.pbvh o.obmat (decide ((some o.id : Option ℕ) ≠ s.prev_object) || decide (i.symmetry_flags ≠ s.prev_symmetry_flags)) false (match i.rv3d with | some v => some v.culled | none => none) (match i.rv3d, i.region with | some v, some r => some (v.persmat.mul o.obmat, r) | _, _ => none) (compute_diag o.pbvh o.eval_positions) i.symmetry_flags s.line_color s.line_alpha 2 (run_axis o.eval_positions (some mesh) o.pbvh o.obmat (decide ((some o.id : Option ℕ) ≠ s.prev_object) || decide (i.symmetry_flags ≠ s.prev_symmetry_flags)) false (match i.rv3d with | some v => some v.culled | none => none) (match i.rv3d, i.region with | some v, some r => some (v.persmat.mul o.obmat, r) | _, _ => none) (compute_diag o.pbvh o.eval_positions) i.symmetry_flags s.line_color s.line_alpha 1 (run_axis o.eval_positions (some mesh) o.pbvh o.obmat (decide ((some o.id : Option ℕ) ≠ s.prev_object) || decide (i.symmetry_flags ≠ s.prev_symmetry_flags)) false (match i.rv3d with | some v => some v.culled | none => none) (match i.rv3d, i.region with | some v, some r => some (v.persmat.mul o.obmat, r) | _, _ => none) (compute_diag o.pbvh o.eval_positions) i.symmetry_flags s.line_color s.line_alpha 0 ⟨(if (decide ((some o.id : Option ℕ) ≠ s.prev_object) || decide (i.symmetry_flags ≠ s.prev_symmetry_flags)) = true then AxisCaches.empty else s.caches), [], [], false⟩).1).1).1.cached_contours).isEmpty
          · rfl
          · exact absurd hv2 hemp
        rw [hempf, if_pos (show (!(false : Bool)) = true from rfl)]
  · have henf : s.enable_contours = false := by
      cases hv : s.enable_contours
      · rfl
      · exact absurd hv hen
    have hid : (update_contours s i).1 = s := by
      obtain ⟨iob, iflags, irv, ireg⟩ := i
      obtain ⟨oid, odata, ostroke, opbvh, omat, opos⟩ := o
      simp only [] at ho hdata
      subst ho hdata
      unfold update_contours
      simp only []
      rw [henf]
      rfl
    rw [hid, hid]

/-- Witness for C4 at a concrete input. -/
theorem C4_witness :
    (update_contours (update_contours c4w_state c4w_input).1
      c4w_input).1.cached_contours =
    (update_contours c4w_state c4w_input).1.cached_contours :=
  C4_idempotent c4w_state c4w_input c4w_obj c4w_mesh rfl rfl rfl
    (fun _ hp => Option.noConfusion hp) rfl

end SymmetryContour
